import Mathlib

/-!
Verification development for the `canter` full-text search engine
(`src/lib.rs`, `src/query.rs`, `src/reader.rs`, `src/tokenizer.rs`,
`src/writer.rs`, `src/error.rs`).

The Rust code is shallowly embedded: SQL tables become lists of row
structures, the SQL statements issued by the writer become list
operations on those rows, the query compiler's string building becomes
string concatenation, and the scalar BM25 user-defined function becomes
a real-valued function (`f64` arithmetic is modelled by exact real
arithmetic; the claims proved about it do not depend on rounding).
Numeric fields of `f64` type elsewhere are modelled by `ℚ`, which
represents every finite double exactly.
-/

set_option maxRecDepth 10000

namespace Canter

/-! ## Display formatting

Models of Rust's `Display` ("{}") formatting for `u64`/`usize`, `i64`
and `f64` as used by `write!` in `query.rs`.  Only the character
alphabet of the produced strings matters for the theorems below (no
claim depends on the exact digit string); `fmtQ` renders the exact
decimal expansion of a dyadic rational, which agrees with Rust's
shortest-roundtrip display on the short decimal values the engine
interpolates.
-/

/-- A single decimal digit character. -/
def digitCh : ℕ → Char
  | 0 => '0'
  | 1 => '1'
  | 2 => '2'
  | 3 => '3'
  | 4 => '4'
  | 5 => '5'
  | 6 => '6'
  | 7 => '7'
  | 8 => '8'
  | _ => '9'

/-- Decimal digits of a natural number, most significant first (fuel-bounded). -/
def natChars : ℕ → ℕ → List Char
  | 0, _ => []
  | fuel + 1, n => if n < 10 then [digitCh n] else natChars fuel (n / 10) ++ [digitCh (n % 10)]

/-- Display of a natural number (Rust `{}` on `usize`). -/
def natStr (n : ℕ) : String := ⟨natChars (n + 1) n⟩

/-- Display of an integer (Rust `{}` on `i64`). -/
def intStr (i : ℤ) : String := if i < 0 then "-" ++ natStr i.natAbs else natStr i.natAbs

/-- Fractional digits of a rational in `[0, 1)` (fuel-bounded; terminates
within the fuel for every dyadic rational, i.e. every exact `f64`). -/
def fracChars : ℕ → ℚ → List Char
  | 0, _ => []
  | fuel + 1, r =>
    if r = 0 then []
    else digitCh (⌊r * 10⌋).toNat :: fracChars fuel (r * 10 - ⌊r * 10⌋)

/-- Display of a nonnegative rational. -/
def fmtQnn (x : ℚ) : String :=
  if x - ⌊x⌋ = 0 then natStr (⌊x⌋).toNat
  else natStr (⌊x⌋).toNat ++ "." ++ ⟨fracChars 1100 (x - ⌊x⌋)⟩

/-- Display of a rational (Rust `{}` on `f64`, restricted to the exact
decimal expansion of the stored value). -/
def fmtQ (x : ℚ) : String := if x < 0 then "-" ++ fmtQnn (-x) else fmtQnn x

theorem digitCh_isDigit (n : ℕ) : (digitCh n).isDigit = true := by
  unfold digitCh
  split <;> decide

theorem natChars_isDigit (fuel n : ℕ) : ∀ c ∈ natChars fuel n, c.isDigit = true := by
  induction fuel generalizing n with
  | zero => intro c hc; simp [natChars] at hc
  | succ fuel ih =>
    intro c hc
    unfold natChars at hc
    split at hc
    · simp at hc; subst hc; exact digitCh_isDigit n
    · rcases List.mem_append.mp hc with h | h
      · exact ih _ c h
      · simp at h; subst h; exact digitCh_isDigit (n % 10)

/-- Characters allowed in a numeric rendering. -/
def numCh (c : Char) : Prop := c.isDigit = true ∨ c = '.' ∨ c = '-'

theorem natStr_numCh (n : ℕ) : ∀ c ∈ (natStr n).data, numCh c := by
  intro c hc
  exact Or.inl (natChars_isDigit _ _ c hc)

theorem intStr_numCh (i : ℤ) : ∀ c ∈ (intStr i).data, numCh c := by
  intro c hc
  unfold intStr at hc
  split at hc
  · rcases List.mem_append.mp hc with h | h
    · simp at h; subst h; exact Or.inr (Or.inr rfl)
    · exact natStr_numCh _ c h
  · exact natStr_numCh _ c hc

theorem fracChars_isDigit (fuel : ℕ) (r : ℚ) : ∀ c ∈ fracChars fuel r, c.isDigit = true := by
  induction fuel generalizing r with
  | zero => intro c hc; simp [fracChars] at hc
  | succ fuel ih =>
    intro c hc
    unfold fracChars at hc
    split at hc
    · simp at hc
    · rcases List.mem_cons.mp hc with h | h
      · subst h; exact digitCh_isDigit _
      · exact ih _ c h

theorem fmtQnn_numCh (x : ℚ) : ∀ c ∈ (fmtQnn x).data, numCh c := by
  intro c hc
  unfold fmtQnn at hc
  split at hc
  · exact natStr_numCh _ c hc
  · rcases List.mem_append.mp hc with h | h
    · rcases List.mem_append.mp h with h' | h'
      · exact natStr_numCh _ c h'
      · simp at h'; subst h'; exact Or.inr (Or.inl rfl)
    · exact Or.inl (fracChars_isDigit _ _ c h)

theorem fmtQ_numCh (x : ℚ) : ∀ c ∈ (fmtQ x).data, numCh c := by
  intro c hc
  unfold fmtQ at hc
  split at hc
  · rcases List.mem_append.mp hc with h | h
    · simp at h; subst h; exact Or.inr (Or.inr rfl)
    · exact fmtQnn_numCh _ c h
  · exact fmtQnn_numCh _ c hc

/-! ## Errors (`src/error.rs`)

`Error::Sqlite` carries a `rusqlite::Error`; the embedding does not
distinguish storage errors, so the payload is dropped.  The
`UnclosedQuote` variant is referenced by `Reader::parse` in
`src/reader.rs` and listed in the specification (§7) although the
`error.rs` snapshot does not declare it; it is modelled from the spec:
`UnclosedQuote(text)` — parser: no matching quote.
-/

inductive Error where
  | sqlite
  | fieldConflict (name tokenizer existing_tokenizer : String)
  | noSuchField (name : String)
  | noSuchTokenizer (name : String)
  | disconnectedWriter
  | disconnectedSource
  | missingFieldName (text : String)
  | invalidValue (text : String)
  | unclosedQuote (text : String)
deriving DecidableEq

/-! ## Tokenizer pipeline (`src/tokenizer.rs`)

A tokenizer pushes zero or more tokens through a callback; the
callbacks used by the engine only collect tokens into a vector, so a
tokenizer is modelled as a pure function from the input text to the
list of emitted tokens.  `char::is_alphanumeric`, `char::to_lowercase`
and `char::is_whitespace` are modelled on the ASCII range (via
`Char.isAlphanum`, `Char.toLower`, `Char.isWhitespace`), where they
agree with the Unicode tables the Rust standard library consults.
-/

/-- A tokenizer: text in, emitted tokens out (in emission order). -/
def Tok : Type := String → List String

/-- Model of `Tokenizer::chain`: the inner tokenizer's output feeds the outer one. -/
def chainTok (inner outer : Tok) : Tok := fun text => (inner text).flatMap outer

/-- Model of `StubTokenizer` — emits the input unchanged. -/
def stubTok : Tok := fun text => [text]

/-- Fragments of a character list split at characters satisfying `p`
(the separators are dropped, empty fragments are kept), as produced by
Rust's `str::split`. -/
def splitFrags (p : Char → Bool) : List Char → List Char → List (List Char)
  | [], acc => [acc.reverse]
  | c :: cs, acc => if p c then acc.reverse :: splitFrags p cs [] else splitFrags p cs (c :: acc)

/-- Model of Rust `char::is_alphanumeric` (ASCII range). -/
def isAlnum (c : Char) : Bool := c.isAlphanum

/-- Model of `SplitNonAlphanumeric` — splits on non-alphanumeric characters and
drops the empty fragments. -/
def splitNonAlphanumericTok : Tok := fun text =>
  ((splitFrags (fun c => !isAlnum c) text.data []).filter (· ≠ [])).map (⟨·⟩)

/-- UTF-8 byte length of a character (as counted by Rust's `str::len`). -/
def charBytes (c : Char) : ℕ :=
  if c.val < 0x80 then 1 else if c.val < 0x800 then 2 else if c.val < 0x10000 then 3 else 4

/-- UTF-8 byte length of a string. -/
def byteLen (s : String) : ℕ := (s.data.map charBytes).sum

/-- Model of `LimitLength` — a filter: emits the input only when its byte length
is at most `limit`, otherwise drops it. -/
def limitLengthTok (limit : ℕ) : Tok := fun text => if byteLen text > limit then [] else [text]

/-- Model of `ToLowerCase` — emits a lowercase copy (ASCII model of
`char::to_lowercase`). -/
def toLowerCaseTok : Tok := fun text => [⟨text.data.map Char.toLower⟩]

/-- The `"default"` tokenizer registered by `Index::open`:
`SplitNonAlphanumeric.chain(LimitLength::default()).chain(ToLowerCase::default())`
with `LimitLength::default()` having `limit = 40`. -/
def defaultTok : Tok := chainTok (chainTok splitNonAlphanumericTok (limitLengthTok 40)) toLowerCaseTok

/-! ## Configuration (`src/lib.rs` and spec §6)

`Config` in the `lib.rs` snapshot is `#[non_exhaustive]` with
`bm25_k1` and `bm25_b`; the per-field boost table consulted by
`Reader::parse_clause` (`self.config.fields`) is modelled from the
spec: `config = { bm25_k1: f64, bm25_b: f64, fields: { name → { boost:
f64 } } }`, boost defaulting to `1.0` for fields absent from the map.
-/

structure FieldConfig where
  boost : ℚ

structure Config where
  bm25_k1 : ℚ
  bm25_b : ℚ
  fields : String → Option FieldConfig

/-- Model of `Config::default()`: `k1 = 2.0`, `b = 0.75` (and no per-field boosts). -/
def Config.default : Config := ⟨2, 3 / 4, fun _ => none⟩

/-! ## Field records (`src/lib.rs`)

`read_field` looks a field up by name, joining `canter_fields` with
`canter_documents` to compute the corpus statistics, and caches the
result for the session.  The embedding abstracts the lookup as a map
from field names to `Field` records (the cache only affects staleness
across sessions, which no claim depends on); a missing name yields
`NoSuchField`.
-/

structure Field where
  id : ℤ
  tokenizer : String
  documents : ℕ
  avg_documents_count : ℚ

/-- The environment a read or write session runs against: the field
registry, the tokenizer registry and the index configuration. -/
structure Env where
  fields : String → Option Field
  tokenizers : String → Option Tok
  config : Config

/-! ## Query AST and SQL compiler (`src/query.rs`)

`Query::to_sql(score, sql, params)` appends SQL text to `sql` and
pushes parameter values to `params`; the embedding threads the two
accumulators explicitly and returns the updated pair.  The only values
ever pushed are the term strings, so the parameter vector is modelled
as `List String`.  String literals are transcribed from the source
verbatim, including the indentation captured by Rust raw string
literals; the `{}` interpolations of `write!` become concatenations of
`fmtQ`/`natStr`/`intStr` renderings.
-/

structure TermData where
  field_id : ℤ
  documents : ℕ
  avg_documents_count : ℚ
  boost : ℚ
  value : String
deriving DecidableEq

structure PhraseData where
  field_id : ℤ
  documents : ℕ
  avg_documents_count : ℚ
  boost : ℚ
  values : List String
deriving DecidableEq

inductive Query where
  | all
  | term (q : TermData)
  | phrase (q : PhraseData)
  | combined (should must mustNot : List Query)

inductive Occur where
  | should
  | must
  | mustNot
deriving DecidableEq

/-- Model of `AllQuery::to_sql`. -/
def allSql (score : Bool) : String :=
  if score then "SELECT DISTINCT document_id, 1 AS score, 1 as terms FROM canter_postings"
  else "SELECT DISTINCT document_id FROM canter_postings"

/-- The `JOIN canter_documents …` fragment shared by the scoring term
and phrase bodies. -/
def joinDocsFrag : String := "\nJOIN canter_documents ON canter_terms.field_id = canter_documents.field_id AND canter_postings.document_id = canter_documents.document_id"

/-- The literal pieces of the `write!`/`push_str` calls in
`TermQuery::to_sql`, in emission order (the numbered fragments are the
text between consecutive `{}` interpolations). -/
def termL1 : String := "SELECT canter_postings.document_id AS document_id,\n                   "

def termL2 : String := " * canter_bm25("

def termL3 : String := ", "

def termL4 : String := ",\n                       canter_terms.count,\n                       COUNT(canter_postings.position),\n                       canter_documents.count) AS score,\n                   1 as terms"

def termNoScore : String := "SELECT canter_postings.document_id AS document_id"

def termL5 : String := " FROM canter_terms\nJOIN canter_postings ON canter_terms.id = canter_postings.term_id"

def termL6 : String := "\nWHERE canter_terms.field_id = "

def termL7 : String := " AND canter_terms.value = ? GROUP BY canter_postings.term_id, canter_postings.document_id"

/-- Model of `TermQuery::to_sql`. -/
def termToSql (score : Bool) (t : TermData) (sql : String) (ps : List String) :
    String × List String :=
  let sql :=
    if score then
      sql ++ termL1 ++ fmtQ t.boost ++ termL2 ++ natStr t.documents ++ termL3 ++
        fmtQ t.avg_documents_count ++ termL4
    else sql ++ termNoScore
  let sql := sql ++ termL5
  let sql := if score then sql ++ joinDocsFrag else sql
  let sql := sql ++ termL6 ++ intStr t.field_id ++ termL7
  (sql, ps ++ [t.value])

/-- The `canter_bm25(…) AS score` column of a phrase sub-select. -/
def phraseBm25Frag (documents : ℕ) (avg : ℚ) : String :=
  ",\ncanter_bm25(" ++ natStr documents ++ ", " ++ fmtQ avg ++
    ", canter_terms.count, COUNT(canter_postings.position), canter_documents.count) AS score"

/-- The `" + term_{idx}.score"` columns for `idx` running over `count`
indices starting at `idx`. -/
def phraseScoreCols : ℕ → ℕ → String
  | _, 0 => ""
  | idx, count + 1 => " + term_" ++ natStr idx ++ ".score" ++ phraseScoreCols (idx + 1) count

/-- The literal pieces of `PhraseQuery::to_sql`, in emission order. -/
def phrHead1 : String := "SELECT term_0.document_id AS document_id, "

def phrHead2 : String := " * (term_0.score"

def phrHead3 : String := ") AS score, "

def phrHead4 : String := " AS terms FROM"

def phrNoScore : String := "SELECT term_0.document_id AS document_id FROM"

def phrSub : String := "(SELECT canter_postings.document_id AS document_id, canter_postings.position AS position"

def phrFrom : String := "\nFROM canter_terms JOIN canter_postings ON canter_terms.id = canter_postings.term_id"

def phrWhere : String := "\nWHERE canter_terms.field_id = "

def phrVal0 : String := " AND canter_terms.value = ?\nGROUP BY canter_postings.term_id, canter_postings.document_id) AS term_0"

def phrJoinSub : String := "\nJOIN (SELECT canter_postings.document_id AS document_id, canter_postings.position AS position"

def phrValN : String := " AND canter_terms.value = ?\nGROUP BY canter_postings.term_id, canter_postings.document_id) AS term_"

def phrOn1 : String := "\nON term_"

def phrOn2 : String := ".document_id = term_0.document_id AND term_"

def phrOn3 : String := ".position - term_0.position = "

/-- The joined sub-selects for the phrase tokens after the first
(`for idx in 1..self.values.len()` in `PhraseQuery::to_sql`). -/
def phraseJoins (score : Bool) (documents : ℕ) (avg : ℚ) (field_id : ℤ) :
    ℕ → List String → String → List String → String × List String
  | _, [], sql, ps => (sql, ps)
  | idx, v :: vs, sql, ps =>
    let sql := sql ++ phrJoinSub
    let sql := if score then sql ++ phraseBm25Frag documents avg else sql
    let sql := sql ++ phrFrom
    let sql := if score then sql ++ joinDocsFrag else sql
    let sql := sql ++ phrWhere ++ intStr field_id ++ phrValN ++ natStr idx ++
      phrOn1 ++ natStr idx ++ phrOn2 ++ natStr idx ++ phrOn3 ++ natStr idx
    phraseJoins score documents avg field_id (idx + 1) vs sql (ps ++ [v])

/-- Model of `PhraseQuery::to_sql`. -/
def phraseToSql (score : Bool) (p : PhraseData) (sql : String) (ps : List String) :
    String × List String :=
  match p.values with
  | [] => (sql ++ allSql score, ps)
  | v0 :: vs =>
    let sql :=
      if score then
        sql ++ phrHead1 ++ fmtQ p.boost ++ phrHead2 ++ phraseScoreCols 1 vs.length ++
          phrHead3 ++ natStr (vs.length + 1) ++ phrHead4
      else sql ++ phrNoScore
    let sql := sql ++ phrSub
    let sql := if score then sql ++ phraseBm25Frag p.documents p.avg_documents_count else sql
    let sql := sql ++ phrFrom
    let sql := if score then sql ++ joinDocsFrag else sql
    let sql := sql ++ phrWhere ++ intStr p.field_id ++ phrVal0
    phraseJoins score p.documents p.avg_documents_count p.field_id 1 vs sql (ps ++ [v0])

/-- The `", clause_{idx}.document_id"` columns of the `COALESCE` head. -/
def coalesceCols : ℕ → ℕ → String
  | _, 0 => ""
  | idx, count + 1 => ", clause_" ++ natStr idx ++ ".document_id" ++ coalesceCols (idx + 1) count

/-- The `" + IFNULL(clause_{idx}.terms, 0)"` summands. -/
def ifnullTerms : ℕ → ℕ → String
  | _, 0 => ""
  | idx, count + 1 => " + IFNULL(clause_" ++ natStr idx ++ ".terms, 0)" ++ ifnullTerms (idx + 1) count

/-- The `" + IFNULL(clause_{idx}.score, 0)"` summands. -/
def ifnullScores : ℕ → ℕ → String
  | _, 0 => ""
  | idx, count + 1 => " + IFNULL(clause_" ++ natStr idx ++ ".score, 0)" ++ ifnullScores (idx + 1) count

/-- The `" AND clause_{idx}.document_id IS NULL"` conjuncts. -/
def andNulls : ℕ → ℕ → String
  | _, 0 => ""
  | idx, count + 1 => " AND clause_" ++ natStr idx ++ ".document_id IS NULL" ++ andNulls (idx + 1) count

/-- The literal pieces of `CombinedQuery::to_sql`, in emission order. -/
def cmbSel : String := "SELECT\nclause_0.document_id AS document_id"

def cmbCoal : String := "SELECT\nCOALESCE(NULL, clause_0.document_id"

def cmbCoalEnd : String := ") AS document_id"

def cmbIf1 : String := ",\n(IFNULL(clause_0.terms, 0)"

def cmbIf2 : String := ") * (IFNULL(clause_0.score, 0)"

def cmbIf3 : String := ") AS score,\n1 as terms"

def cmbFrom : String := "\nFROM"

def cmbOpen : String := "\n("

def cmbClause0 : String := ") AS clause_0"

def cmbJoin : String := "\nJOIN ("

def cmbLeftJoin : String := "\nLEFT JOIN ("

def cmbFullJoin : String := "\nFULL JOIN ("

def cmbAs : String := ") AS clause_"

def cmbUsing : String := " USING (document_id)"

def cmbWhere : String := "\nWHERE clause_"

def cmbIsNull : String := ".document_id IS NULL"

mutual

/-- Model of `Query::to_sql` — dispatch over the four AST variants
(`CombinedQuery::to_sql` inlined in the `combined` arm). -/
def toSql : Bool → Query → String → List String → String × List String
  | score, .all, sql, ps => (sql ++ allSql score, ps)
  | score, .term t, sql, ps => termToSql score t sql ps
  | score, .phrase p, sql, ps => phraseToSql score p sql ps
  | score, .combined should must mustNot, sql, ps =>
    let clauses := must.length + should.length
    let acc :=
      if clauses ≠ 0 then
        let sql :=
          if must.length ≠ 0 then sql ++ cmbSel
          else sql ++ cmbCoal ++ coalesceCols 1 (clauses - 1) ++ cmbCoalEnd
        let sql :=
          if score then
            sql ++ cmbIf1 ++ ifnullTerms 1 (clauses - 1) ++ cmbIf2 ++
              ifnullScores 1 (clauses - 1) ++ cmbIf3
          else sql
        let sql := sql ++ cmbFrom
        let acc :=
          match must with
          | [] => (sql, ps)
          | q0 :: qs =>
            let acc := toSql score q0 (sql ++ cmbOpen) ps
            mustJoins score 1 qs (acc.1 ++ cmbClause0) acc.2
        match should with
        | [] => acc
        | q0 :: qs =>
          let pre := if must.length ≠ 0 then cmbLeftJoin else cmbOpen
          let acc' := toSql score q0 (acc.1 ++ pre) acc.2
          let sql := acc'.1 ++ cmbAs ++ natStr must.length ++
            (if must.length ≠ 0 then cmbUsing else "")
          shouldJoins score (must.length + 1) qs sql acc'.2
      else (sql ++ allSql score, ps)
    if mustNot.length ≠ 0 then
      let acc := mustNotJoins clauses mustNot acc.1 acc.2
      (acc.1 ++ cmbWhere ++ natStr clauses ++ cmbIsNull ++
        andNulls (clauses + 1) (mustNot.length - 1), acc.2)
    else acc

/-- The `JOIN (…) AS clause_{idx} USING (document_id)` joins for the
`must` clauses after the first. -/
def mustJoins (score : Bool) : ℕ → List Query → String → List String → String × List String
  | _, [], sql, ps => (sql, ps)
  | idx, q :: qs, sql, ps =>
    let acc := toSql score q (sql ++ cmbJoin) ps
    mustJoins score (idx + 1) qs (acc.1 ++ cmbAs ++ natStr idx ++ cmbUsing) acc.2

/-- The `FULL JOIN (…) AS clause_{idx} USING (document_id)` joins for
the `should` clauses after the first. -/
def shouldJoins (score : Bool) : ℕ → List Query → String → List String → String × List String
  | _, [], sql, ps => (sql, ps)
  | idx, q :: qs, sql, ps =>
    let acc := toSql score q (sql ++ cmbFullJoin) ps
    shouldJoins score (idx + 1) qs (acc.1 ++ cmbAs ++ natStr idx ++ cmbUsing) acc.2

/-- The `LEFT JOIN (…) AS clause_{idx} USING (document_id)` anti-joins
for the `must_not` clauses; the sub-queries are compiled without
scoring. -/
def mustNotJoins : ℕ → List Query → String → List String → String × List String
  | _, [], sql, ps => (sql, ps)
  | idx, q :: qs, sql, ps =>
    let acc := toSql false q (sql ++ cmbLeftJoin) ps
    mustNotJoins (idx + 1) qs (acc.1 ++ cmbAs ++ natStr idx ++ cmbUsing) acc.2

end

mutual

/-- The parameter values a query contributes, in the order
`Query::to_sql` pushes them: for a combined query the `must` clauses
first, then the `should` clauses, then the `must_not` clauses, each
left to right; a term pushes its value, a phrase its values in order.
This is the specification-side description of the binding order, to be
compared with the compiler. -/
def specParams : Query → List String
  | .all => []
  | .term t => [t.value]
  | .phrase p => p.values
  | .combined should must mustNot =>
    specParamsList must ++ specParamsList should ++ specParamsList mustNot

def specParamsList : List Query → List String
  | [] => []
  | q :: qs => specParams q ++ specParamsList qs

end

/-! ## Query parser (`src/reader.rs`)

`Reader::parse` and its helpers, embedded over `List Char` (Rust works
on `&str` slices; slicing at a `char` boundary corresponds to list
splitting).  `parse_clauses` is a `while` loop consuming at least one
character (the `:`) per iteration; the embedding uses fuel
`text.length + 1`, which the loop can never exhaust.
-/

/-- Model of `parse_occur`: a leading `+` is `Must`, a leading `-` is `MustNot`,
otherwise `Should` (nothing consumed). -/
def parseOccur : List Char → Occur × List Char
  | '+' :: rest => (.must, rest)
  | '-' :: rest => (.mustNot, rest)
  | text => (.should, text)

/-- Model of `parse_field_name`: split at the first `:`; no `:` at all is
`MissingFieldName`. -/
def parseFieldName (text : List Char) : Except Error (List Char × List Char) :=
  match text.dropWhile (· ≠ ':') with
  | [] => .error (.missingFieldName ⟨text⟩)
  | _ :: rest => .ok (text.takeWhile (· ≠ ':'), rest)

/-- Model of `parse_values`: a quoted value runs to the next `"` (missing one is
`UnclosedQuote`); an unquoted value runs to the first whitespace
character, which is not consumed.  The value is then tokenized with
the field's tokenizer. -/
def parseValues (tok : Tok) (text : List Char) : Except Error (List String × List Char) :=
  match text with
  | '"' :: rest =>
    match rest.dropWhile (· ≠ '"') with
    | [] => .error (.unclosedQuote ⟨rest⟩)
    | _ :: rest' => .ok (tok ⟨rest.takeWhile (· ≠ '"')⟩, rest')
  | _ =>
    .ok (tok ⟨text.takeWhile (fun c => !c.isWhitespace)⟩, text.dropWhile (fun c => !c.isWhitespace))

/-- Model of `Reader::parse_clause`. -/
def parseClause (env : Env) (text : List Char) : Except Error (Occur × Query × List Char) := do
  let (occur, text) := parseOccur text
  let (fieldName, text) ← parseFieldName text
  let fieldName : String := ⟨fieldName⟩
  let field ← match env.fields fieldName with
    | some field => .ok field
    | none => .error (.noSuchField fieldName)
  let tok ← match env.tokenizers field.tokenizer with
    | some tok => .ok tok
    | none => .error (.noSuchTokenizer field.tokenizer)
  let (values, rest) ← parseValues tok text
  let boost := match env.config.fields fieldName with
    | some config => config.boost
    | none => 1
  let query ← match values with
    | [] => .error (.invalidValue ⟨text⟩)
    | [v] => .ok (Query.term ⟨field.id, field.documents, field.avg_documents_count, boost, v⟩)
    | vs => .ok (Query.phrase ⟨field.id, field.documents, field.avg_documents_count, boost, vs⟩)
  .ok (occur, query, rest.dropWhile Char.isWhitespace)

/-- Model of `Reader::parse_clauses`: loop while the remaining text is nonempty
(fuel-bounded; each iteration consumes the clause's `:`). -/
def parseClauses (env : Env) : ℕ → List Char → Except Error (List (Occur × Query))
  | 0, _ => .error .sqlite
  | _ + 1, [] => .ok []
  | fuel + 1, text => do
    let (occur, query, rest) ← parseClause env text
    let clauses ← parseClauses env fuel rest
    .ok ((occur, query) :: clauses)

/-- Model of `CombinedQuery::new`: partition the clauses by occurrence,
preserving relative order. -/
def combinedNew (clauses : List (Occur × Query)) : Query :=
  .combined
    (clauses.filterMap fun c => if c.1 = .should then some c.2 else none)
    (clauses.filterMap fun c => if c.1 = .must then some c.2 else none)
    (clauses.filterMap fun c => if c.1 = .mustNot then some c.2 else none)

/-- Model of `Reader::parse`: trim leading whitespace, parse all clauses, wrap
them in a `CombinedQuery`. -/
def parse (env : Env) (text : String) : Except Error Query := do
  let text := text.data.dropWhile Char.isWhitespace
  let clauses ← parseClauses env (text.length + 1) text
  .ok (combinedNew clauses)

/-! ## Storage tables and the writer (`src/lib.rs` schema, `src/writer.rs`)

The three tables a rewrite session repopulates are modelled as row
lists in insertion order.  `canter_terms.id` is an `INTEGER PRIMARY
KEY`; inside a rewrite session (which starts by deleting every row)
SQLite allocates fresh, strictly increasing rowids, modelled by the
`nextTermId` counter.  `canter_fields` is kept separately
(`Index::rewrite` does not clear it) and only enters through `Env`.
-/

structure TermRow where
  id : ℤ
  field_id : ℤ
  value : String
  count : ℕ
deriving DecidableEq

structure PostingRow where
  term_id : ℤ
  document_id : ℤ
  position : ℕ
deriving DecidableEq

structure DocRow where
  field_id : ℤ
  document_id : ℤ
  count : ℕ
deriving DecidableEq

structure Store where
  nextTermId : ℤ
  terms : List TermRow
  postings : List PostingRow
  documents : List DocRow
deriving DecidableEq

/-- The store right after `Index::rewrite` deleted all rows. -/
def emptyStore : Store := ⟨1, [], [], []⟩

/-- Model of `SELECT id FROM canter_terms WHERE field_id = ? AND value = ?`. -/
def findTerm : List TermRow → ℤ → String → Option TermRow
  | [], _, _ => none
  | t :: ts, fid, v => if t.field_id = fid ∧ t.value = v then some t else findTerm ts fid v

/-- Model of `add_term`: bump the count of the existing `(field_id, value)` term
and return its id, or insert a fresh term with count 1 and return the
id SQLite assigned it. -/
def addTerm (s : Store) (fid : ℤ) (v : String) : Store × ℤ :=
  match findTerm s.terms fid v with
  | some t =>
    ({ s with terms := s.terms.map fun u => if u.id = t.id then { u with count := u.count + 1 } else u },
      t.id)
  | none =>
    ({ s with nextTermId := s.nextTermId + 1,
              terms := s.terms ++ [⟨s.nextTermId, fid, v, 1⟩] },
      s.nextTermId)

/-- Model of `add_posting`: `INSERT INTO canter_postings …` — fails with a
storage error if the `(term_id, document_id, position)` primary key is
already present. -/
def addPosting (s : Store) (tid did : ℤ) (pos : ℕ) : Except Error Store :=
  if s.postings.any fun p => p.term_id = tid ∧ p.document_id = did ∧ p.position = pos then
    .error .sqlite
  else .ok { s with postings := s.postings ++ [⟨tid, did, pos⟩] }

/-- Model of `SELECT count FROM canter_documents WHERE field_id = ? AND document_id = ?`. -/
def findDoc : List DocRow → ℤ → ℤ → Option DocRow
  | [], _, _ => none
  | d :: ds, fid, did =>
    if d.field_id = fid ∧ d.document_id = did then some d else findDoc ds fid did

/-- Model of `reset_position`: the stored document count, or 0 if absent. -/
def resetPosition (s : Store) (fid did : ℤ) : ℕ :=
  match findDoc s.documents fid did with
  | some d => d.count
  | none => 0

/-- Model of `add_document`: upsert of the `(field_id, document_id)` document
record, overwriting `count` on conflict. -/
def addDocument (s : Store) (fid did : ℤ) (pos : ℕ) : Store :=
  if s.documents.any fun d => d.field_id = fid ∧ d.document_id = did then
    { s with documents := s.documents.map fun d =>
        if d.field_id = fid ∧ d.document_id = did then { d with count := pos } else d }
  else { s with documents := s.documents ++ [⟨fid, did, pos⟩] }

/-- The token loop inside `Writer::add_text`: for each token increment
the position, upsert the term and insert a posting. -/
def addTokens (fid did : ℤ) : List String → Store → ℕ → Except Error (Store × ℕ)
  | [], s, pos => .ok (s, pos)
  | tk :: tks, s, pos => do
    let pos := pos + 1
    let (s, tid) := addTerm s fid tk
    let s ← addPosting s tid did pos
    addTokens fid did tks s pos

/-- Model of `Writer::add_text`: resolve the field and its tokenizer, resume the
position from the stored document count, ingest the tokens, upsert the
document record with the final position. -/
def addText (env : Env) (s : Store) (did : ℤ) (fieldName text : String) :
    Except Error Store := do
  let field ← match env.fields fieldName with
    | some field => .ok field
    | none => .error (.noSuchField fieldName)
  let tok ← match env.tokenizers field.tokenizer with
    | some tok => .ok tok
    | none => .error (.noSuchTokenizer field.tokenizer)
  let (s, pos) ← addTokens field.id did (tok text) s (resetPosition s field.id did)
  .ok (addDocument s field.id did pos)

/-- A sequence of `add_text` calls within one rewrite session. -/
def applyCalls (env : Env) : Store → List (ℤ × String × String) → Except Error Store
  | s, [] => .ok s
  | s, (did, fieldName, text) :: calls => do
    let s ← addText env s did fieldName text
    applyCalls env s calls

/-! ## `Index::add_field` (`src/lib.rs`)

The `canter_fields` table as a row list; `add_field` queries the
tokenizer bound to the name and inserts only when the name is new.
The id of the inserted row models SQLite's fresh-rowid choice
`max(id) + 1`.
-/

structure FieldRow where
  id : ℤ
  name : String
  tokenizer : String
deriving DecidableEq

/-- Model of `SELECT tokenizer FROM canter_fields WHERE name = ?`. -/
def findFieldRow : List FieldRow → String → Option FieldRow
  | [], _ => none
  | f :: fs, name => if f.name = name then some f else findFieldRow fs name

/-- The rowid SQLite assigns to a row inserted into `canter_fields`. -/
def nextFieldId (table : List FieldRow) : ℤ :=
  (table.map FieldRow.id).foldr max 0 + 1

/-- Model of `Index::add_field`. -/
def addField (table : List FieldRow) (name tokenizer : String) :
    Except Error (List FieldRow) :=
  match findFieldRow table name with
  | some f =>
    if f.tokenizer = tokenizer then .ok table
    else .error (.fieldConflict name tokenizer f.tokenizer)
  | none => .ok (table ++ [⟨nextFieldId table, name, tokenizer⟩])

/-! ## The BM25 scalar function (`Index::open` in `src/lib.rs`)

`canter_bm25(N, avgdl, df, tf, dl)` is registered on the connection
with `k1` and `b` captured from the `Config` given to `open`.  The
integer arguments arrive as `usize` and are cast to `f64`; `f64`
arithmetic is modelled by exact real arithmetic.
-/

noncomputable def canter_bm25 (bm25_k1 bm25_b : ℝ) (documents : ℕ)
    (avg_documents_count : ℝ) (terms_count postings_count documents_count : ℕ) : ℝ :=
  let documents : ℝ := documents
  let terms_count : ℝ := terms_count
  let postings_count : ℝ := postings_count
  let documents_count : ℝ := documents_count
  let idf := Real.log ((documents - terms_count + 0.5) / (terms_count + 0.5) + 1.0)
  idf * (postings_count * (bm25_k1 + 1.0)) /
    (postings_count + bm25_k1 * (1.0 - bm25_b + bm25_b * documents_count / avg_documents_count))

/-- The BM25 formula as the specification states it:
`idf = ln((N − df + 0.5) / (df + 0.5) + 1)` and
`bm25 = idf · (tf·(k1+1)) / (tf + k1·(1 − b + b·dl/avgdl))`. -/
noncomputable def bm25Spec (k1 b : ℝ) (N : ℕ) (avgdl : ℝ) (df tf dl : ℕ) : ℝ :=
  Real.log (((N : ℝ) - (df : ℝ) + 0.5) / ((df : ℝ) + 0.5) + 1) *
    ((tf : ℝ) * (k1 + 1)) / ((tf : ℝ) + k1 * (1 - b + b * (dl : ℝ) / avgdl))

/-! ## Claims -/

/-- C1: The scalar function `canter_bm25` registered by `Index::open`,
applied to `(N, avgdl, df, tf, dl)`, computes
`idf * (tf * (k1 + 1)) / (tf + k1 * (1 - b + b * dl / avgdl))` with
`idf = ln((N - df + 0.5) / (df + 0.5) + 1)`, where `k1` and `b` come
from the config given to `open`, defaulting to `k1 = 2.0`,
`b = 0.75`. -/
theorem claim_C1 :
    (∀ (cfg : Config) (N : ℕ) (avgdl : ℝ) (df tf dl : ℕ),
      canter_bm25 (cfg.bm25_k1 : ℝ) (cfg.bm25_b : ℝ) N avgdl df tf dl =
        bm25Spec (cfg.bm25_k1 : ℝ) (cfg.bm25_b : ℝ) N avgdl df tf dl) ∧
    Config.default.bm25_k1 = 2 ∧ Config.default.bm25_b = 0.75 := by
  refine ⟨fun cfg N avgdl df tf dl => ?_, rfl, by norm_num [Config.default]⟩
  unfold canter_bm25 bm25Spec
  norm_num

/-- C6: `add_field(name, tokenizer)` succeeds and leaves the fields
table unchanged when a row for `name` exists with the same tokenizer;
fails with `FieldConflict` (table unchanged) when the row's tokenizer
differs; otherwise inserts a `(name, tokenizer)` row and succeeds. -/
theorem claim_C6 (table : List FieldRow) (name tokenizer : String) :
    ((findFieldRow table name).map FieldRow.tokenizer = some tokenizer →
      addField table name tokenizer = .ok table) ∧
    (∀ existing, (findFieldRow table name).map FieldRow.tokenizer = some existing →
      existing ≠ tokenizer →
      addField table name tokenizer = .error (.fieldConflict name tokenizer existing)) ∧
    (findFieldRow table name = none →
      ∃ id, addField table name tokenizer = .ok (table ++ [⟨id, name, tokenizer⟩])) := by
  refine ⟨?_, ?_, ?_⟩
  · intro h
    unfold addField
    cases hf : findFieldRow table name with
    | none => rw [hf] at h; simp at h
    | some f =>
      rw [hf] at h
      have h' : f.tokenizer = tokenizer := by
        simpa using h
      simp [h']
  · intro existing h hne
    unfold addField
    cases hf : findFieldRow table name with
    | none => rw [hf] at h; simp at h
    | some f =>
      rw [hf] at h
      have h' : f.tokenizer = existing := by
        simpa using h
      subst h'
      simp [hne]
  · intro h
    exact ⟨nextFieldId table, by unfold addField; rw [h]⟩

theorem claim_C6_witness :
    addField [⟨1, "a", "x"⟩] "a" "x" = .ok [⟨1, "a", "x"⟩] ∧
    addField [⟨1, "a", "x"⟩] "a" "y" = .error (.fieldConflict "a" "y" "x") ∧
    (∃ id, addField [⟨1, "a", "x"⟩] "b" "y" = .ok ([⟨1, "a", "x"⟩] ++ [⟨id, "b", "y"⟩])) :=
  ⟨(claim_C6 [⟨1, "a", "x"⟩] "a" "x").1 (by decide),
   (claim_C6 [⟨1, "a", "x"⟩] "a" "y").2.1 "x" (by decide) (by decide),
   (claim_C6 [⟨1, "a", "x"⟩] "b" "y").2.2 (by decide)⟩

theorem ok_bind {α β : Type} (a : α) (f : α → Except Error β) :
    (Except.ok a >>= f) = f a := rfl

theorem error_bind {α β : Type} (e : Error) (f : α → Except Error β) :
    ((Except.error e : Except Error α) >>= f) = .error e := rfl

/-- A concrete environment with no declared fields or tokenizers. -/
def envNone : Env := ⟨fun _ => none, fun _ => none, Config.default⟩

/-- C8: For every string `s` whose `trim()` is empty, `parse(s)`
succeeds and the resulting query compiles — via `to_sql`, in both the
scoring and the non-scoring mode — to exactly the SQL text and the
empty parameter list that `AllQuery` compiles to. -/
theorem claim_C8 (env : Env) (s : String) (h : ∀ c ∈ s.data, c.isWhitespace = true) :
    ∃ q, parse env s = .ok q ∧
      (∀ score : Bool, toSql score q "" [] = toSql score .all "" []) ∧
      (∀ score : Bool, (toSql score q "" []).2 = ([] : List String)) := by
  have hd : s.data.dropWhile Char.isWhitespace = [] := List.dropWhile_eq_nil_iff.mpr h
  refine ⟨.combined [] [] [], ?_, ?_, ?_⟩
  · unfold parse
    rw [hd]
    rfl
  · intro score
    rfl
  · intro score
    rfl

theorem claim_C8_witness :
    (∀ c ∈ (" \t " : String).data, c.isWhitespace = true) ∧
      ∃ q, parse envNone " \t " = .ok q ∧
        (∀ score : Bool, toSql score q "" [] = toSql score .all "" []) ∧
        (∀ score : Bool, (toSql score q "" []).2 = ([] : List String)) :=
  ⟨by decide, claim_C8 envNone " \t " (by decide)⟩

/-- C10: For every query text whose first clause begins with `:` (zero
characters before the field separator), `parse` does not raise
`MissingFieldName`: it takes the empty string as the field name, and
since no field named `""` is declared it raises `NoSuchField("")`. -/
theorem claim_C10 (env : Env) (s : String) (cs : List Char)
    (hstart : s.data.dropWhile Char.isWhitespace = ':' :: cs)
    (hfield : env.fields "" = none) :
    parse env s = .error (.noSuchField "") ∧
      ∀ t, parse env s ≠ .error (.missingFieldName t) := by
  have hocc : parseOccur (':' :: cs) = (Occur.should, ':' :: cs) := rfl
  have hfn : parseFieldName (':' :: cs) = .ok ([], cs) := rfl
  have hf2 : env.fields ⟨[]⟩ = none := hfield
  have hclause : parseClause env (':' :: cs) = .error (.noSuchField "") := by
    simp only [parseClause, hocc, hfn, ok_bind, hf2, error_bind]
  have heq : parse env s = .error (.noSuchField "") := by
    have hcl : parseClauses env (cs.length + 1 + 1) (':' :: cs) = .error (.noSuchField "") := by
      simp only [parseClauses, hclause, error_bind]
    simp only [parse, hstart, List.length_cons, hcl, error_bind]
  exact ⟨heq, fun t h => by rw [heq] at h; cases h⟩

theorem claim_C10_witness :
    (":foo" : String).data.dropWhile Char.isWhitespace = ':' :: "foo".data ∧
      envNone.fields "" = none ∧
      parse envNone ":foo" = .error (.noSuchField "") ∧
      ∀ t, parse envNone ":foo" ≠ .error (.missingFieldName t) :=
  ⟨by decide, rfl,
    (claim_C10 envNone ":foo" "foo".data (by decide) rfl).1,
    (claim_C10 envNone ":foo" "foo".data (by decide) rfl).2⟩

theorem splitFrags_no_sep (p : Char → Bool) (l acc : List Char)
    (h : ∀ c ∈ l, p c = false) : splitFrags p l acc = [acc.reverse ++ l] := by
  induction l generalizing acc with
  | nil => simp [splitFrags]
  | cons c cs ih =>
    have hc : p c = false := h c (List.mem_cons_self c cs)
    rw [splitFrags, hc]
    simp only [Bool.false_eq_true, if_false]
    rw [ih (c :: acc) fun x hx => h x (List.mem_cons_of_mem c hx)]
    simp

/-- A nonempty all-alphanumeric text longer than 40 bytes passes
`SplitNonAlphanumeric` whole and is then dropped by `LimitLength`. -/
theorem defaultTok_long_alnum (text : String) (hne : text.data ≠ [])
    (halnum : ∀ c ∈ text.data, isAlnum c = true) (hlen : byteLen text > 40) :
    defaultTok text = [] := by
  have hsplit : splitNonAlphanumericTok text = [text] := by
    unfold splitNonAlphanumericTok
    rw [splitFrags_no_sep _ _ _ fun c hc => by simp [halnum c hc]]
    simp [hne]
  have hlimit : limitLengthTok 40 text = [] := by
    unfold limitLengthTok
    simp [hlen]
  unfold defaultTok chainTok
  rw [hsplit]
  simp [hlimit]

theorem findDoc_none_iff (ds : List DocRow) (fid did : ℤ) :
    findDoc ds fid did = none ↔ ∀ d ∈ ds, ¬(d.field_id = fid ∧ d.document_id = did) := by
  induction ds with
  | nil => simp [findDoc]
  | cons d ds ih =>
    rw [findDoc]
    by_cases h : d.field_id = fid ∧ d.document_id = did
    · simp only [if_pos h]
      constructor
      · intro hcontra; cases hcontra
      · intro hall; exact absurd h (hall d (List.mem_cons_self d ds))
    · simp only [if_neg h]
      rw [ih]
      constructor
      · intro hall x hx
        rcases List.mem_cons.mp hx with rfl | hx'
        · exact h
        · exact hall x hx'
      · intro hall x hx
        exact hall x (List.mem_cons_of_mem d hx)

theorem findDoc_append_none (ds : List DocRow) (fid did : ℤ) (row : DocRow)
    (h : findDoc ds fid did = none) (hrow : row.field_id = fid ∧ row.document_id = did) :
    findDoc (ds ++ [row]) fid did = some row := by
  induction ds with
  | nil => simp [findDoc, hrow]
  | cons d ds ih =>
    rw [findDoc.eq_def] at h
    rw [List.cons_append, findDoc.eq_def]
    by_cases hc : d.field_id = fid ∧ d.document_id = did
    · simp [hc] at h
    · simp only [hc, if_false, if_neg hc] at h ⊢
      exact ih h

/-- C7: For a field bound to the default tokenizer and a
`(field, document)` pair with no existing document record, `add_text`
with a text that is a single alphanumeric token longer than 40 bytes
inserts no term and no posting, yet upserts a document record for the
pair with `count = 0`. -/
theorem claim_C7 (env : Env) (s : Store) (did : ℤ) (fieldName : String) (field : Field)
    (hf : env.fields fieldName = some field)
    (ht : env.tokenizers field.tokenizer = some defaultTok)
    (hd : findDoc s.documents field.id did = none)
    (text : String) (hne : text.data ≠ [])
    (halnum : ∀ c ∈ text.data, isAlnum c = true)
    (hlen : byteLen text > 40) :
    ∃ s', addText env s did fieldName text = .ok s' ∧
      s'.terms = s.terms ∧ s'.postings = s.postings ∧
      (findDoc s'.documents field.id did).map DocRow.count = some 0 := by
  have htok : defaultTok text = [] := defaultTok_long_alnum text hne halnum hlen
  have hpos : resetPosition s field.id did = 0 := by
    unfold resetPosition
    rw [hd]
  have hany : (s.documents.any fun d => d.field_id = field.id ∧ d.document_id = did) = false := by
    rw [List.any_eq_false]
    intro d hdm
    simpa using (findDoc_none_iff s.documents field.id did).mp hd d hdm
  have hupsert : addDocument s field.id did 0 =
      { s with documents := s.documents ++ [⟨field.id, did, 0⟩] } := by
    unfold addDocument
    rw [hany]
    simp
  refine ⟨{ s with documents := s.documents ++ [⟨field.id, did, 0⟩] }, ?_, rfl, rfl, ?_⟩
  · simp only [addText, hf, ok_bind, ht, htok, hpos, addTokens, hupsert]
  · rw [findDoc_append_none s.documents field.id did ⟨field.id, did, 0⟩ hd ⟨rfl, rfl⟩]
    rfl

/-- A concrete environment binding the field `"field"` (id 1) to the
default tokenizer. -/
def envDefault : Env :=
  ⟨fun n => if n = "field" then some ⟨1, "default", 0, 0⟩ else none,
   fun n => if n = "default" then some defaultTok else none,
   Config.default⟩

theorem claim_C7_witness :
    ∃ s', addText envDefault emptyStore 7 "field"
        "aaaaaaaaaaaaaaaaaaaaaaaaaaaaaaaaaaaaaaaaa" = .ok s' ∧
      s'.terms = emptyStore.terms ∧ s'.postings = emptyStore.postings ∧
      (findDoc s'.documents (1 : ℤ) 7).map DocRow.count = some 0 :=
  claim_C7 envDefault emptyStore 7 "field" ⟨1, "default", 0, 0⟩ rfl rfl rfl
    "aaaaaaaaaaaaaaaaaaaaaaaaaaaaaaaaaaaaaaaaa" (by decide) (by decide) (by decide)

theorem no_b_of_numCh (s : String) (h : ∀ c ∈ s.data, numCh c) :
    s.data.count 'b' = 0 := by
  rw [List.count_eq_zero]
  intro hb
  rcases h _ hb with h1 | h2 | h3
  · simp at h1
  · simp at h2
  · simp at h3

set_option maxRecDepth 8000 in
/-- C3: For every `TermQuery`, the scoring SQL emitted by `to_sql`
passes `canter_terms.count` — the term's total occurrence count — as
the third (`df`) argument of `canter_bm25`.  The displayed occurrence
is the only call: `b` occurs exactly once in the whole statement, and
every `canter_bm25` call contains one. -/
theorem claim_C3 (t : TermData) :
    ∃ pre post,
      (termToSql true t "" []).1 =
        pre ++ "canter_bm25(" ++ natStr t.documents ++ ", " ++
          fmtQ t.avg_documents_count ++
          ",\n                       canter_terms.count," ++ post ∧
      (termToSql true t "" []).1.data.count 'b' = 1 ∧
      (termToSql true t "" []).2 = [t.value] := by
  refine ⟨"SELECT canter_postings.document_id AS document_id,\n                   " ++
      fmtQ t.boost ++ " * ",
    "\n                       COUNT(canter_postings.position),\n                       canter_documents.count) AS score,\n                   1 as terms" ++
      " FROM canter_terms\nJOIN canter_postings ON canter_terms.id = canter_postings.term_id" ++
      joinDocsFrag ++ "\nWHERE canter_terms.field_id = " ++ intStr t.field_id ++
      " AND canter_terms.value = ? GROUP BY canter_postings.term_id, canter_postings.document_id",
    ?_, ?_, rfl⟩
  · unfold termToSql
    apply String.ext
    simp only [termL1, termL2, termL3, termL4, termL5, termL6, termL7, joinDocsFrag,
      String.data_append, List.append_assoc, List.cons_append, List.nil_append, if_true]
  · unfold termToSql
    simp only [if_true, String.data_append, List.count_append]
    rw [no_b_of_numCh _ (fmtQ_numCh t.boost), no_b_of_numCh _ (natStr_numCh t.documents),
      no_b_of_numCh _ (fmtQ_numCh t.avg_documents_count),
      no_b_of_numCh _ (intStr_numCh t.field_id)]
    decide

/-! ## Placeholder counting (for the parameter-binding invariant)

`cntQ s` counts the `?` placeholders in an SQL string. -/

def cntQ (s : String) : ℕ := s.data.count '?'

theorem cntQ_append (a b : String) : cntQ (a ++ b) = cntQ a + cntQ b := by
  unfold cntQ
  rw [String.data_append, List.count_append]

theorem cntQ_of_numCh (s : String) (h : ∀ c ∈ s.data, numCh c) : cntQ s = 0 := by
  unfold cntQ
  rw [List.count_eq_zero]
  intro hm
  rcases h _ hm with h1 | h2 | h3
  · simp at h1
  · simp at h2
  · simp at h3

theorem cntQ_fmtQ (x : ℚ) : cntQ (fmtQ x) = 0 := cntQ_of_numCh _ (fmtQ_numCh x)

theorem cntQ_natStr (n : ℕ) : cntQ (natStr n) = 0 := cntQ_of_numCh _ (natStr_numCh n)

theorem cntQ_intStr (i : ℤ) : cntQ (intStr i) = 0 := cntQ_of_numCh _ (intStr_numCh i)

theorem cntQ_allSql (score : Bool) : cntQ (allSql score) = 0 := by cases score <;> rfl

theorem cntQ_termL1 : cntQ termL1 = 0 := rfl

theorem cntQ_termL2 : cntQ termL2 = 0 := rfl

theorem cntQ_termL3 : cntQ termL3 = 0 := rfl

theorem cntQ_termL4 : cntQ termL4 = 0 := rfl

theorem cntQ_termL5 : cntQ termL5 = 0 := rfl

theorem cntQ_termL6 : cntQ termL6 = 0 := rfl

theorem cntQ_termL7 : cntQ termL7 = 1 := rfl

theorem cntQ_termNoScore : cntQ termNoScore = 0 := rfl

theorem cntQ_joinDocsFrag : cntQ joinDocsFrag = 0 := rfl

theorem cntQ_phraseBm25Frag (d : ℕ) (a : ℚ) : cntQ (phraseBm25Frag d a) = 0 := by
  unfold phraseBm25Frag
  simp only [cntQ_append, cntQ_natStr, cntQ_fmtQ]
  decide

theorem cntQ_phraseScoreCols (count idx : ℕ) : cntQ (phraseScoreCols idx count) = 0 := by
  induction count generalizing idx with
  | zero => rfl
  | succ count ih =>
    rw [phraseScoreCols]
    simp only [cntQ_append, cntQ_natStr, ih]
    decide

theorem cntQ_phrHead1 : cntQ phrHead1 = 0 := rfl

theorem cntQ_phrHead2 : cntQ phrHead2 = 0 := rfl

theorem cntQ_phrHead3 : cntQ phrHead3 = 0 := rfl

theorem cntQ_phrHead4 : cntQ phrHead4 = 0 := rfl

theorem cntQ_phrNoScore : cntQ phrNoScore = 0 := rfl

theorem cntQ_phrSub : cntQ phrSub = 0 := rfl

theorem cntQ_phrFrom : cntQ phrFrom = 0 := rfl

theorem cntQ_phrWhere : cntQ phrWhere = 0 := rfl

theorem cntQ_phrVal0 : cntQ phrVal0 = 1 := rfl

theorem cntQ_phrJoinSub : cntQ phrJoinSub = 0 := rfl

theorem cntQ_phrValN : cntQ phrValN = 1 := rfl

theorem cntQ_phrOn1 : cntQ phrOn1 = 0 := rfl

theorem cntQ_phrOn2 : cntQ phrOn2 = 0 := rfl

theorem cntQ_phrOn3 : cntQ phrOn3 = 0 := rfl

theorem cntQ_cmbSel : cntQ cmbSel = 0 := rfl

theorem cntQ_cmbCoal : cntQ cmbCoal = 0 := rfl

theorem cntQ_cmbCoalEnd : cntQ cmbCoalEnd = 0 := rfl

theorem cntQ_cmbIf1 : cntQ cmbIf1 = 0 := rfl

theorem cntQ_cmbIf2 : cntQ cmbIf2 = 0 := rfl

theorem cntQ_cmbIf3 : cntQ cmbIf3 = 0 := rfl

theorem cntQ_cmbFrom : cntQ cmbFrom = 0 := rfl

theorem cntQ_cmbOpen : cntQ cmbOpen = 0 := rfl

theorem cntQ_cmbClause0 : cntQ cmbClause0 = 0 := rfl

theorem cntQ_cmbJoin : cntQ cmbJoin = 0 := rfl

theorem cntQ_cmbLeftJoin : cntQ cmbLeftJoin = 0 := rfl

theorem cntQ_cmbFullJoin : cntQ cmbFullJoin = 0 := rfl

theorem cntQ_cmbAs : cntQ cmbAs = 0 := rfl

theorem cntQ_cmbUsing : cntQ cmbUsing = 0 := rfl

theorem cntQ_cmbWhere : cntQ cmbWhere = 0 := rfl

theorem cntQ_cmbIsNull : cntQ cmbIsNull = 0 := rfl

theorem cntQ_coalesceCols (count idx : ℕ) : cntQ (coalesceCols idx count) = 0 := by
  induction count generalizing idx with
  | zero => rfl
  | succ count ih =>
    rw [coalesceCols]
    simp only [cntQ_append, cntQ_natStr, ih]
    decide

theorem cntQ_ifnullTerms (count idx : ℕ) : cntQ (ifnullTerms idx count) = 0 := by
  induction count generalizing idx with
  | zero => rfl
  | succ count ih =>
    rw [ifnullTerms]
    simp only [cntQ_append, cntQ_natStr, ih]
    decide

theorem cntQ_ifnullScores (count idx : ℕ) : cntQ (ifnullScores idx count) = 0 := by
  induction count generalizing idx with
  | zero => rfl
  | succ count ih =>
    rw [ifnullScores]
    simp only [cntQ_append, cntQ_natStr, ih]
    decide

theorem cntQ_andNulls (count idx : ℕ) : cntQ (andNulls idx count) = 0 := by
  induction count generalizing idx with
  | zero => rfl
  | succ count ih =>
    rw [andNulls]
    simp only [cntQ_append, cntQ_natStr, ih]
    decide

/-- Model of `TermQuery::to_sql` pushes exactly its value and emits exactly one
placeholder, in both modes. -/
theorem termToSql_spec (score : Bool) (t : TermData) (sql : String) (ps : List String) :
    (termToSql score t sql ps).2 = ps ++ [t.value] ∧
      cntQ (termToSql score t sql ps).1 = cntQ sql + 1 := by
  cases score
  · refine ⟨rfl, ?_⟩
    show cntQ (sql ++ termNoScore ++ termL5 ++ termL6 ++ intStr t.field_id ++ termL7) =
      cntQ sql + 1
    simp only [cntQ_append, cntQ_termNoScore, cntQ_termL5, cntQ_termL6, cntQ_intStr,
      cntQ_termL7]
  · refine ⟨rfl, ?_⟩
    show cntQ (sql ++ termL1 ++ fmtQ t.boost ++ termL2 ++ natStr t.documents ++ termL3 ++
        fmtQ t.avg_documents_count ++ termL4 ++ termL5 ++ joinDocsFrag ++ termL6 ++
        intStr t.field_id ++ termL7) = cntQ sql + 1
    simp only [cntQ_append, cntQ_termL1, cntQ_fmtQ, cntQ_termL2, cntQ_natStr, cntQ_termL3,
      cntQ_termL4, cntQ_termL5, cntQ_joinDocsFrag, cntQ_termL6, cntQ_intStr, cntQ_termL7]

/-- Each phrase join sub-select pushes one value and emits one
placeholder. -/
theorem phraseJoins_spec (score : Bool) (d : ℕ) (a : ℚ) (fid : ℤ) :
    ∀ (vs : List String) (idx : ℕ) (sql : String) (ps : List String),
      (phraseJoins score d a fid idx vs sql ps).2 = ps ++ vs ∧
        cntQ (phraseJoins score d a fid idx vs sql ps).1 = cntQ sql + vs.length := by
  intro vs
  induction vs with
  | nil =>
    intro idx sql ps
    exact ⟨by simp [phraseJoins], by simp [phraseJoins]⟩
  | cons v vs ih =>
    intro idx sql ps
    cases score
    · have step : phraseJoins false d a fid idx (v :: vs) sql ps =
          phraseJoins false d a fid (idx + 1) vs
            (sql ++ phrJoinSub ++ phrFrom ++ phrWhere ++ intStr fid ++ phrValN ++
              natStr idx ++ phrOn1 ++ natStr idx ++ phrOn2 ++ natStr idx ++ phrOn3 ++
              natStr idx) (ps ++ [v]) := rfl
      rw [step]
      obtain ⟨ih1, ih2⟩ := ih (idx + 1) _ (ps ++ [v])
      refine ⟨by rw [ih1]; simp, ?_⟩
      rw [ih2]
      simp only [cntQ_append, cntQ_phrJoinSub, cntQ_phrFrom, cntQ_phrWhere, cntQ_intStr,
        cntQ_phrValN, cntQ_natStr, cntQ_phrOn1, cntQ_phrOn2, cntQ_phrOn3, List.length_cons]
      omega
    · have step : phraseJoins true d a fid idx (v :: vs) sql ps =
          phraseJoins true d a fid (idx + 1) vs
            (sql ++ phrJoinSub ++ phraseBm25Frag d a ++ phrFrom ++ joinDocsFrag ++
              phrWhere ++ intStr fid ++ phrValN ++ natStr idx ++ phrOn1 ++ natStr idx ++
              phrOn2 ++ natStr idx ++ phrOn3 ++ natStr idx) (ps ++ [v]) := rfl
      rw [step]
      obtain ⟨ih1, ih2⟩ := ih (idx + 1) _ (ps ++ [v])
      refine ⟨by rw [ih1]; simp, ?_⟩
      rw [ih2]
      simp only [cntQ_append, cntQ_phrJoinSub, cntQ_phraseBm25Frag, cntQ_phrFrom,
        cntQ_joinDocsFrag, cntQ_phrWhere, cntQ_intStr, cntQ_phrValN, cntQ_natStr,
        cntQ_phrOn1, cntQ_phrOn2, cntQ_phrOn3, List.length_cons]
      omega

/-- Model of `PhraseQuery::to_sql` pushes exactly its values and emits exactly
one placeholder per value, in both modes. -/
theorem phraseToSql_spec (score : Bool) (p : PhraseData) (sql : String) (ps : List String) :
    (phraseToSql score p sql ps).2 = ps ++ p.values ∧
      cntQ (phraseToSql score p sql ps).1 = cntQ sql + p.values.length := by
  rcases p with ⟨fid, d, a, boost, values⟩
  cases values with
  | nil =>
    refine ⟨by simp [phraseToSql], ?_⟩
    show cntQ (sql ++ allSql score) = cntQ sql + 0
    rw [cntQ_append, cntQ_allSql]
  | cons v0 vs =>
    cases score
    · have step : phraseToSql false ⟨fid, d, a, boost, v0 :: vs⟩ sql ps =
          phraseJoins false d a fid 1 vs
            (sql ++ phrNoScore ++ phrSub ++ phrFrom ++ phrWhere ++ intStr fid ++ phrVal0)
            (ps ++ [v0]) := rfl
      rw [step]
      obtain ⟨h1, h2⟩ := phraseJoins_spec false d a fid vs 1
        (sql ++ phrNoScore ++ phrSub ++ phrFrom ++ phrWhere ++ intStr fid ++ phrVal0)
        (ps ++ [v0])
      refine ⟨by rw [h1]; simp, ?_⟩
      rw [h2]
      simp only [cntQ_append, cntQ_phrNoScore, cntQ_phrSub, cntQ_phrFrom, cntQ_phrWhere,
        cntQ_intStr, cntQ_phrVal0, List.length_cons]
      omega
    · have step : phraseToSql true ⟨fid, d, a, boost, v0 :: vs⟩ sql ps =
          phraseJoins true d a fid 1 vs
            (sql ++ phrHead1 ++ fmtQ boost ++ phrHead2 ++ phraseScoreCols 1 vs.length ++
              phrHead3 ++ natStr (vs.length + 1) ++ phrHead4 ++ phrSub ++
              phraseBm25Frag d a ++ phrFrom ++ joinDocsFrag ++ phrWhere ++ intStr fid ++
              phrVal0) (ps ++ [v0]) := rfl
      rw [step]
      obtain ⟨h1, h2⟩ := phraseJoins_spec true d a fid vs 1
        (sql ++ phrHead1 ++ fmtQ boost ++ phrHead2 ++ phraseScoreCols 1 vs.length ++
          phrHead3 ++ natStr (vs.length + 1) ++ phrHead4 ++ phrSub ++
          phraseBm25Frag d a ++ phrFrom ++ joinDocsFrag ++ phrWhere ++ intStr fid ++
          phrVal0) (ps ++ [v0])
      refine ⟨by rw [h1]; simp, ?_⟩
      rw [h2]
      simp only [cntQ_append, cntQ_phrHead1, cntQ_fmtQ, cntQ_phrHead2, cntQ_phraseScoreCols,
        cntQ_phrHead3, cntQ_natStr, cntQ_phrHead4, cntQ_phrSub, cntQ_phraseBm25Frag,
        cntQ_phrFrom, cntQ_joinDocsFrag, cntQ_phrWhere, cntQ_intStr, cntQ_phrVal0,
        List.length_cons]
      omega

theorem specParamsList_nil : specParamsList [] = [] := rfl

theorem specParamsList_cons (q : Query) (qs : List Query) :
    specParamsList (q :: qs) = specParams q ++ specParamsList qs := rfl

theorem cntQ_empty : cntQ "" = 0 := rfl

/-- The score column header of `CombinedQuery::to_sql` contains no
placeholder. -/
theorem cntQ_scoreHeader (score : Bool) (s1 : String) (k : ℕ) :
    cntQ (if score then
        s1 ++ cmbIf1 ++ ifnullTerms 1 k ++ cmbIf2 ++ ifnullScores 1 k ++ cmbIf3
      else s1) = cntQ s1 := by
  cases score
  · rfl
  · show cntQ (s1 ++ cmbIf1 ++ ifnullTerms 1 k ++ cmbIf2 ++ ifnullScores 1 k ++ cmbIf3) =
      cntQ s1
    simp only [cntQ_append, cntQ_cmbIf1, cntQ_ifnullTerms, cntQ_cmbIf2, cntQ_ifnullScores,
      cntQ_cmbIf3]
    omega

mutual

/-- Model of `to_sql` pushes exactly the parameters `specParams` lists, in that
order, after those already in the vector, and appends exactly one `?`
placeholder per pushed parameter. -/
theorem toSql_params : ∀ (q : Query) (score : Bool) (sql : String) (ps : List String),
    (toSql score q sql ps).2 = ps ++ specParams q ∧
      cntQ (toSql score q sql ps).1 = cntQ sql + (specParams q).length
  | .all, score, sql, ps => by
    constructor
    · show ps = ps ++ specParams Query.all
      simp [specParams]
    · show cntQ (sql ++ allSql score) = cntQ sql + (specParams Query.all).length
      rw [cntQ_append, cntQ_allSql]
      simp [specParams]
  | .term t, score, sql, ps => by
    obtain ⟨h1, h2⟩ := termToSql_spec score t sql ps
    exact ⟨h1, h2⟩
  | .phrase p, score, sql, ps => by
    obtain ⟨h1, h2⟩ := phraseToSql_spec score p sql ps
    exact ⟨h1, h2⟩
  | .combined should must mustNot, score, sql, ps => by
    cases must with
    | nil =>
      cases should with
      | nil =>
        have ha2 : (ps : List String) = ps ++ ([] : List String) := by simp
        have ha1 : cntQ (sql ++ allSql score) = cntQ sql + ([] : List String).length := by
          rw [cntQ_append, cntQ_allSql]
          simp
        have step : toSql score (.combined [] [] mustNot) sql ps =
            (if mustNot.length ≠ 0 then ((mustNotJoins (0) mustNot (sql ++ allSql score) (ps)).1 ++ cmbWhere ++ natStr (0) ++ cmbIsNull ++ andNulls ((0) + 1) (mustNot.length - 1), (mustNotJoins (0) mustNot (sql ++ allSql score) (ps)).2) else ((sql ++ allSql score), (ps))) := rfl
        rw [step]
        by_cases hmn : mustNot.length ≠ 0
        · rw [if_pos hmn]
          obtain ⟨h1, h2⟩ := mustNotJoins_params mustNot (0) (sql ++ allSql score) (ps)
          constructor
          · show (mustNotJoins (0) mustNot (sql ++ allSql score) (ps)).2 = _
            rw [h1, ha2]
            simp [specParams, specParamsList_nil, List.append_assoc]
          · show cntQ ((mustNotJoins (0) mustNot (sql ++ allSql score) (ps)).1 ++ cmbWhere ++ natStr (0) ++ cmbIsNull ++
                andNulls ((0) + 1) (mustNot.length - 1)) = _
            simp only [cntQ_append, cntQ_cmbWhere, cntQ_natStr, cntQ_cmbIsNull, cntQ_andNulls]
            rw [h2, ha1]
            simp only [specParams, specParamsList_nil, specParamsList_cons,
              List.length_append, List.length_nil]
            omega
        · rw [if_neg hmn]
          have hnil : mustNot = [] := by
            rcases hmm : mustNot with _ | ⟨n0, ns⟩
            · rfl
            · rw [hmm] at hmn; simp at hmn
          subst hnil
          constructor
          · show (ps) = _
            rw [ha2]
            simp [specParams, specParamsList_nil, List.append_assoc]
          · show cntQ (sql ++ allSql score) = _
            rw [ha1]
            simp [specParams, specParamsList_nil, List.length_append]
      | cons s0 ss =>
        obtain ⟨hq1, hq2⟩ := toSql_params s0 score (((if score then sql ++ cmbCoal ++ coalesceCols 1 (0 + ss.length) ++ cmbCoalEnd ++ cmbIf1 ++ ifnullTerms 1 (0 + ss.length) ++ cmbIf2 ++ ifnullScores 1 (0 + ss.length) ++ cmbIf3 else sql ++ cmbCoal ++ coalesceCols 1 (0 + ss.length) ++ cmbCoalEnd) ++ cmbFrom) ++ cmbOpen) ps
        obtain ⟨hj1, hj2⟩ := shouldJoins_params ss score 1 ((toSql score s0 (((if score then sql ++ cmbCoal ++ coalesceCols 1 (0 + ss.length) ++ cmbCoalEnd ++ cmbIf1 ++ ifnullTerms 1 (0 + ss.length) ++ cmbIf2 ++ ifnullScores 1 (0 + ss.length) ++ cmbIf3 else sql ++ cmbCoal ++ coalesceCols 1 (0 + ss.length) ++ cmbCoalEnd) ++ cmbFrom) ++ cmbOpen) ps).1 ++ cmbAs ++ natStr 0 ++ "") ((toSql score s0 (((if score then sql ++ cmbCoal ++ coalesceCols 1 (0 + ss.length) ++ cmbCoalEnd ++ cmbIf1 ++ ifnullTerms 1 (0 + ss.length) ++ cmbIf2 ++ ifnullScores 1 (0 + ss.length) ++ cmbIf3 else sql ++ cmbCoal ++ coalesceCols 1 (0 + ss.length) ++ cmbCoalEnd) ++ cmbFrom) ++ cmbOpen) ps).2)
        have ha2 : (shouldJoins score 1 ss ((toSql score s0 (((if score then sql ++ cmbCoal ++ coalesceCols 1 (0 + ss.length) ++ cmbCoalEnd ++ cmbIf1 ++ ifnullTerms 1 (0 + ss.length) ++ cmbIf2 ++ ifnullScores 1 (0 + ss.length) ++ cmbIf3 else sql ++ cmbCoal ++ coalesceCols 1 (0 + ss.length) ++ cmbCoalEnd) ++ cmbFrom) ++ cmbOpen) ps).1 ++ cmbAs ++ natStr 0 ++ "") (toSql score s0 (((if score then sql ++ cmbCoal ++ coalesceCols 1 (0 + ss.length) ++ cmbCoalEnd ++ cmbIf1 ++ ifnullTerms 1 (0 + ss.length) ++ cmbIf2 ++ ifnullScores 1 (0 + ss.length) ++ cmbIf3 else sql ++ cmbCoal ++ coalesceCols 1 (0 + ss.length) ++ cmbCoalEnd) ++ cmbFrom) ++ cmbOpen) ps).2).2 = ps ++ specParamsList (s0 :: ss) := by
          rw [hj1, hq1, specParamsList_cons]
          simp [List.append_assoc]
        have ha1 : cntQ (shouldJoins score 1 ss ((toSql score s0 (((if score then sql ++ cmbCoal ++ coalesceCols 1 (0 + ss.length) ++ cmbCoalEnd ++ cmbIf1 ++ ifnullTerms 1 (0 + ss.length) ++ cmbIf2 ++ ifnullScores 1 (0 + ss.length) ++ cmbIf3 else sql ++ cmbCoal ++ coalesceCols 1 (0 + ss.length) ++ cmbCoalEnd) ++ cmbFrom) ++ cmbOpen) ps).1 ++ cmbAs ++ natStr 0 ++ "") (toSql score s0 (((if score then sql ++ cmbCoal ++ coalesceCols 1 (0 + ss.length) ++ cmbCoalEnd ++ cmbIf1 ++ ifnullTerms 1 (0 + ss.length) ++ cmbIf2 ++ ifnullScores 1 (0 + ss.length) ++ cmbIf3 else sql ++ cmbCoal ++ coalesceCols 1 (0 + ss.length) ++ cmbCoalEnd) ++ cmbFrom) ++ cmbOpen) ps).2).1 =
            cntQ sql + (specParamsList (s0 :: ss)).length := by
          rw [hj2]
          simp only [cntQ_append, cntQ_cmbAs, cntQ_natStr, cntQ_empty]
          rw [hq2]
          simp only [cntQ_append, cntQ_cmbOpen, cntQ_cmbFrom, cntQ_scoreHeader,
            cntQ_cmbCoal, cntQ_coalesceCols, cntQ_cmbCoalEnd, specParamsList_cons,
            List.length_append]
          omega
        have step : toSql score (.combined (s0 :: ss) [] mustNot) sql ps =
            (if mustNot.length ≠ 0 then ((mustNotJoins (0 + ss.length + 1) mustNot ((shouldJoins score 1 ss ((toSql score s0 (((if score then sql ++ cmbCoal ++ coalesceCols 1 (0 + ss.length) ++ cmbCoalEnd ++ cmbIf1 ++ ifnullTerms 1 (0 + ss.length) ++ cmbIf2 ++ ifnullScores 1 (0 + ss.length) ++ cmbIf3 else sql ++ cmbCoal ++ coalesceCols 1 (0 + ss.length) ++ cmbCoalEnd) ++ cmbFrom) ++ cmbOpen) ps).1 ++ cmbAs ++ natStr 0 ++ "") (toSql score s0 (((if score then sql ++ cmbCoal ++ coalesceCols 1 (0 + ss.length) ++ cmbCoalEnd ++ cmbIf1 ++ ifnullTerms 1 (0 + ss.length) ++ cmbIf2 ++ ifnullScores 1 (0 + ss.length) ++ cmbIf3 else sql ++ cmbCoal ++ coalesceCols 1 (0 + ss.length) ++ cmbCoalEnd) ++ cmbFrom) ++ cmbOpen) ps).2).1) ((shouldJoins score 1 ss ((toSql score s0 (((if score then sql ++ cmbCoal ++ coalesceCols 1 (0 + ss.length) ++ cmbCoalEnd ++ cmbIf1 ++ ifnullTerms 1 (0 + ss.length) ++ cmbIf2 ++ ifnullScores 1 (0 + ss.length) ++ cmbIf3 else sql ++ cmbCoal ++ coalesceCols 1 (0 + ss.length) ++ cmbCoalEnd) ++ cmbFrom) ++ cmbOpen) ps).1 ++ cmbAs ++ natStr 0 ++ "") (toSql score s0 (((if score then sql ++ cmbCoal ++ coalesceCols 1 (0 + ss.length) ++ cmbCoalEnd ++ cmbIf1 ++ ifnullTerms 1 (0 + ss.length) ++ cmbIf2 ++ ifnullScores 1 (0 + ss.length) ++ cmbIf3 else sql ++ cmbCoal ++ coalesceCols 1 (0 + ss.length) ++ cmbCoalEnd) ++ cmbFrom) ++ cmbOpen) ps).2).2)).1 ++ cmbWhere ++ natStr (0 + ss.length + 1) ++ cmbIsNull ++ andNulls ((0 + ss.length + 1) + 1) (mustNot.length - 1), (mustNotJoins (0 + ss.length + 1) mustNot ((shouldJoins score 1 ss ((toSql score s0 (((if score then sql ++ cmbCoal ++ coalesceCols 1 (0 + ss.length) ++ cmbCoalEnd ++ cmbIf1 ++ ifnullTerms 1 (0 + ss.length) ++ cmbIf2 ++ ifnullScores 1 (0 + ss.length) ++ cmbIf3 else sql ++ cmbCoal ++ coalesceCols 1 (0 + ss.length) ++ cmbCoalEnd) ++ cmbFrom) ++ cmbOpen) ps).1 ++ cmbAs ++ natStr 0 ++ "") (toSql score s0 (((if score then sql ++ cmbCoal ++ coalesceCols 1 (0 + ss.length) ++ cmbCoalEnd ++ cmbIf1 ++ ifnullTerms 1 (0 + ss.length) ++ cmbIf2 ++ ifnullScores 1 (0 + ss.length) ++ cmbIf3 else sql ++ cmbCoal ++ coalesceCols 1 (0 + ss.length) ++ cmbCoalEnd) ++ cmbFrom) ++ cmbOpen) ps).2).1) ((shouldJoins score 1 ss ((toSql score s0 (((if score then sql ++ cmbCoal ++ coalesceCols 1 (0 + ss.length) ++ cmbCoalEnd ++ cmbIf1 ++ ifnullTerms 1 (0 + ss.length) ++ cmbIf2 ++ ifnullScores 1 (0 + ss.length) ++ cmbIf3 else sql ++ cmbCoal ++ coalesceCols 1 (0 + ss.length) ++ cmbCoalEnd) ++ cmbFrom) ++ cmbOpen) ps).1 ++ cmbAs ++ natStr 0 ++ "") (toSql score s0 (((if score then sql ++ cmbCoal ++ coalesceCols 1 (0 + ss.length) ++ cmbCoalEnd ++ cmbIf1 ++ ifnullTerms 1 (0 + ss.length) ++ cmbIf2 ++ ifnullScores 1 (0 + ss.length) ++ cmbIf3 else sql ++ cmbCoal ++ coalesceCols 1 (0 + ss.length) ++ cmbCoalEnd) ++ cmbFrom) ++ cmbOpen) ps).2).2)).2) else (((shouldJoins score 1 ss ((toSql score s0 (((if score then sql ++ cmbCoal ++ coalesceCols 1 (0 + ss.length) ++ cmbCoalEnd ++ cmbIf1 ++ ifnullTerms 1 (0 + ss.length) ++ cmbIf2 ++ ifnullScores 1 (0 + ss.length) ++ cmbIf3 else sql ++ cmbCoal ++ coalesceCols 1 (0 + ss.length) ++ cmbCoalEnd) ++ cmbFrom) ++ cmbOpen) ps).1 ++ cmbAs ++ natStr 0 ++ "") (toSql score s0 (((if score then sql ++ cmbCoal ++ coalesceCols 1 (0 + ss.length) ++ cmbCoalEnd ++ cmbIf1 ++ ifnullTerms 1 (0 + ss.length) ++ cmbIf2 ++ ifnullScores 1 (0 + ss.length) ++ cmbIf3 else sql ++ cmbCoal ++ coalesceCols 1 (0 + ss.length) ++ cmbCoalEnd) ++ cmbFrom) ++ cmbOpen) ps).2).1), ((shouldJoins score 1 ss ((toSql score s0 (((if score then sql ++ cmbCoal ++ coalesceCols 1 (0 + ss.length) ++ cmbCoalEnd ++ cmbIf1 ++ ifnullTerms 1 (0 + ss.length) ++ cmbIf2 ++ ifnullScores 1 (0 + ss.length) ++ cmbIf3 else sql ++ cmbCoal ++ coalesceCols 1 (0 + ss.length) ++ cmbCoalEnd) ++ cmbFrom) ++ cmbOpen) ps).1 ++ cmbAs ++ natStr 0 ++ "") (toSql score s0 (((if score then sql ++ cmbCoal ++ coalesceCols 1 (0 + ss.length) ++ cmbCoalEnd ++ cmbIf1 ++ ifnullTerms 1 (0 + ss.length) ++ cmbIf2 ++ ifnullScores 1 (0 + ss.length) ++ cmbIf3 else sql ++ cmbCoal ++ coalesceCols 1 (0 + ss.length) ++ cmbCoalEnd) ++ cmbFrom) ++ cmbOpen) ps).2).2))) := rfl
        rw [step]
        by_cases hmn : mustNot.length ≠ 0
        · rw [if_pos hmn]
          obtain ⟨h1, h2⟩ := mustNotJoins_params mustNot (0 + ss.length + 1) ((shouldJoins score 1 ss ((toSql score s0 (((if score then sql ++ cmbCoal ++ coalesceCols 1 (0 + ss.length) ++ cmbCoalEnd ++ cmbIf1 ++ ifnullTerms 1 (0 + ss.length) ++ cmbIf2 ++ ifnullScores 1 (0 + ss.length) ++ cmbIf3 else sql ++ cmbCoal ++ coalesceCols 1 (0 + ss.length) ++ cmbCoalEnd) ++ cmbFrom) ++ cmbOpen) ps).1 ++ cmbAs ++ natStr 0 ++ "") (toSql score s0 (((if score then sql ++ cmbCoal ++ coalesceCols 1 (0 + ss.length) ++ cmbCoalEnd ++ cmbIf1 ++ ifnullTerms 1 (0 + ss.length) ++ cmbIf2 ++ ifnullScores 1 (0 + ss.length) ++ cmbIf3 else sql ++ cmbCoal ++ coalesceCols 1 (0 + ss.length) ++ cmbCoalEnd) ++ cmbFrom) ++ cmbOpen) ps).2).1) ((shouldJoins score 1 ss ((toSql score s0 (((if score then sql ++ cmbCoal ++ coalesceCols 1 (0 + ss.length) ++ cmbCoalEnd ++ cmbIf1 ++ ifnullTerms 1 (0 + ss.length) ++ cmbIf2 ++ ifnullScores 1 (0 + ss.length) ++ cmbIf3 else sql ++ cmbCoal ++ coalesceCols 1 (0 + ss.length) ++ cmbCoalEnd) ++ cmbFrom) ++ cmbOpen) ps).1 ++ cmbAs ++ natStr 0 ++ "") (toSql score s0 (((if score then sql ++ cmbCoal ++ coalesceCols 1 (0 + ss.length) ++ cmbCoalEnd ++ cmbIf1 ++ ifnullTerms 1 (0 + ss.length) ++ cmbIf2 ++ ifnullScores 1 (0 + ss.length) ++ cmbIf3 else sql ++ cmbCoal ++ coalesceCols 1 (0 + ss.length) ++ cmbCoalEnd) ++ cmbFrom) ++ cmbOpen) ps).2).2)
          constructor
          · show (mustNotJoins (0 + ss.length + 1) mustNot ((shouldJoins score 1 ss ((toSql score s0 (((if score then sql ++ cmbCoal ++ coalesceCols 1 (0 + ss.length) ++ cmbCoalEnd ++ cmbIf1 ++ ifnullTerms 1 (0 + ss.length) ++ cmbIf2 ++ ifnullScores 1 (0 + ss.length) ++ cmbIf3 else sql ++ cmbCoal ++ coalesceCols 1 (0 + ss.length) ++ cmbCoalEnd) ++ cmbFrom) ++ cmbOpen) ps).1 ++ cmbAs ++ natStr 0 ++ "") (toSql score s0 (((if score then sql ++ cmbCoal ++ coalesceCols 1 (0 + ss.length) ++ cmbCoalEnd ++ cmbIf1 ++ ifnullTerms 1 (0 + ss.length) ++ cmbIf2 ++ ifnullScores 1 (0 + ss.length) ++ cmbIf3 else sql ++ cmbCoal ++ coalesceCols 1 (0 + ss.length) ++ cmbCoalEnd) ++ cmbFrom) ++ cmbOpen) ps).2).1) ((shouldJoins score 1 ss ((toSql score s0 (((if score then sql ++ cmbCoal ++ coalesceCols 1 (0 + ss.length) ++ cmbCoalEnd ++ cmbIf1 ++ ifnullTerms 1 (0 + ss.length) ++ cmbIf2 ++ ifnullScores 1 (0 + ss.length) ++ cmbIf3 else sql ++ cmbCoal ++ coalesceCols 1 (0 + ss.length) ++ cmbCoalEnd) ++ cmbFrom) ++ cmbOpen) ps).1 ++ cmbAs ++ natStr 0 ++ "") (toSql score s0 (((if score then sql ++ cmbCoal ++ coalesceCols 1 (0 + ss.length) ++ cmbCoalEnd ++ cmbIf1 ++ ifnullTerms 1 (0 + ss.length) ++ cmbIf2 ++ ifnullScores 1 (0 + ss.length) ++ cmbIf3 else sql ++ cmbCoal ++ coalesceCols 1 (0 + ss.length) ++ cmbCoalEnd) ++ cmbFrom) ++ cmbOpen) ps).2).2)).2 = _
            rw [h1, ha2]
            simp [specParams, specParamsList_nil, List.append_assoc]
          · show cntQ ((mustNotJoins (0 + ss.length + 1) mustNot ((shouldJoins score 1 ss ((toSql score s0 (((if score then sql ++ cmbCoal ++ coalesceCols 1 (0 + ss.length) ++ cmbCoalEnd ++ cmbIf1 ++ ifnullTerms 1 (0 + ss.length) ++ cmbIf2 ++ ifnullScores 1 (0 + ss.length) ++ cmbIf3 else sql ++ cmbCoal ++ coalesceCols 1 (0 + ss.length) ++ cmbCoalEnd) ++ cmbFrom) ++ cmbOpen) ps).1 ++ cmbAs ++ natStr 0 ++ "") (toSql score s0 (((if score then sql ++ cmbCoal ++ coalesceCols 1 (0 + ss.length) ++ cmbCoalEnd ++ cmbIf1 ++ ifnullTerms 1 (0 + ss.length) ++ cmbIf2 ++ ifnullScores 1 (0 + ss.length) ++ cmbIf3 else sql ++ cmbCoal ++ coalesceCols 1 (0 + ss.length) ++ cmbCoalEnd) ++ cmbFrom) ++ cmbOpen) ps).2).1) ((shouldJoins score 1 ss ((toSql score s0 (((if score then sql ++ cmbCoal ++ coalesceCols 1 (0 + ss.length) ++ cmbCoalEnd ++ cmbIf1 ++ ifnullTerms 1 (0 + ss.length) ++ cmbIf2 ++ ifnullScores 1 (0 + ss.length) ++ cmbIf3 else sql ++ cmbCoal ++ coalesceCols 1 (0 + ss.length) ++ cmbCoalEnd) ++ cmbFrom) ++ cmbOpen) ps).1 ++ cmbAs ++ natStr 0 ++ "") (toSql score s0 (((if score then sql ++ cmbCoal ++ coalesceCols 1 (0 + ss.length) ++ cmbCoalEnd ++ cmbIf1 ++ ifnullTerms 1 (0 + ss.length) ++ cmbIf2 ++ ifnullScores 1 (0 + ss.length) ++ cmbIf3 else sql ++ cmbCoal ++ coalesceCols 1 (0 + ss.length) ++ cmbCoalEnd) ++ cmbFrom) ++ cmbOpen) ps).2).2)).1 ++ cmbWhere ++ natStr (0 + ss.length + 1) ++ cmbIsNull ++
                andNulls ((0 + ss.length + 1) + 1) (mustNot.length - 1)) = _
            simp only [cntQ_append, cntQ_cmbWhere, cntQ_natStr, cntQ_cmbIsNull, cntQ_andNulls]
            rw [h2, ha1]
            simp only [specParams, specParamsList_nil, specParamsList_cons,
              List.length_append, List.length_nil]
            omega
        · rw [if_neg hmn]
          have hnil : mustNot = [] := by
            rcases hmm : mustNot with _ | ⟨n0, ns⟩
            · rfl
            · rw [hmm] at hmn; simp at hmn
          subst hnil
          constructor
          · show ((shouldJoins score 1 ss ((toSql score s0 (((if score then sql ++ cmbCoal ++ coalesceCols 1 (0 + ss.length) ++ cmbCoalEnd ++ cmbIf1 ++ ifnullTerms 1 (0 + ss.length) ++ cmbIf2 ++ ifnullScores 1 (0 + ss.length) ++ cmbIf3 else sql ++ cmbCoal ++ coalesceCols 1 (0 + ss.length) ++ cmbCoalEnd) ++ cmbFrom) ++ cmbOpen) ps).1 ++ cmbAs ++ natStr 0 ++ "") (toSql score s0 (((if score then sql ++ cmbCoal ++ coalesceCols 1 (0 + ss.length) ++ cmbCoalEnd ++ cmbIf1 ++ ifnullTerms 1 (0 + ss.length) ++ cmbIf2 ++ ifnullScores 1 (0 + ss.length) ++ cmbIf3 else sql ++ cmbCoal ++ coalesceCols 1 (0 + ss.length) ++ cmbCoalEnd) ++ cmbFrom) ++ cmbOpen) ps).2).2) = _
            rw [ha2]
            simp [specParams, specParamsList_nil, List.append_assoc]
          · show cntQ ((shouldJoins score 1 ss ((toSql score s0 (((if score then sql ++ cmbCoal ++ coalesceCols 1 (0 + ss.length) ++ cmbCoalEnd ++ cmbIf1 ++ ifnullTerms 1 (0 + ss.length) ++ cmbIf2 ++ ifnullScores 1 (0 + ss.length) ++ cmbIf3 else sql ++ cmbCoal ++ coalesceCols 1 (0 + ss.length) ++ cmbCoalEnd) ++ cmbFrom) ++ cmbOpen) ps).1 ++ cmbAs ++ natStr 0 ++ "") (toSql score s0 (((if score then sql ++ cmbCoal ++ coalesceCols 1 (0 + ss.length) ++ cmbCoalEnd ++ cmbIf1 ++ ifnullTerms 1 (0 + ss.length) ++ cmbIf2 ++ ifnullScores 1 (0 + ss.length) ++ cmbIf3 else sql ++ cmbCoal ++ coalesceCols 1 (0 + ss.length) ++ cmbCoalEnd) ++ cmbFrom) ++ cmbOpen) ps).2).1) = _
            rw [ha1]
            simp [specParams, specParamsList_nil, List.length_append]
    | cons m0 ms =>
      cases should with
      | nil =>
        obtain ⟨hq1, hq2⟩ := toSql_params m0 score (((if score then sql ++ cmbSel ++ cmbIf1 ++ ifnullTerms 1 (ms.length) ++ cmbIf2 ++ ifnullScores 1 (ms.length) ++ cmbIf3 else sql ++ cmbSel) ++ cmbFrom) ++ cmbOpen) ps
        obtain ⟨hj1, hj2⟩ := mustJoins_params ms score 1 ((toSql score m0 (((if score then sql ++ cmbSel ++ cmbIf1 ++ ifnullTerms 1 (ms.length) ++ cmbIf2 ++ ifnullScores 1 (ms.length) ++ cmbIf3 else sql ++ cmbSel) ++ cmbFrom) ++ cmbOpen) ps).1 ++ cmbClause0) ((toSql score m0 (((if score then sql ++ cmbSel ++ cmbIf1 ++ ifnullTerms 1 (ms.length) ++ cmbIf2 ++ ifnullScores 1 (ms.length) ++ cmbIf3 else sql ++ cmbSel) ++ cmbFrom) ++ cmbOpen) ps).2)
        have ha2 : (mustJoins score 1 ms ((toSql score m0 (((if score then sql ++ cmbSel ++ cmbIf1 ++ ifnullTerms 1 (ms.length) ++ cmbIf2 ++ ifnullScores 1 (ms.length) ++ cmbIf3 else sql ++ cmbSel) ++ cmbFrom) ++ cmbOpen) ps).1 ++ cmbClause0) (toSql score m0 (((if score then sql ++ cmbSel ++ cmbIf1 ++ ifnullTerms 1 (ms.length) ++ cmbIf2 ++ ifnullScores 1 (ms.length) ++ cmbIf3 else sql ++ cmbSel) ++ cmbFrom) ++ cmbOpen) ps).2).2 = ps ++ specParamsList (m0 :: ms) := by
          rw [hj1, hq1, specParamsList_cons]
          simp [List.append_assoc]
        have ha1 : cntQ (mustJoins score 1 ms ((toSql score m0 (((if score then sql ++ cmbSel ++ cmbIf1 ++ ifnullTerms 1 (ms.length) ++ cmbIf2 ++ ifnullScores 1 (ms.length) ++ cmbIf3 else sql ++ cmbSel) ++ cmbFrom) ++ cmbOpen) ps).1 ++ cmbClause0) (toSql score m0 (((if score then sql ++ cmbSel ++ cmbIf1 ++ ifnullTerms 1 (ms.length) ++ cmbIf2 ++ ifnullScores 1 (ms.length) ++ cmbIf3 else sql ++ cmbSel) ++ cmbFrom) ++ cmbOpen) ps).2).1 =
            cntQ sql + (specParamsList (m0 :: ms)).length := by
          rw [hj2]
          simp only [cntQ_append, cntQ_cmbClause0]
          rw [hq2]
          simp only [cntQ_append, cntQ_cmbOpen, cntQ_cmbFrom, cntQ_scoreHeader,
            cntQ_cmbSel, specParamsList_cons, List.length_append]
          omega
        have step : toSql score (.combined [] (m0 :: ms) mustNot) sql ps =
            (if mustNot.length ≠ 0 then ((mustNotJoins (ms.length + 1) mustNot ((mustJoins score 1 ms ((toSql score m0 (((if score then sql ++ cmbSel ++ cmbIf1 ++ ifnullTerms 1 (ms.length) ++ cmbIf2 ++ ifnullScores 1 (ms.length) ++ cmbIf3 else sql ++ cmbSel) ++ cmbFrom) ++ cmbOpen) ps).1 ++ cmbClause0) (toSql score m0 (((if score then sql ++ cmbSel ++ cmbIf1 ++ ifnullTerms 1 (ms.length) ++ cmbIf2 ++ ifnullScores 1 (ms.length) ++ cmbIf3 else sql ++ cmbSel) ++ cmbFrom) ++ cmbOpen) ps).2).1) ((mustJoins score 1 ms ((toSql score m0 (((if score then sql ++ cmbSel ++ cmbIf1 ++ ifnullTerms 1 (ms.length) ++ cmbIf2 ++ ifnullScores 1 (ms.length) ++ cmbIf3 else sql ++ cmbSel) ++ cmbFrom) ++ cmbOpen) ps).1 ++ cmbClause0) (toSql score m0 (((if score then sql ++ cmbSel ++ cmbIf1 ++ ifnullTerms 1 (ms.length) ++ cmbIf2 ++ ifnullScores 1 (ms.length) ++ cmbIf3 else sql ++ cmbSel) ++ cmbFrom) ++ cmbOpen) ps).2).2)).1 ++ cmbWhere ++ natStr (ms.length + 1) ++ cmbIsNull ++ andNulls ((ms.length + 1) + 1) (mustNot.length - 1), (mustNotJoins (ms.length + 1) mustNot ((mustJoins score 1 ms ((toSql score m0 (((if score then sql ++ cmbSel ++ cmbIf1 ++ ifnullTerms 1 (ms.length) ++ cmbIf2 ++ ifnullScores 1 (ms.length) ++ cmbIf3 else sql ++ cmbSel) ++ cmbFrom) ++ cmbOpen) ps).1 ++ cmbClause0) (toSql score m0 (((if score then sql ++ cmbSel ++ cmbIf1 ++ ifnullTerms 1 (ms.length) ++ cmbIf2 ++ ifnullScores 1 (ms.length) ++ cmbIf3 else sql ++ cmbSel) ++ cmbFrom) ++ cmbOpen) ps).2).1) ((mustJoins score 1 ms ((toSql score m0 (((if score then sql ++ cmbSel ++ cmbIf1 ++ ifnullTerms 1 (ms.length) ++ cmbIf2 ++ ifnullScores 1 (ms.length) ++ cmbIf3 else sql ++ cmbSel) ++ cmbFrom) ++ cmbOpen) ps).1 ++ cmbClause0) (toSql score m0 (((if score then sql ++ cmbSel ++ cmbIf1 ++ ifnullTerms 1 (ms.length) ++ cmbIf2 ++ ifnullScores 1 (ms.length) ++ cmbIf3 else sql ++ cmbSel) ++ cmbFrom) ++ cmbOpen) ps).2).2)).2) else (((mustJoins score 1 ms ((toSql score m0 (((if score then sql ++ cmbSel ++ cmbIf1 ++ ifnullTerms 1 (ms.length) ++ cmbIf2 ++ ifnullScores 1 (ms.length) ++ cmbIf3 else sql ++ cmbSel) ++ cmbFrom) ++ cmbOpen) ps).1 ++ cmbClause0) (toSql score m0 (((if score then sql ++ cmbSel ++ cmbIf1 ++ ifnullTerms 1 (ms.length) ++ cmbIf2 ++ ifnullScores 1 (ms.length) ++ cmbIf3 else sql ++ cmbSel) ++ cmbFrom) ++ cmbOpen) ps).2).1), ((mustJoins score 1 ms ((toSql score m0 (((if score then sql ++ cmbSel ++ cmbIf1 ++ ifnullTerms 1 (ms.length) ++ cmbIf2 ++ ifnullScores 1 (ms.length) ++ cmbIf3 else sql ++ cmbSel) ++ cmbFrom) ++ cmbOpen) ps).1 ++ cmbClause0) (toSql score m0 (((if score then sql ++ cmbSel ++ cmbIf1 ++ ifnullTerms 1 (ms.length) ++ cmbIf2 ++ ifnullScores 1 (ms.length) ++ cmbIf3 else sql ++ cmbSel) ++ cmbFrom) ++ cmbOpen) ps).2).2))) := rfl
        rw [step]
        by_cases hmn : mustNot.length ≠ 0
        · rw [if_pos hmn]
          obtain ⟨h1, h2⟩ := mustNotJoins_params mustNot (ms.length + 1) ((mustJoins score 1 ms ((toSql score m0 (((if score then sql ++ cmbSel ++ cmbIf1 ++ ifnullTerms 1 (ms.length) ++ cmbIf2 ++ ifnullScores 1 (ms.length) ++ cmbIf3 else sql ++ cmbSel) ++ cmbFrom) ++ cmbOpen) ps).1 ++ cmbClause0) (toSql score m0 (((if score then sql ++ cmbSel ++ cmbIf1 ++ ifnullTerms 1 (ms.length) ++ cmbIf2 ++ ifnullScores 1 (ms.length) ++ cmbIf3 else sql ++ cmbSel) ++ cmbFrom) ++ cmbOpen) ps).2).1) ((mustJoins score 1 ms ((toSql score m0 (((if score then sql ++ cmbSel ++ cmbIf1 ++ ifnullTerms 1 (ms.length) ++ cmbIf2 ++ ifnullScores 1 (ms.length) ++ cmbIf3 else sql ++ cmbSel) ++ cmbFrom) ++ cmbOpen) ps).1 ++ cmbClause0) (toSql score m0 (((if score then sql ++ cmbSel ++ cmbIf1 ++ ifnullTerms 1 (ms.length) ++ cmbIf2 ++ ifnullScores 1 (ms.length) ++ cmbIf3 else sql ++ cmbSel) ++ cmbFrom) ++ cmbOpen) ps).2).2)
          constructor
          · show (mustNotJoins (ms.length + 1) mustNot ((mustJoins score 1 ms ((toSql score m0 (((if score then sql ++ cmbSel ++ cmbIf1 ++ ifnullTerms 1 (ms.length) ++ cmbIf2 ++ ifnullScores 1 (ms.length) ++ cmbIf3 else sql ++ cmbSel) ++ cmbFrom) ++ cmbOpen) ps).1 ++ cmbClause0) (toSql score m0 (((if score then sql ++ cmbSel ++ cmbIf1 ++ ifnullTerms 1 (ms.length) ++ cmbIf2 ++ ifnullScores 1 (ms.length) ++ cmbIf3 else sql ++ cmbSel) ++ cmbFrom) ++ cmbOpen) ps).2).1) ((mustJoins score 1 ms ((toSql score m0 (((if score then sql ++ cmbSel ++ cmbIf1 ++ ifnullTerms 1 (ms.length) ++ cmbIf2 ++ ifnullScores 1 (ms.length) ++ cmbIf3 else sql ++ cmbSel) ++ cmbFrom) ++ cmbOpen) ps).1 ++ cmbClause0) (toSql score m0 (((if score then sql ++ cmbSel ++ cmbIf1 ++ ifnullTerms 1 (ms.length) ++ cmbIf2 ++ ifnullScores 1 (ms.length) ++ cmbIf3 else sql ++ cmbSel) ++ cmbFrom) ++ cmbOpen) ps).2).2)).2 = _
            rw [h1, ha2]
            simp [specParams, specParamsList_nil, List.append_assoc]
          · show cntQ ((mustNotJoins (ms.length + 1) mustNot ((mustJoins score 1 ms ((toSql score m0 (((if score then sql ++ cmbSel ++ cmbIf1 ++ ifnullTerms 1 (ms.length) ++ cmbIf2 ++ ifnullScores 1 (ms.length) ++ cmbIf3 else sql ++ cmbSel) ++ cmbFrom) ++ cmbOpen) ps).1 ++ cmbClause0) (toSql score m0 (((if score then sql ++ cmbSel ++ cmbIf1 ++ ifnullTerms 1 (ms.length) ++ cmbIf2 ++ ifnullScores 1 (ms.length) ++ cmbIf3 else sql ++ cmbSel) ++ cmbFrom) ++ cmbOpen) ps).2).1) ((mustJoins score 1 ms ((toSql score m0 (((if score then sql ++ cmbSel ++ cmbIf1 ++ ifnullTerms 1 (ms.length) ++ cmbIf2 ++ ifnullScores 1 (ms.length) ++ cmbIf3 else sql ++ cmbSel) ++ cmbFrom) ++ cmbOpen) ps).1 ++ cmbClause0) (toSql score m0 (((if score then sql ++ cmbSel ++ cmbIf1 ++ ifnullTerms 1 (ms.length) ++ cmbIf2 ++ ifnullScores 1 (ms.length) ++ cmbIf3 else sql ++ cmbSel) ++ cmbFrom) ++ cmbOpen) ps).2).2)).1 ++ cmbWhere ++ natStr (ms.length + 1) ++ cmbIsNull ++
                andNulls ((ms.length + 1) + 1) (mustNot.length - 1)) = _
            simp only [cntQ_append, cntQ_cmbWhere, cntQ_natStr, cntQ_cmbIsNull, cntQ_andNulls]
            rw [h2, ha1]
            simp only [specParams, specParamsList_nil, specParamsList_cons,
              List.length_append, List.length_nil]
            omega
        · rw [if_neg hmn]
          have hnil : mustNot = [] := by
            rcases hmm : mustNot with _ | ⟨n0, ns⟩
            · rfl
            · rw [hmm] at hmn; simp at hmn
          subst hnil
          constructor
          · show ((mustJoins score 1 ms ((toSql score m0 (((if score then sql ++ cmbSel ++ cmbIf1 ++ ifnullTerms 1 (ms.length) ++ cmbIf2 ++ ifnullScores 1 (ms.length) ++ cmbIf3 else sql ++ cmbSel) ++ cmbFrom) ++ cmbOpen) ps).1 ++ cmbClause0) (toSql score m0 (((if score then sql ++ cmbSel ++ cmbIf1 ++ ifnullTerms 1 (ms.length) ++ cmbIf2 ++ ifnullScores 1 (ms.length) ++ cmbIf3 else sql ++ cmbSel) ++ cmbFrom) ++ cmbOpen) ps).2).2) = _
            rw [ha2]
            simp [specParams, specParamsList_nil, List.append_assoc]
          · show cntQ ((mustJoins score 1 ms ((toSql score m0 (((if score then sql ++ cmbSel ++ cmbIf1 ++ ifnullTerms 1 (ms.length) ++ cmbIf2 ++ ifnullScores 1 (ms.length) ++ cmbIf3 else sql ++ cmbSel) ++ cmbFrom) ++ cmbOpen) ps).1 ++ cmbClause0) (toSql score m0 (((if score then sql ++ cmbSel ++ cmbIf1 ++ ifnullTerms 1 (ms.length) ++ cmbIf2 ++ ifnullScores 1 (ms.length) ++ cmbIf3 else sql ++ cmbSel) ++ cmbFrom) ++ cmbOpen) ps).2).1) = _
            rw [ha1]
            simp [specParams, specParamsList_nil, List.length_append]
      | cons s0 ss =>
        obtain ⟨hq1, hq2⟩ := toSql_params m0 score (((if score then sql ++ cmbSel ++ cmbIf1 ++ ifnullTerms 1 (ms.length + 1 + ss.length) ++ cmbIf2 ++ ifnullScores 1 (ms.length + 1 + ss.length) ++ cmbIf3 else sql ++ cmbSel) ++ cmbFrom) ++ cmbOpen) ps
        obtain ⟨hm1, hm2⟩ := mustJoins_params ms score 1 ((toSql score m0 (((if score then sql ++ cmbSel ++ cmbIf1 ++ ifnullTerms 1 (ms.length + 1 + ss.length) ++ cmbIf2 ++ ifnullScores 1 (ms.length + 1 + ss.length) ++ cmbIf3 else sql ++ cmbSel) ++ cmbFrom) ++ cmbOpen) ps).1 ++ cmbClause0) ((toSql score m0 (((if score then sql ++ cmbSel ++ cmbIf1 ++ ifnullTerms 1 (ms.length + 1 + ss.length) ++ cmbIf2 ++ ifnullScores 1 (ms.length + 1 + ss.length) ++ cmbIf3 else sql ++ cmbSel) ++ cmbFrom) ++ cmbOpen) ps).2)
        obtain ⟨hs1, hs2⟩ := toSql_params s0 score ((mustJoins score 1 ms ((toSql score m0 (((if score then sql ++ cmbSel ++ cmbIf1 ++ ifnullTerms 1 (ms.length + 1 + ss.length) ++ cmbIf2 ++ ifnullScores 1 (ms.length + 1 + ss.length) ++ cmbIf3 else sql ++ cmbSel) ++ cmbFrom) ++ cmbOpen) ps).1 ++ cmbClause0) (toSql score m0 (((if score then sql ++ cmbSel ++ cmbIf1 ++ ifnullTerms 1 (ms.length + 1 + ss.length) ++ cmbIf2 ++ ifnullScores 1 (ms.length + 1 + ss.length) ++ cmbIf3 else sql ++ cmbSel) ++ cmbFrom) ++ cmbOpen) ps).2).1 ++ cmbLeftJoin) ((mustJoins score 1 ms ((toSql score m0 (((if score then sql ++ cmbSel ++ cmbIf1 ++ ifnullTerms 1 (ms.length + 1 + ss.length) ++ cmbIf2 ++ ifnullScores 1 (ms.length + 1 + ss.length) ++ cmbIf3 else sql ++ cmbSel) ++ cmbFrom) ++ cmbOpen) ps).1 ++ cmbClause0) (toSql score m0 (((if score then sql ++ cmbSel ++ cmbIf1 ++ ifnullTerms 1 (ms.length + 1 + ss.length) ++ cmbIf2 ++ ifnullScores 1 (ms.length + 1 + ss.length) ++ cmbIf3 else sql ++ cmbSel) ++ cmbFrom) ++ cmbOpen) ps).2).2)
        obtain ⟨hj1, hj2⟩ := shouldJoins_params ss score (ms.length + 1 + 1) ((toSql score s0 ((mustJoins score 1 ms ((toSql score m0 (((if score then sql ++ cmbSel ++ cmbIf1 ++ ifnullTerms 1 (ms.length + 1 + ss.length) ++ cmbIf2 ++ ifnullScores 1 (ms.length + 1 + ss.length) ++ cmbIf3 else sql ++ cmbSel) ++ cmbFrom) ++ cmbOpen) ps).1 ++ cmbClause0) (toSql score m0 (((if score then sql ++ cmbSel ++ cmbIf1 ++ ifnullTerms 1 (ms.length + 1 + ss.length) ++ cmbIf2 ++ ifnullScores 1 (ms.length + 1 + ss.length) ++ cmbIf3 else sql ++ cmbSel) ++ cmbFrom) ++ cmbOpen) ps).2).1 ++ cmbLeftJoin) (mustJoins score 1 ms ((toSql score m0 (((if score then sql ++ cmbSel ++ cmbIf1 ++ ifnullTerms 1 (ms.length + 1 + ss.length) ++ cmbIf2 ++ ifnullScores 1 (ms.length + 1 + ss.length) ++ cmbIf3 else sql ++ cmbSel) ++ cmbFrom) ++ cmbOpen) ps).1 ++ cmbClause0) (toSql score m0 (((if score then sql ++ cmbSel ++ cmbIf1 ++ ifnullTerms 1 (ms.length + 1 + ss.length) ++ cmbIf2 ++ ifnullScores 1 (ms.length + 1 + ss.length) ++ cmbIf3 else sql ++ cmbSel) ++ cmbFrom) ++ cmbOpen) ps).2).2).1 ++ cmbAs ++ natStr (ms.length + 1) ++ cmbUsing) ((toSql score s0 ((mustJoins score 1 ms ((toSql score m0 (((if score then sql ++ cmbSel ++ cmbIf1 ++ ifnullTerms 1 (ms.length + 1 + ss.length) ++ cmbIf2 ++ ifnullScores 1 (ms.length + 1 + ss.length) ++ cmbIf3 else sql ++ cmbSel) ++ cmbFrom) ++ cmbOpen) ps).1 ++ cmbClause0) (toSql score m0 (((if score then sql ++ cmbSel ++ cmbIf1 ++ ifnullTerms 1 (ms.length + 1 + ss.length) ++ cmbIf2 ++ ifnullScores 1 (ms.length + 1 + ss.length) ++ cmbIf3 else sql ++ cmbSel) ++ cmbFrom) ++ cmbOpen) ps).2).1 ++ cmbLeftJoin) (mustJoins score 1 ms ((toSql score m0 (((if score then sql ++ cmbSel ++ cmbIf1 ++ ifnullTerms 1 (ms.length + 1 + ss.length) ++ cmbIf2 ++ ifnullScores 1 (ms.length + 1 + ss.length) ++ cmbIf3 else sql ++ cmbSel) ++ cmbFrom) ++ cmbOpen) ps).1 ++ cmbClause0) (toSql score m0 (((if score then sql ++ cmbSel ++ cmbIf1 ++ ifnullTerms 1 (ms.length + 1 + ss.length) ++ cmbIf2 ++ ifnullScores 1 (ms.length + 1 + ss.length) ++ cmbIf3 else sql ++ cmbSel) ++ cmbFrom) ++ cmbOpen) ps).2).2).2)
        have ha2 : (shouldJoins score (ms.length + 1 + 1) ss ((toSql score s0 ((mustJoins score 1 ms ((toSql score m0 (((if score then sql ++ cmbSel ++ cmbIf1 ++ ifnullTerms 1 (ms.length + 1 + ss.length) ++ cmbIf2 ++ ifnullScores 1 (ms.length + 1 + ss.length) ++ cmbIf3 else sql ++ cmbSel) ++ cmbFrom) ++ cmbOpen) ps).1 ++ cmbClause0) (toSql score m0 (((if score then sql ++ cmbSel ++ cmbIf1 ++ ifnullTerms 1 (ms.length + 1 + ss.length) ++ cmbIf2 ++ ifnullScores 1 (ms.length + 1 + ss.length) ++ cmbIf3 else sql ++ cmbSel) ++ cmbFrom) ++ cmbOpen) ps).2).1 ++ cmbLeftJoin) (mustJoins score 1 ms ((toSql score m0 (((if score then sql ++ cmbSel ++ cmbIf1 ++ ifnullTerms 1 (ms.length + 1 + ss.length) ++ cmbIf2 ++ ifnullScores 1 (ms.length + 1 + ss.length) ++ cmbIf3 else sql ++ cmbSel) ++ cmbFrom) ++ cmbOpen) ps).1 ++ cmbClause0) (toSql score m0 (((if score then sql ++ cmbSel ++ cmbIf1 ++ ifnullTerms 1 (ms.length + 1 + ss.length) ++ cmbIf2 ++ ifnullScores 1 (ms.length + 1 + ss.length) ++ cmbIf3 else sql ++ cmbSel) ++ cmbFrom) ++ cmbOpen) ps).2).2).1 ++ cmbAs ++ natStr (ms.length + 1) ++ cmbUsing) (toSql score s0 ((mustJoins score 1 ms ((toSql score m0 (((if score then sql ++ cmbSel ++ cmbIf1 ++ ifnullTerms 1 (ms.length + 1 + ss.length) ++ cmbIf2 ++ ifnullScores 1 (ms.length + 1 + ss.length) ++ cmbIf3 else sql ++ cmbSel) ++ cmbFrom) ++ cmbOpen) ps).1 ++ cmbClause0) (toSql score m0 (((if score then sql ++ cmbSel ++ cmbIf1 ++ ifnullTerms 1 (ms.length + 1 + ss.length) ++ cmbIf2 ++ ifnullScores 1 (ms.length + 1 + ss.length) ++ cmbIf3 else sql ++ cmbSel) ++ cmbFrom) ++ cmbOpen) ps).2).1 ++ cmbLeftJoin) (mustJoins score 1 ms ((toSql score m0 (((if score then sql ++ cmbSel ++ cmbIf1 ++ ifnullTerms 1 (ms.length + 1 + ss.length) ++ cmbIf2 ++ ifnullScores 1 (ms.length + 1 + ss.length) ++ cmbIf3 else sql ++ cmbSel) ++ cmbFrom) ++ cmbOpen) ps).1 ++ cmbClause0) (toSql score m0 (((if score then sql ++ cmbSel ++ cmbIf1 ++ ifnullTerms 1 (ms.length + 1 + ss.length) ++ cmbIf2 ++ ifnullScores 1 (ms.length + 1 + ss.length) ++ cmbIf3 else sql ++ cmbSel) ++ cmbFrom) ++ cmbOpen) ps).2).2).2).2 =
            ps ++ (specParamsList (m0 :: ms) ++ specParamsList (s0 :: ss)) := by
          rw [hj1, hs1, hm1, hq1, specParamsList_cons, specParamsList_cons]
          simp [List.append_assoc]
        have ha1 : cntQ (shouldJoins score (ms.length + 1 + 1) ss ((toSql score s0 ((mustJoins score 1 ms ((toSql score m0 (((if score then sql ++ cmbSel ++ cmbIf1 ++ ifnullTerms 1 (ms.length + 1 + ss.length) ++ cmbIf2 ++ ifnullScores 1 (ms.length + 1 + ss.length) ++ cmbIf3 else sql ++ cmbSel) ++ cmbFrom) ++ cmbOpen) ps).1 ++ cmbClause0) (toSql score m0 (((if score then sql ++ cmbSel ++ cmbIf1 ++ ifnullTerms 1 (ms.length + 1 + ss.length) ++ cmbIf2 ++ ifnullScores 1 (ms.length + 1 + ss.length) ++ cmbIf3 else sql ++ cmbSel) ++ cmbFrom) ++ cmbOpen) ps).2).1 ++ cmbLeftJoin) (mustJoins score 1 ms ((toSql score m0 (((if score then sql ++ cmbSel ++ cmbIf1 ++ ifnullTerms 1 (ms.length + 1 + ss.length) ++ cmbIf2 ++ ifnullScores 1 (ms.length + 1 + ss.length) ++ cmbIf3 else sql ++ cmbSel) ++ cmbFrom) ++ cmbOpen) ps).1 ++ cmbClause0) (toSql score m0 (((if score then sql ++ cmbSel ++ cmbIf1 ++ ifnullTerms 1 (ms.length + 1 + ss.length) ++ cmbIf2 ++ ifnullScores 1 (ms.length + 1 + ss.length) ++ cmbIf3 else sql ++ cmbSel) ++ cmbFrom) ++ cmbOpen) ps).2).2).1 ++ cmbAs ++ natStr (ms.length + 1) ++ cmbUsing) (toSql score s0 ((mustJoins score 1 ms ((toSql score m0 (((if score then sql ++ cmbSel ++ cmbIf1 ++ ifnullTerms 1 (ms.length + 1 + ss.length) ++ cmbIf2 ++ ifnullScores 1 (ms.length + 1 + ss.length) ++ cmbIf3 else sql ++ cmbSel) ++ cmbFrom) ++ cmbOpen) ps).1 ++ cmbClause0) (toSql score m0 (((if score then sql ++ cmbSel ++ cmbIf1 ++ ifnullTerms 1 (ms.length + 1 + ss.length) ++ cmbIf2 ++ ifnullScores 1 (ms.length + 1 + ss.length) ++ cmbIf3 else sql ++ cmbSel) ++ cmbFrom) ++ cmbOpen) ps).2).1 ++ cmbLeftJoin) (mustJoins score 1 ms ((toSql score m0 (((if score then sql ++ cmbSel ++ cmbIf1 ++ ifnullTerms 1 (ms.length + 1 + ss.length) ++ cmbIf2 ++ ifnullScores 1 (ms.length + 1 + ss.length) ++ cmbIf3 else sql ++ cmbSel) ++ cmbFrom) ++ cmbOpen) ps).1 ++ cmbClause0) (toSql score m0 (((if score then sql ++ cmbSel ++ cmbIf1 ++ ifnullTerms 1 (ms.length + 1 + ss.length) ++ cmbIf2 ++ ifnullScores 1 (ms.length + 1 + ss.length) ++ cmbIf3 else sql ++ cmbSel) ++ cmbFrom) ++ cmbOpen) ps).2).2).2).1 =
            cntQ sql + (specParamsList (m0 :: ms) ++ specParamsList (s0 :: ss)).length := by
          rw [hj2]
          simp only [cntQ_append, cntQ_cmbAs, cntQ_natStr, cntQ_cmbUsing]
          rw [hs2]
          simp only [cntQ_append, cntQ_cmbLeftJoin]
          rw [hm2]
          simp only [cntQ_append, cntQ_cmbClause0]
          rw [hq2]
          simp only [cntQ_append, cntQ_cmbOpen, cntQ_cmbFrom, cntQ_scoreHeader,
            cntQ_cmbSel, specParamsList_cons, List.length_append]
          omega
        have step : toSql score (.combined (s0 :: ss) (m0 :: ms) mustNot) sql ps =
            (if mustNot.length ≠ 0 then ((mustNotJoins (ms.length + 1 + ss.length + 1) mustNot ((shouldJoins score (ms.length + 1 + 1) ss ((toSql score s0 ((mustJoins score 1 ms ((toSql score m0 (((if score then sql ++ cmbSel ++ cmbIf1 ++ ifnullTerms 1 (ms.length + 1 + ss.length) ++ cmbIf2 ++ ifnullScores 1 (ms.length + 1 + ss.length) ++ cmbIf3 else sql ++ cmbSel) ++ cmbFrom) ++ cmbOpen) ps).1 ++ cmbClause0) (toSql score m0 (((if score then sql ++ cmbSel ++ cmbIf1 ++ ifnullTerms 1 (ms.length + 1 + ss.length) ++ cmbIf2 ++ ifnullScores 1 (ms.length + 1 + ss.length) ++ cmbIf3 else sql ++ cmbSel) ++ cmbFrom) ++ cmbOpen) ps).2).1 ++ cmbLeftJoin) (mustJoins score 1 ms ((toSql score m0 (((if score then sql ++ cmbSel ++ cmbIf1 ++ ifnullTerms 1 (ms.length + 1 + ss.length) ++ cmbIf2 ++ ifnullScores 1 (ms.length + 1 + ss.length) ++ cmbIf3 else sql ++ cmbSel) ++ cmbFrom) ++ cmbOpen) ps).1 ++ cmbClause0) (toSql score m0 (((if score then sql ++ cmbSel ++ cmbIf1 ++ ifnullTerms 1 (ms.length + 1 + ss.length) ++ cmbIf2 ++ ifnullScores 1 (ms.length + 1 + ss.length) ++ cmbIf3 else sql ++ cmbSel) ++ cmbFrom) ++ cmbOpen) ps).2).2).1 ++ cmbAs ++ natStr (ms.length + 1) ++ cmbUsing) (toSql score s0 ((mustJoins score 1 ms ((toSql score m0 (((if score then sql ++ cmbSel ++ cmbIf1 ++ ifnullTerms 1 (ms.length + 1 + ss.length) ++ cmbIf2 ++ ifnullScores 1 (ms.length + 1 + ss.length) ++ cmbIf3 else sql ++ cmbSel) ++ cmbFrom) ++ cmbOpen) ps).1 ++ cmbClause0) (toSql score m0 (((if score then sql ++ cmbSel ++ cmbIf1 ++ ifnullTerms 1 (ms.length + 1 + ss.length) ++ cmbIf2 ++ ifnullScores 1 (ms.length + 1 + ss.length) ++ cmbIf3 else sql ++ cmbSel) ++ cmbFrom) ++ cmbOpen) ps).2).1 ++ cmbLeftJoin) (mustJoins score 1 ms ((toSql score m0 (((if score then sql ++ cmbSel ++ cmbIf1 ++ ifnullTerms 1 (ms.length + 1 + ss.length) ++ cmbIf2 ++ ifnullScores 1 (ms.length + 1 + ss.length) ++ cmbIf3 else sql ++ cmbSel) ++ cmbFrom) ++ cmbOpen) ps).1 ++ cmbClause0) (toSql score m0 (((if score then sql ++ cmbSel ++ cmbIf1 ++ ifnullTerms 1 (ms.length + 1 + ss.length) ++ cmbIf2 ++ ifnullScores 1 (ms.length + 1 + ss.length) ++ cmbIf3 else sql ++ cmbSel) ++ cmbFrom) ++ cmbOpen) ps).2).2).2).1) ((shouldJoins score (ms.length + 1 + 1) ss ((toSql score s0 ((mustJoins score 1 ms ((toSql score m0 (((if score then sql ++ cmbSel ++ cmbIf1 ++ ifnullTerms 1 (ms.length + 1 + ss.length) ++ cmbIf2 ++ ifnullScores 1 (ms.length + 1 + ss.length) ++ cmbIf3 else sql ++ cmbSel) ++ cmbFrom) ++ cmbOpen) ps).1 ++ cmbClause0) (toSql score m0 (((if score then sql ++ cmbSel ++ cmbIf1 ++ ifnullTerms 1 (ms.length + 1 + ss.length) ++ cmbIf2 ++ ifnullScores 1 (ms.length + 1 + ss.length) ++ cmbIf3 else sql ++ cmbSel) ++ cmbFrom) ++ cmbOpen) ps).2).1 ++ cmbLeftJoin) (mustJoins score 1 ms ((toSql score m0 (((if score then sql ++ cmbSel ++ cmbIf1 ++ ifnullTerms 1 (ms.length + 1 + ss.length) ++ cmbIf2 ++ ifnullScores 1 (ms.length + 1 + ss.length) ++ cmbIf3 else sql ++ cmbSel) ++ cmbFrom) ++ cmbOpen) ps).1 ++ cmbClause0) (toSql score m0 (((if score then sql ++ cmbSel ++ cmbIf1 ++ ifnullTerms 1 (ms.length + 1 + ss.length) ++ cmbIf2 ++ ifnullScores 1 (ms.length + 1 + ss.length) ++ cmbIf3 else sql ++ cmbSel) ++ cmbFrom) ++ cmbOpen) ps).2).2).1 ++ cmbAs ++ natStr (ms.length + 1) ++ cmbUsing) (toSql score s0 ((mustJoins score 1 ms ((toSql score m0 (((if score then sql ++ cmbSel ++ cmbIf1 ++ ifnullTerms 1 (ms.length + 1 + ss.length) ++ cmbIf2 ++ ifnullScores 1 (ms.length + 1 + ss.length) ++ cmbIf3 else sql ++ cmbSel) ++ cmbFrom) ++ cmbOpen) ps).1 ++ cmbClause0) (toSql score m0 (((if score then sql ++ cmbSel ++ cmbIf1 ++ ifnullTerms 1 (ms.length + 1 + ss.length) ++ cmbIf2 ++ ifnullScores 1 (ms.length + 1 + ss.length) ++ cmbIf3 else sql ++ cmbSel) ++ cmbFrom) ++ cmbOpen) ps).2).1 ++ cmbLeftJoin) (mustJoins score 1 ms ((toSql score m0 (((if score then sql ++ cmbSel ++ cmbIf1 ++ ifnullTerms 1 (ms.length + 1 + ss.length) ++ cmbIf2 ++ ifnullScores 1 (ms.length + 1 + ss.length) ++ cmbIf3 else sql ++ cmbSel) ++ cmbFrom) ++ cmbOpen) ps).1 ++ cmbClause0) (toSql score m0 (((if score then sql ++ cmbSel ++ cmbIf1 ++ ifnullTerms 1 (ms.length + 1 + ss.length) ++ cmbIf2 ++ ifnullScores 1 (ms.length + 1 + ss.length) ++ cmbIf3 else sql ++ cmbSel) ++ cmbFrom) ++ cmbOpen) ps).2).2).2).2)).1 ++ cmbWhere ++ natStr (ms.length + 1 + ss.length + 1) ++ cmbIsNull ++ andNulls ((ms.length + 1 + ss.length + 1) + 1) (mustNot.length - 1), (mustNotJoins (ms.length + 1 + ss.length + 1) mustNot ((shouldJoins score (ms.length + 1 + 1) ss ((toSql score s0 ((mustJoins score 1 ms ((toSql score m0 (((if score then sql ++ cmbSel ++ cmbIf1 ++ ifnullTerms 1 (ms.length + 1 + ss.length) ++ cmbIf2 ++ ifnullScores 1 (ms.length + 1 + ss.length) ++ cmbIf3 else sql ++ cmbSel) ++ cmbFrom) ++ cmbOpen) ps).1 ++ cmbClause0) (toSql score m0 (((if score then sql ++ cmbSel ++ cmbIf1 ++ ifnullTerms 1 (ms.length + 1 + ss.length) ++ cmbIf2 ++ ifnullScores 1 (ms.length + 1 + ss.length) ++ cmbIf3 else sql ++ cmbSel) ++ cmbFrom) ++ cmbOpen) ps).2).1 ++ cmbLeftJoin) (mustJoins score 1 ms ((toSql score m0 (((if score then sql ++ cmbSel ++ cmbIf1 ++ ifnullTerms 1 (ms.length + 1 + ss.length) ++ cmbIf2 ++ ifnullScores 1 (ms.length + 1 + ss.length) ++ cmbIf3 else sql ++ cmbSel) ++ cmbFrom) ++ cmbOpen) ps).1 ++ cmbClause0) (toSql score m0 (((if score then sql ++ cmbSel ++ cmbIf1 ++ ifnullTerms 1 (ms.length + 1 + ss.length) ++ cmbIf2 ++ ifnullScores 1 (ms.length + 1 + ss.length) ++ cmbIf3 else sql ++ cmbSel) ++ cmbFrom) ++ cmbOpen) ps).2).2).1 ++ cmbAs ++ natStr (ms.length + 1) ++ cmbUsing) (toSql score s0 ((mustJoins score 1 ms ((toSql score m0 (((if score then sql ++ cmbSel ++ cmbIf1 ++ ifnullTerms 1 (ms.length + 1 + ss.length) ++ cmbIf2 ++ ifnullScores 1 (ms.length + 1 + ss.length) ++ cmbIf3 else sql ++ cmbSel) ++ cmbFrom) ++ cmbOpen) ps).1 ++ cmbClause0) (toSql score m0 (((if score then sql ++ cmbSel ++ cmbIf1 ++ ifnullTerms 1 (ms.length + 1 + ss.length) ++ cmbIf2 ++ ifnullScores 1 (ms.length + 1 + ss.length) ++ cmbIf3 else sql ++ cmbSel) ++ cmbFrom) ++ cmbOpen) ps).2).1 ++ cmbLeftJoin) (mustJoins score 1 ms ((toSql score m0 (((if score then sql ++ cmbSel ++ cmbIf1 ++ ifnullTerms 1 (ms.length + 1 + ss.length) ++ cmbIf2 ++ ifnullScores 1 (ms.length + 1 + ss.length) ++ cmbIf3 else sql ++ cmbSel) ++ cmbFrom) ++ cmbOpen) ps).1 ++ cmbClause0) (toSql score m0 (((if score then sql ++ cmbSel ++ cmbIf1 ++ ifnullTerms 1 (ms.length + 1 + ss.length) ++ cmbIf2 ++ ifnullScores 1 (ms.length + 1 + ss.length) ++ cmbIf3 else sql ++ cmbSel) ++ cmbFrom) ++ cmbOpen) ps).2).2).2).1) ((shouldJoins score (ms.length + 1 + 1) ss ((toSql score s0 ((mustJoins score 1 ms ((toSql score m0 (((if score then sql ++ cmbSel ++ cmbIf1 ++ ifnullTerms 1 (ms.length + 1 + ss.length) ++ cmbIf2 ++ ifnullScores 1 (ms.length + 1 + ss.length) ++ cmbIf3 else sql ++ cmbSel) ++ cmbFrom) ++ cmbOpen) ps).1 ++ cmbClause0) (toSql score m0 (((if score then sql ++ cmbSel ++ cmbIf1 ++ ifnullTerms 1 (ms.length + 1 + ss.length) ++ cmbIf2 ++ ifnullScores 1 (ms.length + 1 + ss.length) ++ cmbIf3 else sql ++ cmbSel) ++ cmbFrom) ++ cmbOpen) ps).2).1 ++ cmbLeftJoin) (mustJoins score 1 ms ((toSql score m0 (((if score then sql ++ cmbSel ++ cmbIf1 ++ ifnullTerms 1 (ms.length + 1 + ss.length) ++ cmbIf2 ++ ifnullScores 1 (ms.length + 1 + ss.length) ++ cmbIf3 else sql ++ cmbSel) ++ cmbFrom) ++ cmbOpen) ps).1 ++ cmbClause0) (toSql score m0 (((if score then sql ++ cmbSel ++ cmbIf1 ++ ifnullTerms 1 (ms.length + 1 + ss.length) ++ cmbIf2 ++ ifnullScores 1 (ms.length + 1 + ss.length) ++ cmbIf3 else sql ++ cmbSel) ++ cmbFrom) ++ cmbOpen) ps).2).2).1 ++ cmbAs ++ natStr (ms.length + 1) ++ cmbUsing) (toSql score s0 ((mustJoins score 1 ms ((toSql score m0 (((if score then sql ++ cmbSel ++ cmbIf1 ++ ifnullTerms 1 (ms.length + 1 + ss.length) ++ cmbIf2 ++ ifnullScores 1 (ms.length + 1 + ss.length) ++ cmbIf3 else sql ++ cmbSel) ++ cmbFrom) ++ cmbOpen) ps).1 ++ cmbClause0) (toSql score m0 (((if score then sql ++ cmbSel ++ cmbIf1 ++ ifnullTerms 1 (ms.length + 1 + ss.length) ++ cmbIf2 ++ ifnullScores 1 (ms.length + 1 + ss.length) ++ cmbIf3 else sql ++ cmbSel) ++ cmbFrom) ++ cmbOpen) ps).2).1 ++ cmbLeftJoin) (mustJoins score 1 ms ((toSql score m0 (((if score then sql ++ cmbSel ++ cmbIf1 ++ ifnullTerms 1 (ms.length + 1 + ss.length) ++ cmbIf2 ++ ifnullScores 1 (ms.length + 1 + ss.length) ++ cmbIf3 else sql ++ cmbSel) ++ cmbFrom) ++ cmbOpen) ps).1 ++ cmbClause0) (toSql score m0 (((if score then sql ++ cmbSel ++ cmbIf1 ++ ifnullTerms 1 (ms.length + 1 + ss.length) ++ cmbIf2 ++ ifnullScores 1 (ms.length + 1 + ss.length) ++ cmbIf3 else sql ++ cmbSel) ++ cmbFrom) ++ cmbOpen) ps).2).2).2).2)).2) else (((shouldJoins score (ms.length + 1 + 1) ss ((toSql score s0 ((mustJoins score 1 ms ((toSql score m0 (((if score then sql ++ cmbSel ++ cmbIf1 ++ ifnullTerms 1 (ms.length + 1 + ss.length) ++ cmbIf2 ++ ifnullScores 1 (ms.length + 1 + ss.length) ++ cmbIf3 else sql ++ cmbSel) ++ cmbFrom) ++ cmbOpen) ps).1 ++ cmbClause0) (toSql score m0 (((if score then sql ++ cmbSel ++ cmbIf1 ++ ifnullTerms 1 (ms.length + 1 + ss.length) ++ cmbIf2 ++ ifnullScores 1 (ms.length + 1 + ss.length) ++ cmbIf3 else sql ++ cmbSel) ++ cmbFrom) ++ cmbOpen) ps).2).1 ++ cmbLeftJoin) (mustJoins score 1 ms ((toSql score m0 (((if score then sql ++ cmbSel ++ cmbIf1 ++ ifnullTerms 1 (ms.length + 1 + ss.length) ++ cmbIf2 ++ ifnullScores 1 (ms.length + 1 + ss.length) ++ cmbIf3 else sql ++ cmbSel) ++ cmbFrom) ++ cmbOpen) ps).1 ++ cmbClause0) (toSql score m0 (((if score then sql ++ cmbSel ++ cmbIf1 ++ ifnullTerms 1 (ms.length + 1 + ss.length) ++ cmbIf2 ++ ifnullScores 1 (ms.length + 1 + ss.length) ++ cmbIf3 else sql ++ cmbSel) ++ cmbFrom) ++ cmbOpen) ps).2).2).1 ++ cmbAs ++ natStr (ms.length + 1) ++ cmbUsing) (toSql score s0 ((mustJoins score 1 ms ((toSql score m0 (((if score then sql ++ cmbSel ++ cmbIf1 ++ ifnullTerms 1 (ms.length + 1 + ss.length) ++ cmbIf2 ++ ifnullScores 1 (ms.length + 1 + ss.length) ++ cmbIf3 else sql ++ cmbSel) ++ cmbFrom) ++ cmbOpen) ps).1 ++ cmbClause0) (toSql score m0 (((if score then sql ++ cmbSel ++ cmbIf1 ++ ifnullTerms 1 (ms.length + 1 + ss.length) ++ cmbIf2 ++ ifnullScores 1 (ms.length + 1 + ss.length) ++ cmbIf3 else sql ++ cmbSel) ++ cmbFrom) ++ cmbOpen) ps).2).1 ++ cmbLeftJoin) (mustJoins score 1 ms ((toSql score m0 (((if score then sql ++ cmbSel ++ cmbIf1 ++ ifnullTerms 1 (ms.length + 1 + ss.length) ++ cmbIf2 ++ ifnullScores 1 (ms.length + 1 + ss.length) ++ cmbIf3 else sql ++ cmbSel) ++ cmbFrom) ++ cmbOpen) ps).1 ++ cmbClause0) (toSql score m0 (((if score then sql ++ cmbSel ++ cmbIf1 ++ ifnullTerms 1 (ms.length + 1 + ss.length) ++ cmbIf2 ++ ifnullScores 1 (ms.length + 1 + ss.length) ++ cmbIf3 else sql ++ cmbSel) ++ cmbFrom) ++ cmbOpen) ps).2).2).2).1), ((shouldJoins score (ms.length + 1 + 1) ss ((toSql score s0 ((mustJoins score 1 ms ((toSql score m0 (((if score then sql ++ cmbSel ++ cmbIf1 ++ ifnullTerms 1 (ms.length + 1 + ss.length) ++ cmbIf2 ++ ifnullScores 1 (ms.length + 1 + ss.length) ++ cmbIf3 else sql ++ cmbSel) ++ cmbFrom) ++ cmbOpen) ps).1 ++ cmbClause0) (toSql score m0 (((if score then sql ++ cmbSel ++ cmbIf1 ++ ifnullTerms 1 (ms.length + 1 + ss.length) ++ cmbIf2 ++ ifnullScores 1 (ms.length + 1 + ss.length) ++ cmbIf3 else sql ++ cmbSel) ++ cmbFrom) ++ cmbOpen) ps).2).1 ++ cmbLeftJoin) (mustJoins score 1 ms ((toSql score m0 (((if score then sql ++ cmbSel ++ cmbIf1 ++ ifnullTerms 1 (ms.length + 1 + ss.length) ++ cmbIf2 ++ ifnullScores 1 (ms.length + 1 + ss.length) ++ cmbIf3 else sql ++ cmbSel) ++ cmbFrom) ++ cmbOpen) ps).1 ++ cmbClause0) (toSql score m0 (((if score then sql ++ cmbSel ++ cmbIf1 ++ ifnullTerms 1 (ms.length + 1 + ss.length) ++ cmbIf2 ++ ifnullScores 1 (ms.length + 1 + ss.length) ++ cmbIf3 else sql ++ cmbSel) ++ cmbFrom) ++ cmbOpen) ps).2).2).1 ++ cmbAs ++ natStr (ms.length + 1) ++ cmbUsing) (toSql score s0 ((mustJoins score 1 ms ((toSql score m0 (((if score then sql ++ cmbSel ++ cmbIf1 ++ ifnullTerms 1 (ms.length + 1 + ss.length) ++ cmbIf2 ++ ifnullScores 1 (ms.length + 1 + ss.length) ++ cmbIf3 else sql ++ cmbSel) ++ cmbFrom) ++ cmbOpen) ps).1 ++ cmbClause0) (toSql score m0 (((if score then sql ++ cmbSel ++ cmbIf1 ++ ifnullTerms 1 (ms.length + 1 + ss.length) ++ cmbIf2 ++ ifnullScores 1 (ms.length + 1 + ss.length) ++ cmbIf3 else sql ++ cmbSel) ++ cmbFrom) ++ cmbOpen) ps).2).1 ++ cmbLeftJoin) (mustJoins score 1 ms ((toSql score m0 (((if score then sql ++ cmbSel ++ cmbIf1 ++ ifnullTerms 1 (ms.length + 1 + ss.length) ++ cmbIf2 ++ ifnullScores 1 (ms.length + 1 + ss.length) ++ cmbIf3 else sql ++ cmbSel) ++ cmbFrom) ++ cmbOpen) ps).1 ++ cmbClause0) (toSql score m0 (((if score then sql ++ cmbSel ++ cmbIf1 ++ ifnullTerms 1 (ms.length + 1 + ss.length) ++ cmbIf2 ++ ifnullScores 1 (ms.length + 1 + ss.length) ++ cmbIf3 else sql ++ cmbSel) ++ cmbFrom) ++ cmbOpen) ps).2).2).2).2))) := rfl
        rw [step]
        by_cases hmn : mustNot.length ≠ 0
        · rw [if_pos hmn]
          obtain ⟨h1, h2⟩ := mustNotJoins_params mustNot (ms.length + 1 + ss.length + 1) ((shouldJoins score (ms.length + 1 + 1) ss ((toSql score s0 ((mustJoins score 1 ms ((toSql score m0 (((if score then sql ++ cmbSel ++ cmbIf1 ++ ifnullTerms 1 (ms.length + 1 + ss.length) ++ cmbIf2 ++ ifnullScores 1 (ms.length + 1 + ss.length) ++ cmbIf3 else sql ++ cmbSel) ++ cmbFrom) ++ cmbOpen) ps).1 ++ cmbClause0) (toSql score m0 (((if score then sql ++ cmbSel ++ cmbIf1 ++ ifnullTerms 1 (ms.length + 1 + ss.length) ++ cmbIf2 ++ ifnullScores 1 (ms.length + 1 + ss.length) ++ cmbIf3 else sql ++ cmbSel) ++ cmbFrom) ++ cmbOpen) ps).2).1 ++ cmbLeftJoin) (mustJoins score 1 ms ((toSql score m0 (((if score then sql ++ cmbSel ++ cmbIf1 ++ ifnullTerms 1 (ms.length + 1 + ss.length) ++ cmbIf2 ++ ifnullScores 1 (ms.length + 1 + ss.length) ++ cmbIf3 else sql ++ cmbSel) ++ cmbFrom) ++ cmbOpen) ps).1 ++ cmbClause0) (toSql score m0 (((if score then sql ++ cmbSel ++ cmbIf1 ++ ifnullTerms 1 (ms.length + 1 + ss.length) ++ cmbIf2 ++ ifnullScores 1 (ms.length + 1 + ss.length) ++ cmbIf3 else sql ++ cmbSel) ++ cmbFrom) ++ cmbOpen) ps).2).2).1 ++ cmbAs ++ natStr (ms.length + 1) ++ cmbUsing) (toSql score s0 ((mustJoins score 1 ms ((toSql score m0 (((if score then sql ++ cmbSel ++ cmbIf1 ++ ifnullTerms 1 (ms.length + 1 + ss.length) ++ cmbIf2 ++ ifnullScores 1 (ms.length + 1 + ss.length) ++ cmbIf3 else sql ++ cmbSel) ++ cmbFrom) ++ cmbOpen) ps).1 ++ cmbClause0) (toSql score m0 (((if score then sql ++ cmbSel ++ cmbIf1 ++ ifnullTerms 1 (ms.length + 1 + ss.length) ++ cmbIf2 ++ ifnullScores 1 (ms.length + 1 + ss.length) ++ cmbIf3 else sql ++ cmbSel) ++ cmbFrom) ++ cmbOpen) ps).2).1 ++ cmbLeftJoin) (mustJoins score 1 ms ((toSql score m0 (((if score then sql ++ cmbSel ++ cmbIf1 ++ ifnullTerms 1 (ms.length + 1 + ss.length) ++ cmbIf2 ++ ifnullScores 1 (ms.length + 1 + ss.length) ++ cmbIf3 else sql ++ cmbSel) ++ cmbFrom) ++ cmbOpen) ps).1 ++ cmbClause0) (toSql score m0 (((if score then sql ++ cmbSel ++ cmbIf1 ++ ifnullTerms 1 (ms.length + 1 + ss.length) ++ cmbIf2 ++ ifnullScores 1 (ms.length + 1 + ss.length) ++ cmbIf3 else sql ++ cmbSel) ++ cmbFrom) ++ cmbOpen) ps).2).2).2).1) ((shouldJoins score (ms.length + 1 + 1) ss ((toSql score s0 ((mustJoins score 1 ms ((toSql score m0 (((if score then sql ++ cmbSel ++ cmbIf1 ++ ifnullTerms 1 (ms.length + 1 + ss.length) ++ cmbIf2 ++ ifnullScores 1 (ms.length + 1 + ss.length) ++ cmbIf3 else sql ++ cmbSel) ++ cmbFrom) ++ cmbOpen) ps).1 ++ cmbClause0) (toSql score m0 (((if score then sql ++ cmbSel ++ cmbIf1 ++ ifnullTerms 1 (ms.length + 1 + ss.length) ++ cmbIf2 ++ ifnullScores 1 (ms.length + 1 + ss.length) ++ cmbIf3 else sql ++ cmbSel) ++ cmbFrom) ++ cmbOpen) ps).2).1 ++ cmbLeftJoin) (mustJoins score 1 ms ((toSql score m0 (((if score then sql ++ cmbSel ++ cmbIf1 ++ ifnullTerms 1 (ms.length + 1 + ss.length) ++ cmbIf2 ++ ifnullScores 1 (ms.length + 1 + ss.length) ++ cmbIf3 else sql ++ cmbSel) ++ cmbFrom) ++ cmbOpen) ps).1 ++ cmbClause0) (toSql score m0 (((if score then sql ++ cmbSel ++ cmbIf1 ++ ifnullTerms 1 (ms.length + 1 + ss.length) ++ cmbIf2 ++ ifnullScores 1 (ms.length + 1 + ss.length) ++ cmbIf3 else sql ++ cmbSel) ++ cmbFrom) ++ cmbOpen) ps).2).2).1 ++ cmbAs ++ natStr (ms.length + 1) ++ cmbUsing) (toSql score s0 ((mustJoins score 1 ms ((toSql score m0 (((if score then sql ++ cmbSel ++ cmbIf1 ++ ifnullTerms 1 (ms.length + 1 + ss.length) ++ cmbIf2 ++ ifnullScores 1 (ms.length + 1 + ss.length) ++ cmbIf3 else sql ++ cmbSel) ++ cmbFrom) ++ cmbOpen) ps).1 ++ cmbClause0) (toSql score m0 (((if score then sql ++ cmbSel ++ cmbIf1 ++ ifnullTerms 1 (ms.length + 1 + ss.length) ++ cmbIf2 ++ ifnullScores 1 (ms.length + 1 + ss.length) ++ cmbIf3 else sql ++ cmbSel) ++ cmbFrom) ++ cmbOpen) ps).2).1 ++ cmbLeftJoin) (mustJoins score 1 ms ((toSql score m0 (((if score then sql ++ cmbSel ++ cmbIf1 ++ ifnullTerms 1 (ms.length + 1 + ss.length) ++ cmbIf2 ++ ifnullScores 1 (ms.length + 1 + ss.length) ++ cmbIf3 else sql ++ cmbSel) ++ cmbFrom) ++ cmbOpen) ps).1 ++ cmbClause0) (toSql score m0 (((if score then sql ++ cmbSel ++ cmbIf1 ++ ifnullTerms 1 (ms.length + 1 + ss.length) ++ cmbIf2 ++ ifnullScores 1 (ms.length + 1 + ss.length) ++ cmbIf3 else sql ++ cmbSel) ++ cmbFrom) ++ cmbOpen) ps).2).2).2).2)
          constructor
          · show (mustNotJoins (ms.length + 1 + ss.length + 1) mustNot ((shouldJoins score (ms.length + 1 + 1) ss ((toSql score s0 ((mustJoins score 1 ms ((toSql score m0 (((if score then sql ++ cmbSel ++ cmbIf1 ++ ifnullTerms 1 (ms.length + 1 + ss.length) ++ cmbIf2 ++ ifnullScores 1 (ms.length + 1 + ss.length) ++ cmbIf3 else sql ++ cmbSel) ++ cmbFrom) ++ cmbOpen) ps).1 ++ cmbClause0) (toSql score m0 (((if score then sql ++ cmbSel ++ cmbIf1 ++ ifnullTerms 1 (ms.length + 1 + ss.length) ++ cmbIf2 ++ ifnullScores 1 (ms.length + 1 + ss.length) ++ cmbIf3 else sql ++ cmbSel) ++ cmbFrom) ++ cmbOpen) ps).2).1 ++ cmbLeftJoin) (mustJoins score 1 ms ((toSql score m0 (((if score then sql ++ cmbSel ++ cmbIf1 ++ ifnullTerms 1 (ms.length + 1 + ss.length) ++ cmbIf2 ++ ifnullScores 1 (ms.length + 1 + ss.length) ++ cmbIf3 else sql ++ cmbSel) ++ cmbFrom) ++ cmbOpen) ps).1 ++ cmbClause0) (toSql score m0 (((if score then sql ++ cmbSel ++ cmbIf1 ++ ifnullTerms 1 (ms.length + 1 + ss.length) ++ cmbIf2 ++ ifnullScores 1 (ms.length + 1 + ss.length) ++ cmbIf3 else sql ++ cmbSel) ++ cmbFrom) ++ cmbOpen) ps).2).2).1 ++ cmbAs ++ natStr (ms.length + 1) ++ cmbUsing) (toSql score s0 ((mustJoins score 1 ms ((toSql score m0 (((if score then sql ++ cmbSel ++ cmbIf1 ++ ifnullTerms 1 (ms.length + 1 + ss.length) ++ cmbIf2 ++ ifnullScores 1 (ms.length + 1 + ss.length) ++ cmbIf3 else sql ++ cmbSel) ++ cmbFrom) ++ cmbOpen) ps).1 ++ cmbClause0) (toSql score m0 (((if score then sql ++ cmbSel ++ cmbIf1 ++ ifnullTerms 1 (ms.length + 1 + ss.length) ++ cmbIf2 ++ ifnullScores 1 (ms.length + 1 + ss.length) ++ cmbIf3 else sql ++ cmbSel) ++ cmbFrom) ++ cmbOpen) ps).2).1 ++ cmbLeftJoin) (mustJoins score 1 ms ((toSql score m0 (((if score then sql ++ cmbSel ++ cmbIf1 ++ ifnullTerms 1 (ms.length + 1 + ss.length) ++ cmbIf2 ++ ifnullScores 1 (ms.length + 1 + ss.length) ++ cmbIf3 else sql ++ cmbSel) ++ cmbFrom) ++ cmbOpen) ps).1 ++ cmbClause0) (toSql score m0 (((if score then sql ++ cmbSel ++ cmbIf1 ++ ifnullTerms 1 (ms.length + 1 + ss.length) ++ cmbIf2 ++ ifnullScores 1 (ms.length + 1 + ss.length) ++ cmbIf3 else sql ++ cmbSel) ++ cmbFrom) ++ cmbOpen) ps).2).2).2).1) ((shouldJoins score (ms.length + 1 + 1) ss ((toSql score s0 ((mustJoins score 1 ms ((toSql score m0 (((if score then sql ++ cmbSel ++ cmbIf1 ++ ifnullTerms 1 (ms.length + 1 + ss.length) ++ cmbIf2 ++ ifnullScores 1 (ms.length + 1 + ss.length) ++ cmbIf3 else sql ++ cmbSel) ++ cmbFrom) ++ cmbOpen) ps).1 ++ cmbClause0) (toSql score m0 (((if score then sql ++ cmbSel ++ cmbIf1 ++ ifnullTerms 1 (ms.length + 1 + ss.length) ++ cmbIf2 ++ ifnullScores 1 (ms.length + 1 + ss.length) ++ cmbIf3 else sql ++ cmbSel) ++ cmbFrom) ++ cmbOpen) ps).2).1 ++ cmbLeftJoin) (mustJoins score 1 ms ((toSql score m0 (((if score then sql ++ cmbSel ++ cmbIf1 ++ ifnullTerms 1 (ms.length + 1 + ss.length) ++ cmbIf2 ++ ifnullScores 1 (ms.length + 1 + ss.length) ++ cmbIf3 else sql ++ cmbSel) ++ cmbFrom) ++ cmbOpen) ps).1 ++ cmbClause0) (toSql score m0 (((if score then sql ++ cmbSel ++ cmbIf1 ++ ifnullTerms 1 (ms.length + 1 + ss.length) ++ cmbIf2 ++ ifnullScores 1 (ms.length + 1 + ss.length) ++ cmbIf3 else sql ++ cmbSel) ++ cmbFrom) ++ cmbOpen) ps).2).2).1 ++ cmbAs ++ natStr (ms.length + 1) ++ cmbUsing) (toSql score s0 ((mustJoins score 1 ms ((toSql score m0 (((if score then sql ++ cmbSel ++ cmbIf1 ++ ifnullTerms 1 (ms.length + 1 + ss.length) ++ cmbIf2 ++ ifnullScores 1 (ms.length + 1 + ss.length) ++ cmbIf3 else sql ++ cmbSel) ++ cmbFrom) ++ cmbOpen) ps).1 ++ cmbClause0) (toSql score m0 (((if score then sql ++ cmbSel ++ cmbIf1 ++ ifnullTerms 1 (ms.length + 1 + ss.length) ++ cmbIf2 ++ ifnullScores 1 (ms.length + 1 + ss.length) ++ cmbIf3 else sql ++ cmbSel) ++ cmbFrom) ++ cmbOpen) ps).2).1 ++ cmbLeftJoin) (mustJoins score 1 ms ((toSql score m0 (((if score then sql ++ cmbSel ++ cmbIf1 ++ ifnullTerms 1 (ms.length + 1 + ss.length) ++ cmbIf2 ++ ifnullScores 1 (ms.length + 1 + ss.length) ++ cmbIf3 else sql ++ cmbSel) ++ cmbFrom) ++ cmbOpen) ps).1 ++ cmbClause0) (toSql score m0 (((if score then sql ++ cmbSel ++ cmbIf1 ++ ifnullTerms 1 (ms.length + 1 + ss.length) ++ cmbIf2 ++ ifnullScores 1 (ms.length + 1 + ss.length) ++ cmbIf3 else sql ++ cmbSel) ++ cmbFrom) ++ cmbOpen) ps).2).2).2).2)).2 = _
            rw [h1, ha2]
            simp [specParams, specParamsList_nil, List.append_assoc]
          · show cntQ ((mustNotJoins (ms.length + 1 + ss.length + 1) mustNot ((shouldJoins score (ms.length + 1 + 1) ss ((toSql score s0 ((mustJoins score 1 ms ((toSql score m0 (((if score then sql ++ cmbSel ++ cmbIf1 ++ ifnullTerms 1 (ms.length + 1 + ss.length) ++ cmbIf2 ++ ifnullScores 1 (ms.length + 1 + ss.length) ++ cmbIf3 else sql ++ cmbSel) ++ cmbFrom) ++ cmbOpen) ps).1 ++ cmbClause0) (toSql score m0 (((if score then sql ++ cmbSel ++ cmbIf1 ++ ifnullTerms 1 (ms.length + 1 + ss.length) ++ cmbIf2 ++ ifnullScores 1 (ms.length + 1 + ss.length) ++ cmbIf3 else sql ++ cmbSel) ++ cmbFrom) ++ cmbOpen) ps).2).1 ++ cmbLeftJoin) (mustJoins score 1 ms ((toSql score m0 (((if score then sql ++ cmbSel ++ cmbIf1 ++ ifnullTerms 1 (ms.length + 1 + ss.length) ++ cmbIf2 ++ ifnullScores 1 (ms.length + 1 + ss.length) ++ cmbIf3 else sql ++ cmbSel) ++ cmbFrom) ++ cmbOpen) ps).1 ++ cmbClause0) (toSql score m0 (((if score then sql ++ cmbSel ++ cmbIf1 ++ ifnullTerms 1 (ms.length + 1 + ss.length) ++ cmbIf2 ++ ifnullScores 1 (ms.length + 1 + ss.length) ++ cmbIf3 else sql ++ cmbSel) ++ cmbFrom) ++ cmbOpen) ps).2).2).1 ++ cmbAs ++ natStr (ms.length + 1) ++ cmbUsing) (toSql score s0 ((mustJoins score 1 ms ((toSql score m0 (((if score then sql ++ cmbSel ++ cmbIf1 ++ ifnullTerms 1 (ms.length + 1 + ss.length) ++ cmbIf2 ++ ifnullScores 1 (ms.length + 1 + ss.length) ++ cmbIf3 else sql ++ cmbSel) ++ cmbFrom) ++ cmbOpen) ps).1 ++ cmbClause0) (toSql score m0 (((if score then sql ++ cmbSel ++ cmbIf1 ++ ifnullTerms 1 (ms.length + 1 + ss.length) ++ cmbIf2 ++ ifnullScores 1 (ms.length + 1 + ss.length) ++ cmbIf3 else sql ++ cmbSel) ++ cmbFrom) ++ cmbOpen) ps).2).1 ++ cmbLeftJoin) (mustJoins score 1 ms ((toSql score m0 (((if score then sql ++ cmbSel ++ cmbIf1 ++ ifnullTerms 1 (ms.length + 1 + ss.length) ++ cmbIf2 ++ ifnullScores 1 (ms.length + 1 + ss.length) ++ cmbIf3 else sql ++ cmbSel) ++ cmbFrom) ++ cmbOpen) ps).1 ++ cmbClause0) (toSql score m0 (((if score then sql ++ cmbSel ++ cmbIf1 ++ ifnullTerms 1 (ms.length + 1 + ss.length) ++ cmbIf2 ++ ifnullScores 1 (ms.length + 1 + ss.length) ++ cmbIf3 else sql ++ cmbSel) ++ cmbFrom) ++ cmbOpen) ps).2).2).2).1) ((shouldJoins score (ms.length + 1 + 1) ss ((toSql score s0 ((mustJoins score 1 ms ((toSql score m0 (((if score then sql ++ cmbSel ++ cmbIf1 ++ ifnullTerms 1 (ms.length + 1 + ss.length) ++ cmbIf2 ++ ifnullScores 1 (ms.length + 1 + ss.length) ++ cmbIf3 else sql ++ cmbSel) ++ cmbFrom) ++ cmbOpen) ps).1 ++ cmbClause0) (toSql score m0 (((if score then sql ++ cmbSel ++ cmbIf1 ++ ifnullTerms 1 (ms.length + 1 + ss.length) ++ cmbIf2 ++ ifnullScores 1 (ms.length + 1 + ss.length) ++ cmbIf3 else sql ++ cmbSel) ++ cmbFrom) ++ cmbOpen) ps).2).1 ++ cmbLeftJoin) (mustJoins score 1 ms ((toSql score m0 (((if score then sql ++ cmbSel ++ cmbIf1 ++ ifnullTerms 1 (ms.length + 1 + ss.length) ++ cmbIf2 ++ ifnullScores 1 (ms.length + 1 + ss.length) ++ cmbIf3 else sql ++ cmbSel) ++ cmbFrom) ++ cmbOpen) ps).1 ++ cmbClause0) (toSql score m0 (((if score then sql ++ cmbSel ++ cmbIf1 ++ ifnullTerms 1 (ms.length + 1 + ss.length) ++ cmbIf2 ++ ifnullScores 1 (ms.length + 1 + ss.length) ++ cmbIf3 else sql ++ cmbSel) ++ cmbFrom) ++ cmbOpen) ps).2).2).1 ++ cmbAs ++ natStr (ms.length + 1) ++ cmbUsing) (toSql score s0 ((mustJoins score 1 ms ((toSql score m0 (((if score then sql ++ cmbSel ++ cmbIf1 ++ ifnullTerms 1 (ms.length + 1 + ss.length) ++ cmbIf2 ++ ifnullScores 1 (ms.length + 1 + ss.length) ++ cmbIf3 else sql ++ cmbSel) ++ cmbFrom) ++ cmbOpen) ps).1 ++ cmbClause0) (toSql score m0 (((if score then sql ++ cmbSel ++ cmbIf1 ++ ifnullTerms 1 (ms.length + 1 + ss.length) ++ cmbIf2 ++ ifnullScores 1 (ms.length + 1 + ss.length) ++ cmbIf3 else sql ++ cmbSel) ++ cmbFrom) ++ cmbOpen) ps).2).1 ++ cmbLeftJoin) (mustJoins score 1 ms ((toSql score m0 (((if score then sql ++ cmbSel ++ cmbIf1 ++ ifnullTerms 1 (ms.length + 1 + ss.length) ++ cmbIf2 ++ ifnullScores 1 (ms.length + 1 + ss.length) ++ cmbIf3 else sql ++ cmbSel) ++ cmbFrom) ++ cmbOpen) ps).1 ++ cmbClause0) (toSql score m0 (((if score then sql ++ cmbSel ++ cmbIf1 ++ ifnullTerms 1 (ms.length + 1 + ss.length) ++ cmbIf2 ++ ifnullScores 1 (ms.length + 1 + ss.length) ++ cmbIf3 else sql ++ cmbSel) ++ cmbFrom) ++ cmbOpen) ps).2).2).2).2)).1 ++ cmbWhere ++ natStr (ms.length + 1 + ss.length + 1) ++ cmbIsNull ++
                andNulls ((ms.length + 1 + ss.length + 1) + 1) (mustNot.length - 1)) = _
            simp only [cntQ_append, cntQ_cmbWhere, cntQ_natStr, cntQ_cmbIsNull, cntQ_andNulls]
            rw [h2, ha1]
            simp only [specParams, specParamsList_nil, specParamsList_cons,
              List.length_append, List.length_nil]
            omega
        · rw [if_neg hmn]
          have hnil : mustNot = [] := by
            rcases hmm : mustNot with _ | ⟨n0, ns⟩
            · rfl
            · rw [hmm] at hmn; simp at hmn
          subst hnil
          constructor
          · show ((shouldJoins score (ms.length + 1 + 1) ss ((toSql score s0 ((mustJoins score 1 ms ((toSql score m0 (((if score then sql ++ cmbSel ++ cmbIf1 ++ ifnullTerms 1 (ms.length + 1 + ss.length) ++ cmbIf2 ++ ifnullScores 1 (ms.length + 1 + ss.length) ++ cmbIf3 else sql ++ cmbSel) ++ cmbFrom) ++ cmbOpen) ps).1 ++ cmbClause0) (toSql score m0 (((if score then sql ++ cmbSel ++ cmbIf1 ++ ifnullTerms 1 (ms.length + 1 + ss.length) ++ cmbIf2 ++ ifnullScores 1 (ms.length + 1 + ss.length) ++ cmbIf3 else sql ++ cmbSel) ++ cmbFrom) ++ cmbOpen) ps).2).1 ++ cmbLeftJoin) (mustJoins score 1 ms ((toSql score m0 (((if score then sql ++ cmbSel ++ cmbIf1 ++ ifnullTerms 1 (ms.length + 1 + ss.length) ++ cmbIf2 ++ ifnullScores 1 (ms.length + 1 + ss.length) ++ cmbIf3 else sql ++ cmbSel) ++ cmbFrom) ++ cmbOpen) ps).1 ++ cmbClause0) (toSql score m0 (((if score then sql ++ cmbSel ++ cmbIf1 ++ ifnullTerms 1 (ms.length + 1 + ss.length) ++ cmbIf2 ++ ifnullScores 1 (ms.length + 1 + ss.length) ++ cmbIf3 else sql ++ cmbSel) ++ cmbFrom) ++ cmbOpen) ps).2).2).1 ++ cmbAs ++ natStr (ms.length + 1) ++ cmbUsing) (toSql score s0 ((mustJoins score 1 ms ((toSql score m0 (((if score then sql ++ cmbSel ++ cmbIf1 ++ ifnullTerms 1 (ms.length + 1 + ss.length) ++ cmbIf2 ++ ifnullScores 1 (ms.length + 1 + ss.length) ++ cmbIf3 else sql ++ cmbSel) ++ cmbFrom) ++ cmbOpen) ps).1 ++ cmbClause0) (toSql score m0 (((if score then sql ++ cmbSel ++ cmbIf1 ++ ifnullTerms 1 (ms.length + 1 + ss.length) ++ cmbIf2 ++ ifnullScores 1 (ms.length + 1 + ss.length) ++ cmbIf3 else sql ++ cmbSel) ++ cmbFrom) ++ cmbOpen) ps).2).1 ++ cmbLeftJoin) (mustJoins score 1 ms ((toSql score m0 (((if score then sql ++ cmbSel ++ cmbIf1 ++ ifnullTerms 1 (ms.length + 1 + ss.length) ++ cmbIf2 ++ ifnullScores 1 (ms.length + 1 + ss.length) ++ cmbIf3 else sql ++ cmbSel) ++ cmbFrom) ++ cmbOpen) ps).1 ++ cmbClause0) (toSql score m0 (((if score then sql ++ cmbSel ++ cmbIf1 ++ ifnullTerms 1 (ms.length + 1 + ss.length) ++ cmbIf2 ++ ifnullScores 1 (ms.length + 1 + ss.length) ++ cmbIf3 else sql ++ cmbSel) ++ cmbFrom) ++ cmbOpen) ps).2).2).2).2) = _
            rw [ha2]
            simp [specParams, specParamsList_nil, List.append_assoc]
          · show cntQ ((shouldJoins score (ms.length + 1 + 1) ss ((toSql score s0 ((mustJoins score 1 ms ((toSql score m0 (((if score then sql ++ cmbSel ++ cmbIf1 ++ ifnullTerms 1 (ms.length + 1 + ss.length) ++ cmbIf2 ++ ifnullScores 1 (ms.length + 1 + ss.length) ++ cmbIf3 else sql ++ cmbSel) ++ cmbFrom) ++ cmbOpen) ps).1 ++ cmbClause0) (toSql score m0 (((if score then sql ++ cmbSel ++ cmbIf1 ++ ifnullTerms 1 (ms.length + 1 + ss.length) ++ cmbIf2 ++ ifnullScores 1 (ms.length + 1 + ss.length) ++ cmbIf3 else sql ++ cmbSel) ++ cmbFrom) ++ cmbOpen) ps).2).1 ++ cmbLeftJoin) (mustJoins score 1 ms ((toSql score m0 (((if score then sql ++ cmbSel ++ cmbIf1 ++ ifnullTerms 1 (ms.length + 1 + ss.length) ++ cmbIf2 ++ ifnullScores 1 (ms.length + 1 + ss.length) ++ cmbIf3 else sql ++ cmbSel) ++ cmbFrom) ++ cmbOpen) ps).1 ++ cmbClause0) (toSql score m0 (((if score then sql ++ cmbSel ++ cmbIf1 ++ ifnullTerms 1 (ms.length + 1 + ss.length) ++ cmbIf2 ++ ifnullScores 1 (ms.length + 1 + ss.length) ++ cmbIf3 else sql ++ cmbSel) ++ cmbFrom) ++ cmbOpen) ps).2).2).1 ++ cmbAs ++ natStr (ms.length + 1) ++ cmbUsing) (toSql score s0 ((mustJoins score 1 ms ((toSql score m0 (((if score then sql ++ cmbSel ++ cmbIf1 ++ ifnullTerms 1 (ms.length + 1 + ss.length) ++ cmbIf2 ++ ifnullScores 1 (ms.length + 1 + ss.length) ++ cmbIf3 else sql ++ cmbSel) ++ cmbFrom) ++ cmbOpen) ps).1 ++ cmbClause0) (toSql score m0 (((if score then sql ++ cmbSel ++ cmbIf1 ++ ifnullTerms 1 (ms.length + 1 + ss.length) ++ cmbIf2 ++ ifnullScores 1 (ms.length + 1 + ss.length) ++ cmbIf3 else sql ++ cmbSel) ++ cmbFrom) ++ cmbOpen) ps).2).1 ++ cmbLeftJoin) (mustJoins score 1 ms ((toSql score m0 (((if score then sql ++ cmbSel ++ cmbIf1 ++ ifnullTerms 1 (ms.length + 1 + ss.length) ++ cmbIf2 ++ ifnullScores 1 (ms.length + 1 + ss.length) ++ cmbIf3 else sql ++ cmbSel) ++ cmbFrom) ++ cmbOpen) ps).1 ++ cmbClause0) (toSql score m0 (((if score then sql ++ cmbSel ++ cmbIf1 ++ ifnullTerms 1 (ms.length + 1 + ss.length) ++ cmbIf2 ++ ifnullScores 1 (ms.length + 1 + ss.length) ++ cmbIf3 else sql ++ cmbSel) ++ cmbFrom) ++ cmbOpen) ps).2).2).2).1) = _
            rw [ha1]
            simp [specParams, specParamsList_nil, List.length_append]

theorem mustJoins_params : ∀ (qs : List Query) (score : Bool) (idx : ℕ) (sql : String)
    (ps : List String),
    (mustJoins score idx qs sql ps).2 = ps ++ specParamsList qs ∧
      cntQ (mustJoins score idx qs sql ps).1 = cntQ sql + (specParamsList qs).length
  | [], score, idx, sql, ps => by
    exact ⟨by simp [mustJoins, specParamsList], by simp [mustJoins, specParamsList]⟩
  | q :: qs, score, idx, sql, ps => by
    obtain ⟨hq1, hq2⟩ := toSql_params q score (sql ++ cmbJoin) ps
    obtain ⟨ht1, ht2⟩ := mustJoins_params qs score (idx + 1)
      ((toSql score q (sql ++ cmbJoin) ps).1 ++ cmbAs ++ natStr idx ++ cmbUsing)
      ((toSql score q (sql ++ cmbJoin) ps).2)
    constructor
    · show (mustJoins score (idx + 1) qs
          ((toSql score q (sql ++ cmbJoin) ps).1 ++ cmbAs ++ natStr idx ++ cmbUsing)
          ((toSql score q (sql ++ cmbJoin) ps).2)).2 = ps ++ specParamsList (q :: qs)
      rw [ht1, hq1, specParamsList_cons]
      simp [List.append_assoc]
    · show cntQ (mustJoins score (idx + 1) qs
          ((toSql score q (sql ++ cmbJoin) ps).1 ++ cmbAs ++ natStr idx ++ cmbUsing)
          ((toSql score q (sql ++ cmbJoin) ps).2)).1 =
        cntQ sql + (specParamsList (q :: qs)).length
      rw [ht2]
      simp only [cntQ_append, cntQ_cmbAs, cntQ_natStr, cntQ_cmbUsing]
      rw [hq2]
      simp only [cntQ_append, cntQ_cmbJoin, specParamsList_cons, List.length_append]
      omega

theorem shouldJoins_params : ∀ (qs : List Query) (score : Bool) (idx : ℕ) (sql : String)
    (ps : List String),
    (shouldJoins score idx qs sql ps).2 = ps ++ specParamsList qs ∧
      cntQ (shouldJoins score idx qs sql ps).1 = cntQ sql + (specParamsList qs).length
  | [], score, idx, sql, ps => by
    exact ⟨by simp [shouldJoins, specParamsList], by simp [shouldJoins, specParamsList]⟩
  | q :: qs, score, idx, sql, ps => by
    obtain ⟨hq1, hq2⟩ := toSql_params q score (sql ++ cmbFullJoin) ps
    obtain ⟨ht1, ht2⟩ := shouldJoins_params qs score (idx + 1)
      ((toSql score q (sql ++ cmbFullJoin) ps).1 ++ cmbAs ++ natStr idx ++ cmbUsing)
      ((toSql score q (sql ++ cmbFullJoin) ps).2)
    constructor
    · show (shouldJoins score (idx + 1) qs
          ((toSql score q (sql ++ cmbFullJoin) ps).1 ++ cmbAs ++ natStr idx ++ cmbUsing)
          ((toSql score q (sql ++ cmbFullJoin) ps).2)).2 = ps ++ specParamsList (q :: qs)
      rw [ht1, hq1, specParamsList_cons]
      simp [List.append_assoc]
    · show cntQ (shouldJoins score (idx + 1) qs
          ((toSql score q (sql ++ cmbFullJoin) ps).1 ++ cmbAs ++ natStr idx ++ cmbUsing)
          ((toSql score q (sql ++ cmbFullJoin) ps).2)).1 =
        cntQ sql + (specParamsList (q :: qs)).length
      rw [ht2]
      simp only [cntQ_append, cntQ_cmbAs, cntQ_natStr, cntQ_cmbUsing]
      rw [hq2]
      simp only [cntQ_append, cntQ_cmbFullJoin, specParamsList_cons, List.length_append]
      omega

theorem mustNotJoins_params : ∀ (qs : List Query) (idx : ℕ) (sql : String) (ps : List String),
    (mustNotJoins idx qs sql ps).2 = ps ++ specParamsList qs ∧
      cntQ (mustNotJoins idx qs sql ps).1 = cntQ sql + (specParamsList qs).length
  | [], idx, sql, ps => by
    exact ⟨by simp [mustNotJoins, specParamsList], by simp [mustNotJoins, specParamsList]⟩
  | q :: qs, idx, sql, ps => by
    obtain ⟨hq1, hq2⟩ := toSql_params q false (sql ++ cmbLeftJoin) ps
    obtain ⟨ht1, ht2⟩ := mustNotJoins_params qs (idx + 1)
      ((toSql false q (sql ++ cmbLeftJoin) ps).1 ++ cmbAs ++ natStr idx ++ cmbUsing)
      ((toSql false q (sql ++ cmbLeftJoin) ps).2)
    constructor
    · show (mustNotJoins (idx + 1) qs
          ((toSql false q (sql ++ cmbLeftJoin) ps).1 ++ cmbAs ++ natStr idx ++ cmbUsing)
          ((toSql false q (sql ++ cmbLeftJoin) ps).2)).2 = ps ++ specParamsList (q :: qs)
      rw [ht1, hq1, specParamsList_cons]
      simp [List.append_assoc]
    · show cntQ (mustNotJoins (idx + 1) qs
          ((toSql false q (sql ++ cmbLeftJoin) ps).1 ++ cmbAs ++ natStr idx ++ cmbUsing)
          ((toSql false q (sql ++ cmbLeftJoin) ps).2)).1 =
        cntQ sql + (specParamsList (q :: qs)).length
      rw [ht2]
      simp only [cntQ_append, cntQ_cmbAs, cntQ_natStr, cntQ_cmbUsing]
      rw [hq2]
      simp only [cntQ_append, cntQ_cmbLeftJoin, specParamsList_cons, List.length_append]
      omega

end


/-- C9: For every query AST built from `AllQuery`, `TermQuery`,
`PhraseQuery` and `CombinedQuery` and both scoring modes, `to_sql`
appends exactly as many `?` placeholders to the SQL string as it
pushes parameters onto the parameter vector, and the parameters are
pushed in left-to-right traversal order of the compiled query
(`must`, then `should`, then `must_not` clauses of a combined query,
phrase values left to right) after those already present.  Because the
equality holds compositionally from any starting accumulator pair, the
placeholder count ahead of each pushed parameter equals its index, so
the i-th `?` binds the i-th pushed parameter under positional binding. -/
theorem claim_C9 (q : Query) (score : Bool) (sql : String) (ps : List String) :
    (toSql score q sql ps).2 = ps ++ specParams q ∧
      cntQ (toSql score q sql ps).1 = cntQ sql + (specParams q).length :=
  toSql_params q score sql ps

/-! ## Writer invariants (positions and term counts)

Observations over the store used to state the invariants: the field a
posting belongs to (through its term), the positions recorded for a
`(field, document)` pair in insertion order, the stored document
count, and the number of postings of a term. -/

/-- The field of the term row with the given id (first match, as
`SELECT` would return it). -/
def termFieldOf : List TermRow → ℤ → Option ℤ
  | [], _ => none
  | t :: ts, tid => if t.id = tid then some t.field_id else termFieldOf ts tid

/-- The positions of the postings belonging to a field and document,
in posting-insertion order. -/
def positionsIn (terms : List TermRow) (postings : List PostingRow) (fid did : ℤ) :
    List ℕ :=
  (postings.filter fun p => termFieldOf terms p.term_id = some fid ∧ p.document_id = did).map
    PostingRow.position

def positionsOf (s : Store) (fid did : ℤ) : List ℕ :=
  positionsIn s.terms s.postings fid did

/-- The stored `count` of a `(field, document)` document record. -/
def docLookup (s : Store) (fid did : ℤ) : Option ℕ :=
  (findDoc s.documents fid did).map DocRow.count

/-- The number of posting rows whose `term_id` is the given id. -/
def countPostings (postings : List PostingRow) (tid : ℤ) : ℕ :=
  (postings.filter fun p => p.term_id = tid).length

/-- Structural well-formedness of the store: term ids are below the
rowid counter and pairwise distinct, and every posting references an
existing term. -/
def WF (s : Store) : Prop :=
  (∀ t ∈ s.terms, t.id < s.nextTermId) ∧
  (s.terms.map TermRow.id).Nodup ∧
  (∀ p ∈ s.postings, ∃ t ∈ s.terms, t.id = p.term_id)

/-- Every term's count equals its number of postings. -/
def CountInv (s : Store) : Prop :=
  ∀ t ∈ s.terms, t.count = countPostings s.postings t.id

/-- Every `(field, document)` pair's positions are exactly
`1..=count` (with count 0 when there is no document record). -/
def PosInv (s : Store) : Prop :=
  ∀ fid did, positionsOf s fid did = List.range' 1 ((docLookup s fid did).getD 0)

theorem WF_empty : WF emptyStore := by
  refine ⟨?_, ?_, ?_⟩ <;> simp [emptyStore, WF]

theorem CountInv_empty : CountInv emptyStore := by
  intro t ht
  simp [emptyStore] at ht

theorem PosInv_empty : PosInv emptyStore := fun _ _ => rfl

theorem range'_succ_right (s n : ℕ) : List.range' s (n + 1) = List.range' s n ++ [s + n] := by
  induction n generalizing s with
  | zero => simp [List.range']
  | succ n ih =>
    have h1 : List.range' s (n + 1 + 1) = s :: List.range' (s + 1) (n + 1) := rfl
    have h2 : List.range' s (n + 1) = s :: List.range' (s + 1) n := rfl
    rw [h1, ih (s + 1), h2]
    simp
    omega

theorem termFieldOf_mem (l : List TermRow) (hnd : (l.map TermRow.id).Nodup) (t : TermRow)
    (ht : t ∈ l) : termFieldOf l t.id = some t.field_id := by
  induction l with
  | nil => cases ht
  | cons h hs ih =>
    rw [termFieldOf]
    rcases List.mem_cons.mp ht with rfl | ht'
    · simp
    · have hne : h.id ≠ t.id := by
        intro he
        have : t.id ∈ hs.map TermRow.id := List.mem_map_of_mem TermRow.id ht'
        rw [← he] at this
        exact (List.nodup_cons.mp hnd).1 this
      rw [if_neg hne]
      exact ih (List.nodup_cons.mp hnd).2 ht'

theorem termFieldOf_some_mem (l : List TermRow) (tid f : ℤ)
    (h : termFieldOf l tid = some f) : ∃ t ∈ l, t.id = tid ∧ t.field_id = f := by
  induction l with
  | nil => cases h
  | cons t ts ih =>
    rw [termFieldOf] at h
    by_cases hc : t.id = tid
    · rw [if_pos hc] at h
      exact ⟨t, List.mem_cons_self t ts, hc, by injection h⟩
    · rw [if_neg hc] at h
      obtain ⟨u, hu, h1, h2⟩ := ih h
      exact ⟨u, List.mem_cons_of_mem t hu, h1, h2⟩

theorem termFieldOf_append_some (l1 l2 : List TermRow) (tid f : ℤ)
    (h : termFieldOf l1 tid = some f) : termFieldOf (l1 ++ l2) tid = some f := by
  induction l1 with
  | nil => cases h
  | cons t ts ih =>
    rw [termFieldOf] at h
    rw [List.cons_append, termFieldOf]
    by_cases hc : t.id = tid
    · rw [if_pos hc] at h ⊢
      exact h
    · rw [if_neg hc] at h ⊢
      exact ih h

theorem termFieldOf_bump (l : List TermRow) (tid0 tid : ℤ) :
    termFieldOf (l.map fun u => if u.id = tid0 then { u with count := u.count + 1 } else u) tid =
      termFieldOf l tid := by
  induction l with
  | nil => rfl
  | cons t ts ih =>
    rw [List.map_cons, termFieldOf, termFieldOf]
    have hid : (if t.id = tid0 then { t with count := t.count + 1 } else t).id = t.id := by
      split <;> rfl
    have hfd : (if t.id = tid0 then { t with count := t.count + 1 } else t).field_id =
        t.field_id := by
      split <;> rfl
    rw [hid, hfd, ih]

theorem countPostings_append (ps : List PostingRow) (p : PostingRow) (tid : ℤ) :
    countPostings (ps ++ [p]) tid =
      countPostings ps tid + (if p.term_id = tid then 1 else 0) := by
  unfold countPostings
  rw [List.filter_append, List.length_append]
  by_cases hc : p.term_id = tid
  · simp [hc]
  · simp [hc]

theorem positionsIn_append_posting (terms : List TermRow) (postings : List PostingRow)
    (p : PostingRow) (fid did : ℤ) :
    positionsIn terms (postings ++ [p]) fid did =
      positionsIn terms postings fid did ++
        (if termFieldOf terms p.term_id = some fid ∧ p.document_id = did then [p.position]
         else []) := by
  unfold positionsIn
  rw [List.filter_append, List.map_append]
  by_cases hc : termFieldOf terms p.term_id = some fid ∧ p.document_id = did
  · simp [hc]
  · simp [hc]

theorem positionsIn_congr (terms terms' : List TermRow) (postings : List PostingRow)
    (fid did : ℤ)
    (h : ∀ p ∈ postings, termFieldOf terms' p.term_id = termFieldOf terms p.term_id) :
    positionsIn terms' postings fid did = positionsIn terms postings fid did := by
  unfold positionsIn
  congr 1
  apply List.filter_congr
  intro p hp
  rw [h p hp]

theorem findTerm_some (l : List TermRow) (fid : ℤ) (v : String) (t : TermRow)
    (h : findTerm l fid v = some t) : t ∈ l ∧ t.field_id = fid ∧ t.value = v := by
  induction l with
  | nil => cases h
  | cons u us ih =>
    rw [findTerm] at h
    by_cases hc : u.field_id = fid ∧ u.value = v
    · rw [if_pos hc] at h
      injection h with h
      subst h
      exact ⟨List.mem_cons_self u us, hc⟩
    · rw [if_neg hc] at h
      obtain ⟨h1, h2⟩ := ih h
      exact ⟨List.mem_cons_of_mem u h1, h2⟩

theorem termFieldOf_append_none (l1 l2 : List TermRow) (tid : ℤ)
    (h : termFieldOf l1 tid = none) : termFieldOf (l1 ++ l2) tid = termFieldOf l2 tid := by
  induction l1 with
  | nil => rfl
  | cons t ts ih =>
    rw [termFieldOf] at h
    rw [List.cons_append, termFieldOf]
    by_cases hc : t.id = tid
    · rw [if_pos hc] at h
      cases h
    · rw [if_neg hc] at h ⊢
      exact ih h

theorem termFieldOf_none_of_lt (l : List TermRow) (tid : ℤ)
    (h : ∀ t ∈ l, t.id < tid) : termFieldOf l tid = none := by
  induction l with
  | nil => rfl
  | cons t ts ih =>
    rw [termFieldOf]
    have hne : t.id ≠ tid := ne_of_lt (h t (List.mem_cons_self t ts))
    rw [if_neg hne]
    exact ih fun u hu => h u (List.mem_cons_of_mem t hu)

/-- What one `add_term` call does to the store: postings and documents
are untouched, the returned id belongs to a term of the requested
field, field resolution of every existing posting is unchanged,
well-formedness is preserved, every term's count now matches its
postings plus one pending posting for the returned id, and the
returned id is either a field-`fid` term already resolvable in the old
store or fresh for all existing postings. -/
theorem addTerm_step (s : Store) (fid : ℤ) (tk : String)
    (hwf : WF s) (hcnt : CountInv s) :
    (addTerm s fid tk).1.postings = s.postings ∧
    (addTerm s fid tk).1.documents = s.documents ∧
    termFieldOf (addTerm s fid tk).1.terms (addTerm s fid tk).2 = some fid ∧
    (∀ p ∈ s.postings,
      termFieldOf (addTerm s fid tk).1.terms p.term_id = termFieldOf s.terms p.term_id) ∧
    WF (addTerm s fid tk).1 ∧
    (∀ t' ∈ (addTerm s fid tk).1.terms,
      t'.count = countPostings s.postings t'.id +
        (if t'.id = (addTerm s fid tk).2 then 1 else 0)) ∧
    (termFieldOf s.terms (addTerm s fid tk).2 = some fid ∨
      ∀ p ∈ s.postings, p.term_id ≠ (addTerm s fid tk).2) := by
  obtain ⟨hlt, hnd, href⟩ := hwf
  cases hft : findTerm s.terms fid tk with
  | some t =>
    obtain ⟨htm, htf, _⟩ := findTerm_some s.terms fid tk t hft
    have hstep : addTerm s fid tk =
        ({ s with terms := s.terms.map fun u =>
            if u.id = t.id then { u with count := u.count + 1 } else u }, t.id) := by
      unfold addTerm
      rw [hft]
    rw [hstep]
    have hfld : termFieldOf s.terms t.id = some t.field_id := termFieldOf_mem s.terms hnd t htm
    have hmapid : (s.terms.map fun u =>
        if u.id = t.id then { u with count := u.count + 1 } else u).map TermRow.id =
        s.terms.map TermRow.id := by
      rw [List.map_map]
      apply List.map_congr_left
      intro u _
      show (if u.id = t.id then { u with count := u.count + 1 } else u).id = u.id
      split <;> rfl
    refine ⟨rfl, rfl, ?_, ?_, ⟨?_, ?_, ?_⟩, ?_, ?_⟩
    · rw [termFieldOf_bump]
      rw [hfld, htf]
    · intro p _
      exact termFieldOf_bump s.terms t.id p.term_id
    · intro t' ht'
      obtain ⟨u, hu, hueq⟩ := List.mem_map.mp ht'
      have : t'.id = u.id := by
        rw [← hueq]
        split <;> rfl
      rw [this]
      exact hlt u hu
    · show ((s.terms.map fun u =>
        if u.id = t.id then { u with count := u.count + 1 } else u).map TermRow.id).Nodup
      rw [hmapid]
      exact hnd
    · intro p hp
      obtain ⟨u, hu, hueq⟩ := href p hp
      refine ⟨if u.id = t.id then { u with count := u.count + 1 } else u,
        List.mem_map_of_mem _ hu, ?_⟩
      have : (if u.id = t.id then { u with count := u.count + 1 } else u).id = u.id := by
        split <;> rfl
      rw [this, hueq]
    · intro t' ht'
      obtain ⟨u, hu, hueq⟩ := List.mem_map.mp ht'
      by_cases hc : u.id = t.id
      · rw [if_pos hc] at hueq
        rw [← hueq]
        show u.count + 1 = countPostings s.postings u.id + if u.id = t.id then 1 else 0
        rw [if_pos hc, hcnt u hu]
      · rw [if_neg hc] at hueq
        rw [← hueq]
        show u.count = countPostings s.postings u.id + if u.id = t.id then 1 else 0
        rw [if_neg hc, hcnt u hu]
        omega
    · left
      rw [hfld, htf]
  | none =>
    have hstep : addTerm s fid tk =
        ({ s with
            nextTermId := s.nextTermId + 1
            terms := s.terms ++ [⟨s.nextTermId, fid, tk, 1⟩] }, s.nextTermId) := by
      unfold addTerm
      rw [hft]
    rw [hstep]
    have hold : termFieldOf s.terms s.nextTermId = none :=
      termFieldOf_none_of_lt s.terms s.nextTermId hlt
    have hfresh : ∀ p ∈ s.postings, p.term_id ≠ s.nextTermId := by
      intro p hp heq
      obtain ⟨u, hu, hueq⟩ := href p hp
      rw [heq] at hueq
      exact absurd hueq (ne_of_lt (hlt u hu))
    refine ⟨rfl, rfl, ?_, ?_, ⟨?_, ?_, ?_⟩, ?_, Or.inr hfresh⟩
    · rw [termFieldOf_append_none _ _ _ hold]
      simp [termFieldOf]
    · intro p hp
      obtain ⟨u, hu, hueq⟩ := href p hp
      have : termFieldOf s.terms p.term_id = some u.field_id := by
        rw [← hueq]
        exact termFieldOf_mem s.terms hnd u hu
      rw [this]
      exact termFieldOf_append_some _ _ _ _ this
    · intro t' ht'
      rcases List.mem_append.mp ht' with h | h
      · exact lt_trans (hlt t' h) (lt_add_one _)
      · simp at h
        subst h
        exact lt_add_one _
    · rw [List.map_append]
      rw [List.nodup_append]
      refine ⟨hnd, List.nodup_singleton _, ?_⟩
      intro x hx
      simp only [List.map_cons, List.map_nil, List.mem_singleton]
      intro hx2
      obtain ⟨u, hu, hueq⟩ := List.mem_map.mp hx
      rw [hx2] at hueq
      exact absurd hueq (ne_of_lt (hlt u hu))
    · intro p hp
      obtain ⟨u, hu, hueq⟩ := href p hp
      exact ⟨u, List.mem_append_left _ hu, hueq⟩
    · intro t' ht'
      rcases List.mem_append.mp ht' with h | h
      · have hne : t'.id ≠ s.nextTermId := ne_of_lt (hlt t' h)
        rw [if_neg hne, hcnt t' h]
        omega
      · simp at h
        subst h
        have hz : countPostings s.postings s.nextTermId = 0 := by
          unfold countPostings
          rw [List.length_eq_zero]
          rw [List.filter_eq_nil_iff]
          intro p hp
          simpa using hfresh p hp
        simp [hz]

/-- The token loop of `add_text`: starting from a store whose
positions for the target pair are `1..=pos`, ingesting `tks` tokens
succeeds, extends those positions to `1..=pos + tks.length`, leaves
all other pairs' positions and the documents table unchanged, and
preserves well-formedness and the count invariant. -/
theorem addTokens_spec (fid did : ℤ) (tks : List String) :
    ∀ (s : Store) (pos : ℕ),
      WF s → CountInv s →
      positionsOf s fid did = List.range' 1 pos →
      ∃ s', addTokens fid did tks s pos = .ok (s', pos + tks.length) ∧
        WF s' ∧ CountInv s' ∧
        s'.documents = s.documents ∧
        positionsOf s' fid did = List.range' 1 (pos + tks.length) ∧
        (∀ f d, ¬(f = fid ∧ d = did) → positionsOf s' f d = positionsOf s f d) := by
  induction tks with
  | nil =>
    intro s pos hwf hcnt hpos
    exact ⟨s, rfl, hwf, hcnt, rfl, hpos, fun f d _ => rfl⟩
  | cons tk tks ih =>
    intro s pos hwf hcnt hpos
    obtain ⟨hp1, hp2, hfld, hpres, hwf1, hcnt1, hdisj⟩ := addTerm_step s fid tk hwf hcnt
    have hpos1 : ∀ f d, positionsOf (addTerm s fid tk).1 f d = positionsOf s f d := by
      intro f d
      show positionsIn (addTerm s fid tk).1.terms (addTerm s fid tk).1.postings f d =
        positionsIn s.terms s.postings f d
      rw [hp1]
      exact positionsIn_congr s.terms (addTerm s fid tk).1.terms s.postings f d hpres
    have hnodup : ¬ ((addTerm s fid tk).1.postings.any fun p =>
        decide (p.term_id = (addTerm s fid tk).2 ∧ p.document_id = did ∧
          p.position = pos + 1)) = true := by
      rw [hp1]
      intro hany
      obtain ⟨p, hp, hcond⟩ := List.any_eq_true.mp hany
      obtain ⟨hc1, hc2, hc3⟩ := of_decide_eq_true hcond
      rcases hdisj with hres | hfresh
      · have hpin : p.position ∈ positionsOf s fid did := by
          unfold positionsOf positionsIn
          apply List.mem_map_of_mem
          apply List.mem_filter.mpr
          refine ⟨hp, decide_eq_true ⟨by rw [hc1]; exact hres, hc2⟩⟩
        rw [hpos, List.mem_range'_1] at hpin
        omega
      · exact hfresh p hp hc1
    have hpost : addPosting (addTerm s fid tk).1 (addTerm s fid tk).2 did (pos + 1) =
        .ok { (addTerm s fid tk).1 with postings :=
          (addTerm s fid tk).1.postings ++ [⟨(addTerm s fid tk).2, did, pos + 1⟩] } := by
      unfold addPosting
      rw [if_neg hnodup]
    have hwf2 : WF { (addTerm s fid tk).1 with postings :=
        (addTerm s fid tk).1.postings ++ [⟨(addTerm s fid tk).2, did, pos + 1⟩] } := by
      refine ⟨hwf1.1, hwf1.2.1, ?_⟩
      intro p hp
      rcases List.mem_append.mp hp with h | h
      · exact hwf1.2.2 p h
      · simp at h
        subst h
        obtain ⟨t, htm, ht1, _⟩ := termFieldOf_some_mem _ _ _ hfld
        exact ⟨t, htm, ht1⟩
    have hcnt2 : CountInv { (addTerm s fid tk).1 with postings :=
        (addTerm s fid tk).1.postings ++ [⟨(addTerm s fid tk).2, did, pos + 1⟩] } := by
      intro t' ht'
      have hcp : countPostings ((addTerm s fid tk).1.postings ++
          [⟨(addTerm s fid tk).2, did, pos + 1⟩]) t'.id =
          countPostings s.postings t'.id +
            (if t'.id = (addTerm s fid tk).2 then 1 else 0) := by
        rw [countPostings_append, hp1]
        by_cases hc : t'.id = (addTerm s fid tk).2
        · rw [if_pos hc, if_pos hc.symm]
        · rw [if_neg hc, if_neg fun he => hc he.symm]
      show t'.count = countPostings ((addTerm s fid tk).1.postings ++
        [⟨(addTerm s fid tk).2, did, pos + 1⟩]) t'.id
      rw [hcp]
      exact hcnt1 t' ht'
    have hposS2 : positionsOf { (addTerm s fid tk).1 with postings :=
        (addTerm s fid tk).1.postings ++ [⟨(addTerm s fid tk).2, did, pos + 1⟩] } fid did =
        List.range' 1 (pos + 1) := by
      show positionsIn (addTerm s fid tk).1.terms ((addTerm s fid tk).1.postings ++
        [⟨(addTerm s fid tk).2, did, pos + 1⟩]) fid did = List.range' 1 (pos + 1)
      rw [positionsIn_append_posting]
      have hcond : termFieldOf (addTerm s fid tk).1.terms
          (⟨(addTerm s fid tk).2, did, pos + 1⟩ : PostingRow).term_id = some fid ∧
          (⟨(addTerm s fid tk).2, did, pos + 1⟩ : PostingRow).document_id = did :=
        ⟨hfld, rfl⟩
      rw [if_pos hcond]
      have : positionsIn (addTerm s fid tk).1.terms (addTerm s fid tk).1.postings fid did =
          List.range' 1 pos := by
        show positionsOf (addTerm s fid tk).1 fid did = List.range' 1 pos
        rw [hpos1 fid did]
        exact hpos
      rw [this, range'_succ_right]
      simp [Nat.add_comm]
    have hposS2o : ∀ f d, ¬(f = fid ∧ d = did) →
        positionsOf { (addTerm s fid tk).1 with postings :=
          (addTerm s fid tk).1.postings ++ [⟨(addTerm s fid tk).2, did, pos + 1⟩] } f d =
        positionsOf s f d := by
      intro f d hfd
      show positionsIn (addTerm s fid tk).1.terms ((addTerm s fid tk).1.postings ++
        [⟨(addTerm s fid tk).2, did, pos + 1⟩]) f d = positionsOf s f d
      rw [positionsIn_append_posting]
      have hcond : ¬(termFieldOf (addTerm s fid tk).1.terms
          (⟨(addTerm s fid tk).2, did, pos + 1⟩ : PostingRow).term_id = some f ∧
          (⟨(addTerm s fid tk).2, did, pos + 1⟩ : PostingRow).document_id = d) := by
        rintro ⟨hcf, hcd⟩
        rcases not_and_or.mp hfd with hne | hne
        · rw [hfld] at hcf
          injection hcf with hcf
          exact hne hcf.symm
        · exact hne hcd.symm
      rw [if_neg hcond]
      rw [List.append_nil]
      exact hpos1 f d
    have hstep : addTokens fid did (tk :: tks) s pos =
        (addPosting (addTerm s fid tk).1 (addTerm s fid tk).2 did (pos + 1) >>=
          fun s => addTokens fid did tks s (pos + 1)) := rfl
    rw [hstep, hpost, ok_bind]
    obtain ⟨s', ha, hw, hc, hd, hpp, hoth⟩ := ih _ (pos + 1) hwf2 hcnt2 hposS2
    refine ⟨s', ?_, hw, hc, ?_, ?_, ?_⟩
    · rw [ha]
      have : pos + 1 + tks.length = pos + (tk :: tks).length := by
        simp [List.length_cons]
        omega
      rw [this]
    · rw [hd]
      exact hp2
    · rw [hpp]
      have : pos + 1 + tks.length = pos + (tk :: tks).length := by
        simp [List.length_cons]
        omega
      rw [this]
    · intro f d hfd
      rw [hoth f d hfd, hposS2o f d hfd]

theorem resetPosition_eq (s : Store) (fid did : ℤ) :
    resetPosition s fid did = (docLookup s fid did).getD 0 := by
  unfold resetPosition docLookup
  cases findDoc s.documents fid did <;> rfl

theorem addDocument_positions (s : Store) (fid did : ℤ) (pos : ℕ) (f d : ℤ) :
    positionsOf (addDocument s fid did pos) f d = positionsOf s f d := by
  unfold addDocument
  split <;> rfl

theorem addDocument_WF (s : Store) (fid did : ℤ) (pos : ℕ) (h : WF s) :
    WF (addDocument s fid did pos) := by
  unfold addDocument
  split <;> exact h

theorem addDocument_CountInv (s : Store) (fid did : ℤ) (pos : ℕ) (h : CountInv s) :
    CountInv (addDocument s fid did pos) := by
  unfold addDocument
  split <;> exact h

theorem findDoc_map_upd (ds : List DocRow) (fid did : ℤ) (pos : ℕ)
    (h : ∃ d ∈ ds, d.field_id = fid ∧ d.document_id = did) :
    (findDoc (ds.map fun d =>
        if d.field_id = fid ∧ d.document_id = did then { d with count := pos } else d)
      fid did).map DocRow.count = some pos := by
  induction ds with
  | nil => obtain ⟨d, hd, _⟩ := h; cases hd
  | cons u us ih =>
    rw [List.map_cons, findDoc]
    by_cases hu : u.field_id = fid ∧ u.document_id = did
    · rw [if_pos hu]
      have hmatch : ({ u with count := pos } : DocRow).field_id = fid ∧
          ({ u with count := pos } : DocRow).document_id = did := hu
      rw [if_pos hmatch]
      rfl
    · rw [if_neg hu, if_neg hu]
      apply ih
      obtain ⟨d, hd, hdm⟩ := h
      rcases List.mem_cons.mp hd with rfl | hd'
      · exact absurd hdm hu
      · exact ⟨d, hd', hdm⟩

theorem findDoc_map_upd_other (ds : List DocRow) (fid did : ℤ) (pos : ℕ) (f d : ℤ)
    (hne : ¬(f = fid ∧ d = did)) :
    findDoc (ds.map fun u =>
        if u.field_id = fid ∧ u.document_id = did then { u with count := pos } else u)
      f d = findDoc ds f d := by
  induction ds with
  | nil => rfl
  | cons u us ih =>
    rw [List.map_cons, findDoc, findDoc]
    by_cases hu : u.field_id = fid ∧ u.document_id = did
    · rw [if_pos hu]
      have hnm : ¬(({ u with count := pos } : DocRow).field_id = f ∧
          ({ u with count := pos } : DocRow).document_id = d) := by
        rintro ⟨h1, h2⟩
        exact hne ⟨by rw [← h1]; exact hu.1, by rw [← h2]; exact hu.2⟩
      have hnm' : ¬(u.field_id = f ∧ u.document_id = d) := hnm
      rw [if_neg hnm, if_neg hnm']
      exact ih
    · rw [if_neg hu]
      by_cases hc : u.field_id = f ∧ u.document_id = d
      · rw [if_pos hc, if_pos hc]
      · rw [if_neg hc, if_neg hc]
        exact ih

theorem findDoc_append_other (ds : List DocRow) (row : DocRow) (f d : ℤ)
    (hne : ¬(row.field_id = f ∧ row.document_id = d)) :
    findDoc (ds ++ [row]) f d = findDoc ds f d := by
  induction ds with
  | nil =>
    show findDoc [row] f d = none
    rw [findDoc, if_neg hne]
    rfl
  | cons u us ih =>
    rw [List.cons_append, findDoc, findDoc]
    by_cases hc : u.field_id = f ∧ u.document_id = d
    · rw [if_pos hc, if_pos hc]
    · rw [if_neg hc, if_neg hc]
      exact ih

theorem addDocument_lookup_self (s : Store) (fid did : ℤ) (pos : ℕ) :
    docLookup (addDocument s fid did pos) fid did = some pos := by
  unfold addDocument docLookup
  by_cases hany : (s.documents.any fun d => decide (d.field_id = fid ∧ d.document_id = did)) = true
  · rw [if_pos hany]
    obtain ⟨d, hd, hdec⟩ := List.any_eq_true.mp hany
    exact findDoc_map_upd s.documents fid did pos ⟨d, hd, of_decide_eq_true hdec⟩
  · rw [if_neg hany]
    have hnone : findDoc s.documents fid did = none := by
      rw [findDoc_none_iff]
      intro d hd hdm
      exact hany (List.any_eq_true.mpr ⟨d, hd, decide_eq_true hdm⟩)
    rw [findDoc_append_none s.documents fid did ⟨fid, did, pos⟩ hnone ⟨rfl, rfl⟩]
    rfl

theorem addDocument_lookup_other (s : Store) (fid did : ℤ) (pos : ℕ) (f d : ℤ)
    (hne : ¬(f = fid ∧ d = did)) :
    docLookup (addDocument s fid did pos) f d = docLookup s f d := by
  unfold addDocument docLookup
  split
  · rw [findDoc_map_upd_other s.documents fid did pos f d hne]
  · rw [findDoc_append_other]
    rintro ⟨h1, h2⟩
    exact hne ⟨h1.symm, h2.symm⟩

/-- Model of `add_text` preserves the store invariants, and the document record
of the target pair ends at the old stored count plus the number of
emitted tokens (position numbering resumes from the stored count and
`count` is overwritten with the new final position). -/
theorem addText_inv (env : Env) (s : Store) (did : ℤ) (fn text : String)
    (hwf : WF s) (hcnt : CountInv s) (hpos : PosInv s) :
    ∀ s', addText env s did fn text = .ok s' →
      WF s' ∧ CountInv s' ∧ PosInv s' ∧
      (∀ field tok, env.fields fn = some field →
        env.tokenizers field.tokenizer = some tok →
        docLookup s' field.id did =
          some ((docLookup s field.id did).getD 0 + (tok text).length)) := by
  intro s' hs'
  cases hf : env.fields fn with
  | none =>
    rw [show addText env s did fn text = .error (.noSuchField fn) from by
      simp only [addText, hf, error_bind]] at hs'
    cases hs'
  | some field =>
  cases htk : env.tokenizers field.tokenizer with
  | none =>
    rw [show addText env s did fn text = .error (.noSuchTokenizer field.tokenizer) from by
      simp only [addText, hf, htk, ok_bind, error_bind]] at hs'
    cases hs'
  | some tok =>
  have hred : addText env s did fn text =
      (addTokens field.id did (tok text) s (resetPosition s field.id did) >>=
        fun sp => .ok (addDocument sp.1 field.id did sp.2)) := by
    simp only [addText, hf, htk, ok_bind]
  have hpos0 : positionsOf s field.id did =
      List.range' 1 (resetPosition s field.id did) := by
    rw [hpos field.id did, resetPosition_eq]
  obtain ⟨s2, ha, hw2, hc2, hd2, hp2, ho2⟩ :=
    addTokens_spec field.id did (tok text) s (resetPosition s field.id did) hwf hcnt hpos0
  rw [hred, ha, ok_bind] at hs'
  have hs2 : s' = addDocument s2 field.id did
      (resetPosition s field.id did + (tok text).length) := by
    injection hs' with h
    exact h.symm
  subst hs2
  have hlookS2 : ∀ f d, docLookup s2 f d = docLookup s f d := by
    intro f d
    unfold docLookup
    rw [hd2]
  refine ⟨addDocument_WF _ _ _ _ hw2, addDocument_CountInv _ _ _ _ hc2, ?_, ?_⟩
  · intro f d
    rw [addDocument_positions]
    by_cases hfd : f = field.id ∧ d = did
    · obtain ⟨rfl, rfl⟩ := hfd
      rw [hp2, addDocument_lookup_self]
      rfl
    · rw [ho2 f d hfd, addDocument_lookup_other _ _ _ _ _ _ hfd, hlookS2 f d]
      exact hpos f d
  · intro field' tok' hf' htk'
    injection hf' with hfe
    subst hfe
    have hee := htk.symm.trans htk'
    injection hee with hee
    subst hee
    rw [addDocument_lookup_self, resetPosition_eq]

/-- Invariant preservation over a whole sequence of `add_text` calls. -/
theorem applyCalls_inv (env : Env) :
    ∀ (calls : List (ℤ × String × String)) (s : Store),
      WF s → CountInv s → PosInv s →
      ∀ s', applyCalls env s calls = .ok s' → WF s' ∧ CountInv s' ∧ PosInv s' := by
  intro calls
  induction calls with
  | nil =>
    intro s hwf hcnt hpos s' hs'
    injection hs' with h
    subst h
    exact ⟨hwf, hcnt, hpos⟩
  | cons c calls ih =>
    intro s hwf hcnt hpos s' hs'
    rcases c with ⟨did, fn, text⟩
    rw [show applyCalls env s ((did, fn, text) :: calls) =
        (addText env s did fn text >>= fun s => applyCalls env s calls) from rfl] at hs'
    cases hmid : addText env s did fn text with
    | error e =>
      rw [hmid, error_bind] at hs'
      cases hs'
    | ok smid =>
      rw [hmid, ok_bind] at hs'
      obtain ⟨hw, hc, hp, _⟩ := addText_inv env s did fn text hwf hcnt hpos smid hmid
      exact ih smid hw hc hp s' hs'

/-- C4: After any sequence of successful `add_text` calls within one
rewrite session, every `(field, document)` pair with a document record
of count `c` has as its posting positions exactly the contiguous range
`1..=c`; and a further `add_text` to a pair resumes numbering from the
stored count: the record's count becomes the old stored count plus the
number of freshly emitted tokens, i.e. the new final position. -/
theorem claim_C4 (env : Env) (calls : List (ℤ × String × String)) (s : Store)
    (h : applyCalls env emptyStore calls = .ok s) :
    (∀ fid did c, docLookup s fid did = some c →
      positionsOf s fid did = List.range' 1 c) ∧
    (∀ s' did fn text field tok, env.fields fn = some field →
      env.tokenizers field.tokenizer = some tok →
      addText env s did fn text = .ok s' →
      docLookup s' field.id did =
        some ((docLookup s field.id did).getD 0 + (tok text).length)) := by
  obtain ⟨hw, hc, hp⟩ :=
    applyCalls_inv env calls emptyStore WF_empty CountInv_empty PosInv_empty s h
  constructor
  · intro fid did c hdl
    have hpp := hp fid did
    rw [hdl] at hpp
    exact hpp
  · intro s' did fn text field tok hf htk hadd
    exact (addText_inv env s did fn text hw hc hp s' hadd).2.2.2 field tok hf htk

/-- C5: After any sequence of successful `add_text` calls within one
rewrite session (and hence after commit, which does not change the
tables), every row of the terms table has `count` equal to the number
of posting rows whose `term_id` is that term's id. -/
theorem claim_C5 (env : Env) (calls : List (ℤ × String × String)) (s : Store)
    (h : applyCalls env emptyStore calls = .ok s) :
    ∀ t ∈ s.terms, t.count = (s.postings.filter fun p => p.term_id = t.id).length := by
  obtain ⟨hw, hc, hp⟩ :=
    applyCalls_inv env calls emptyStore WF_empty CountInv_empty PosInv_empty s h
  exact hc

/-- A concrete environment binding field `"f"` (id 1) to the stub
tokenizer. -/
def envStub : Env :=
  ⟨fun n => if n = "f" then some ⟨1, "stub", 0, 0⟩ else none,
   fun n => if n = "stub" then some stubTok else none,
   Config.default⟩

def c4Calls : List (ℤ × String × String) :=
  [(5, "f", "alpha"), (5, "f", "beta"), (6, "f", "gamma")]

def c4Store : Store :=
  match applyCalls envStub emptyStore c4Calls with
  | .ok s => s
  | .error _ => emptyStore

theorem claim_C4_witness :
    applyCalls envStub emptyStore c4Calls = .ok c4Store ∧
    ((∀ fid did c, docLookup c4Store fid did = some c →
        positionsOf c4Store fid did = List.range' 1 c) ∧
      (∀ s' did fn text field tok, envStub.fields fn = some field →
        envStub.tokenizers field.tokenizer = some tok →
        addText envStub c4Store did fn text = .ok s' →
        docLookup s' field.id did =
          some ((docLookup c4Store field.id did).getD 0 + (tok text).length))) :=
  ⟨rfl, claim_C4 envStub c4Calls c4Store rfl⟩

theorem claim_C5_witness :
    applyCalls envStub emptyStore c4Calls = .ok c4Store ∧
    ∀ t ∈ c4Store.terms,
      t.count = (c4Store.postings.filter fun p => p.term_id = t.id).length :=
  ⟨rfl, claim_C5 envStub c4Calls c4Store rfl⟩

end Canter
